import Mathlib

/-!
# Gesture decoding engine of `gesture_sensor.c`

A shallow embedding of the gesture decoding core of the APDS-9960 driver
(`src/Gesture_sensor/src/gesture_sensor.c`; `src/gesture_sensor.c` holds the same
functions with a different brace style):

* `resetGestureParameters` : the session reset,
* `processGestureData`     : the ratio classifier,
* `decodeGesture`          : the direction resolver,
* `isGestureAvailable`, `getMode`, `readGesture` : the polling driver.

The C file keeps its session in file-scope globals; here they are the fields of
`Globals`, and every function takes the globals and returns the new ones.

The header `include/gesture_sensor.h` is not part of the sources at hand, so

* the calibration macros `GESTURE_THRESHOLD_OUT`, `GESTURE_SENSITIVITY_1` and
  `GESTURE_SENSITIVITY_2` are parameters (`Params`);
* the declarations of the globals are taken from the data model of the
  specification: sample bytes and run counters are natural numbers, the
  accumulators and the swipe counts are (mathematical) integers.

The locals of `processGestureData` are C `int`s.  Every value they hold is a
ratio in `[-100, 100]` or a difference of two ratios, so no machine overflow can
occur in them and they are embedded as integers.  Integer division is the C
division, truncating toward zero (`Int.tdiv`); a division by zero has no defined
result, and the embedding returns `none` for it.
-/

namespace GestureSensor

/-! ## Data model -/

/-- Calibration macros of `include/gesture_sensor.h`, taken as parameters. -/
structure Params where
  /-- Out-of-range threshold of the two buffer scans. -/
  GESTURE_THRESHOLD_OUT : Int
  /-- Swipe threshold on the accumulated deltas. -/
  GESTURE_SENSITIVITY_1 : Int
  /-- Near/far threshold on the step deltas. -/
  GESTURE_SENSITIVITY_2 : Int
deriving DecidableEq, Repr

/-- Modelled from the spec: the values of the global `gesture_state_`, whose
enumerators are declared in the absent header.  `NONE` is the value written as the
literal `0` by `resetGestureParameters`; `NEAR_STATE` and `FAR_STATE` are the two
names the C file uses. -/
inductive MotionState where
  | NONE
  | NEAR_STATE
  | FAR_STATE
deriving DecidableEq, Repr

/-- Modelled from the spec: the gesture symbols stored in `gesture_motion_` and
returned by `readGesture`; the enumerators `DIR_*` and the macro `ERROR` are
declared in the absent header. -/
inductive GestureSymbol where
  | DIR_NONE
  | DIR_LEFT
  | DIR_RIGHT
  | DIR_UP
  | DIR_DOWN
  | DIR_NEAR
  | DIR_FAR
  | ERROR
deriving DecidableEq, Repr

/-- Modelled from the spec: the struct type of the global `gesture_data_` (declared in
the absent header): four parallel byte arrays of capacity 32, the write index and the
number of valid entries.  An array is the list of its cells; `readCell` reads one. -/
structure gesture_data_type where
  u_data : List Nat
  d_data : List Nat
  l_data : List Nat
  r_data : List Nat
  index : Nat
  total_gestures : Nat
deriving DecidableEq, Repr

/-- The file-scope globals of `gesture_sensor.c`. -/
structure Globals where
  gesture_data_ : gesture_data_type
  gesture_ud_delta_ : Int
  gesture_lr_delta_ : Int
  gesture_ud_count_ : Int
  gesture_lr_count_ : Int
  gesture_near_count_ : Nat
  gesture_far_count_ : Nat
  gesture_state_ : MotionState
  gesture_motion_ : GestureSymbol
deriving DecidableEq, Repr

/-- The read `a[i]` of a byte array. -/
def readCell (a : List Nat) (i : Nat) : Nat := a.getD i 0

/-- The four locals `u_*`, `d_*`, `l_*`, `r_*` of `processGestureData`. -/
structure Quad where
  u : Nat
  d : Nat
  l : Nat
  r : Nat
deriving DecidableEq, Repr

/-- The quad stored at index `i` of the sample buffer. -/
def quadAt (g : gesture_data_type) (i : Nat) : Quad :=
  { u := readCell g.u_data i, d := readCell g.d_data i,
    l := readCell g.l_data i, r := readCell g.r_data i }

/-- The initial value of the locals `*_first` and `*_last`. -/
def zeroQuad : Quad := { u := 0, d := 0, l := 0, r := 0 }

/-! ## `resetGestureParameters` -/

/-- `resetGestureParameters` (lines 363-379). -/
def resetGestureParameters (s : Globals) : Globals :=
  { gesture_data_ := { s.gesture_data_ with index := 0, total_gestures := 0 },
    gesture_ud_delta_ := 0,
    gesture_lr_delta_ := 0,
    gesture_ud_count_ := 0,
    gesture_lr_count_ := 0,
    gesture_near_count_ := 0,
    gesture_far_count_ := 0,
    gesture_state_ := MotionState.NONE,
    gesture_motion_ := GestureSymbol.DIR_NONE }

/-! ## `processGestureData` -/

/-- The condition of both scans at index `i`: all four channels are strictly
greater than `GESTURE_THRESHOLD_OUT`. -/
def aboveThreshold (P : Params) (g : gesture_data_type) (i : Nat) : Bool :=
  decide ((readCell g.u_data i : Int) > P.GESTURE_THRESHOLD_OUT) &&
  decide ((readCell g.d_data i : Int) > P.GESTURE_THRESHOLD_OUT) &&
  decide ((readCell g.l_data i : Int) > P.GESTURE_THRESHOLD_OUT) &&
  decide ((readCell g.r_data i : Int) > P.GESTURE_THRESHOLD_OUT)

/-- The loop `for (i = i0; i < total; i++) if (p i) break;` with `n = total - i0`
iterations left: the index at which it breaks, if it does. -/
def scanForward (p : Nat → Bool) : Nat → Nat → Option Nat
  | 0, _ => none
  | n + 1, i => if p i then some i else scanForward p n (i + 1)

/-- The loop `for (i = n - 1; i >= 0; i--) if (p i) break;`: the index at which it
breaks, if it does. -/
def scanBackward (p : Nat → Bool) : Nat → Option Nat
  | 0 => none
  | n + 1 => if p n then some n else scanBackward p n

/-- The locals `*_first` after the forward scan (lines 693-708): the quad at the
index where the loop breaks, the initial zeroes when it runs to the end. -/
def firstQuad (P : Params) (g : gesture_data_type) : Quad :=
  match scanForward (aboveThreshold P g) g.total_gestures 0 with
  | some i => quadAt g i
  | none => zeroQuad

/-- The locals `*_last` after the backward scan (lines 718-733). -/
def lastQuad (P : Params) (g : gesture_data_type) : Quad :=
  match scanBackward (aboveThreshold P g) g.total_gestures with
  | some i => quadAt g i
  | none => zeroQuad

/-- The expression `((a - b) * 100) / (a + b)` on two bytes promoted to `int`:
C division truncates toward zero; dividing by zero has no defined result. -/
def ratio (a b : Nat) : Option Int :=
  if (a : Int) + (b : Int) = 0 then none
  else some (Int.tdiv (((a : Int) - (b : Int)) * 100) ((a : Int) + (b : Int)))

/-- The locals `ud_delta`, `lr_delta` (lines 736-744): last ratio minus first ratio
on each axis. -/
def stepDeltas (first last : Quad) : Option (Int × Int) :=
  match ratio first.u first.d, ratio first.l first.r,
        ratio last.u last.d, ratio last.l last.r with
  | some ud_ratio_first, some lr_ratio_first, some ud_ratio_last, some lr_ratio_last =>
      some (ud_ratio_last - ud_ratio_first, lr_ratio_last - lr_ratio_first)
  | _, _, _, _ => none

/-- The three-way comparison of an accumulated delta with `GESTURE_SENSITIVITY_1`
(lines 750-776). -/
def swipeCount (P : Params) (delta : Int) : Int :=
  if delta ≥ P.GESTURE_SENSITIVITY_1 then 1
  else if delta ≤ -P.GESTURE_SENSITIVITY_1 then -1
  else 0

/-- Lines 746-776: accumulate the step into the two accumulators and recompute both
swipe counts from the accumulated values. -/
def accumulate (P : Params) (ud_delta lr_delta : Int) (s : Globals) : Globals :=
  { s with
    gesture_ud_delta_ := s.gesture_ud_delta_ + ud_delta,
    gesture_lr_delta_ := s.gesture_lr_delta_ + lr_delta,
    gesture_ud_count_ := swipeCount P (s.gesture_ud_delta_ + ud_delta),
    gesture_lr_count_ := swipeCount P (s.gesture_lr_delta_ + lr_delta) }

/-- The `return` statement through which `processGestureData` leaves. -/
inductive ProcExit where
  /-- `return false` of the `total_gestures <= 4` test (line 685). -/
  | InsufficientData
  /-- `return false` of the test on the `*_first` locals (line 715). -/
  | NoValidSample
  /-- `return true` (line 805). -/
  | Confirmed
  /-- The final `return false` (line 829). -/
  | NoVerdict
deriving DecidableEq, Repr

/-- The near/far block (lines 778-829), run on the globals after `accumulate`. -/
def nearFar (P : Params) (ud_delta lr_delta : Int) (s : Globals) : ProcExit × Globals :=
  if s.gesture_ud_count_ = 0 ∧ s.gesture_lr_count_ = 0 then
    if |ud_delta| < P.GESTURE_SENSITIVITY_2 ∧ |lr_delta| < P.GESTURE_SENSITIVITY_2 then
      let s1 : Globals :=
        if ud_delta = 0 ∧ lr_delta = 0 then
          { s with gesture_near_count_ := s.gesture_near_count_ + 1 }
        else if ud_delta ≠ 0 ∨ lr_delta ≠ 0 then
          { s with gesture_far_count_ := s.gesture_far_count_ + 1 }
        else s
      if s1.gesture_near_count_ ≥ 10 ∧ s1.gesture_far_count_ ≥ 2 then
        let s2 : Globals :=
          if ud_delta = 0 ∧ lr_delta = 0 then
            { s1 with gesture_state_ := MotionState.NEAR_STATE }
          else if ud_delta ≠ 0 ∧ lr_delta ≠ 0 then
            { s1 with gesture_state_ := MotionState.FAR_STATE }
          else s1
        (ProcExit.Confirmed, s2)
      else (ProcExit.NoVerdict, s1)
    else (ProcExit.NoVerdict, s)
  else
    if |ud_delta| < P.GESTURE_SENSITIVITY_2 ∧ |lr_delta| < P.GESTURE_SENSITIVITY_2 then
      let s1 : Globals :=
        if ud_delta = 0 ∧ lr_delta = 0 then
          { s with gesture_near_count_ := s.gesture_near_count_ + 1 }
        else s
      let s2 : Globals :=
        if s1.gesture_near_count_ ≥ 10 then
          { s1 with gesture_ud_count_ := 0, gesture_lr_count_ := 0,
                    gesture_ud_delta_ := 0, gesture_lr_delta_ := 0 }
        else s1
      (ProcExit.NoVerdict, s2)
    else (ProcExit.NoVerdict, s)

/-- Lines 735-829 of `processGestureData`, from the values of the `*_first` and
`*_last` locals on: ratios, step, accumulation, swipe counts, near/far block. -/
def classifyFrom (P : Params) (first last : Quad) (s : Globals) :
    Option (ProcExit × Globals) :=
  match stepDeltas first last with
  | some (ud_delta, lr_delta) => some (nearFar P ud_delta lr_delta (accumulate P ud_delta lr_delta s))
  | none => none

/-- The test of lines 711-712 on the `*_first` locals: one of them is 0. -/
def hasZeroChannel (q : Quad) : Prop :=
  q.u = 0 ∨ q.d = 0 ∨ q.l = 0 ∨ q.r = 0

instance (q : Quad) : Decidable (hasZeroChannel q) := by
  unfold hasZeroChannel; infer_instance

/-- The body of `processGestureData` (lines 664-830), with the `return` statement
taken and the globals after the call; `none` when a ratio divides by zero. -/
def processGestureDataExit (P : Params) (s : Globals) : Option (ProcExit × Globals) :=
  if s.gesture_data_.total_gestures ≤ 4 then
    some (ProcExit.InsufficientData, s)
  else if s.gesture_data_.total_gestures ≤ 32 ∧ s.gesture_data_.total_gestures > 0 then
    let first := firstQuad P s.gesture_data_
    if hasZeroChannel first then
      some (ProcExit.NoValidSample, s)
    else
      classifyFrom P first (lastQuad P s.gesture_data_) s
  else
    classifyFrom P zeroQuad zeroQuad s

/-- The boolean a `return` statement of `processGestureData` yields. -/
def ProcExit.toBool : ProcExit → Bool
  | ProcExit.Confirmed => true
  | _ => false

/-- `processGestureData` as the C caller sees it: the returned boolean and the
globals after the call. -/
def processGestureData (P : Params) (s : Globals) : Option (Bool × Globals) :=
  (processGestureDataExit P s).map (fun r => (r.1.toBool, r.2))

/-- The condition under which the stabilization reset of lines 818-825 is executed in
a call whose step is `(ud_delta, lr_delta)`: at least one recomputed swipe count is
nonzero, both step deltas are strictly inside `GESTURE_SENSITIVITY_2`, and the near
counter, after its increment on a `(0,0)` step, is at least 10. -/
def stabilizationFires (P : Params) (ud_delta lr_delta : Int) (s : Globals) : Prop :=
  ¬ (swipeCount P (s.gesture_ud_delta_ + ud_delta) = 0 ∧
      swipeCount P (s.gesture_lr_delta_ + lr_delta) = 0) ∧
  |ud_delta| < P.GESTURE_SENSITIVITY_2 ∧ |lr_delta| < P.GESTURE_SENSITIVITY_2 ∧
  s.gesture_near_count_ + (if ud_delta = 0 ∧ lr_delta = 0 then 1 else 0) ≥ 10

instance (P : Params) (ud_delta lr_delta : Int) (s : Globals) :
    Decidable (stabilizationFires P ud_delta lr_delta s) := by
  unfold stabilizationFires; infer_instance

/-- The swipe-verdict predicate in the words of the specification: each swipe count is
`+1` if its accumulated delta is `>= GESTURE_SENSITIVITY_1`, `-1` if it is
`<= -GESTURE_SENSITIVITY_1`, and `0` otherwise. -/
def swipeVerdictInv (P : Params) (s : Globals) : Prop :=
  (s.gesture_ud_delta_ ≥ P.GESTURE_SENSITIVITY_1 → s.gesture_ud_count_ = 1) ∧
  (s.gesture_ud_delta_ ≤ -P.GESTURE_SENSITIVITY_1 → s.gesture_ud_count_ = -1) ∧
  (¬ s.gesture_ud_delta_ ≥ P.GESTURE_SENSITIVITY_1 →
    ¬ s.gesture_ud_delta_ ≤ -P.GESTURE_SENSITIVITY_1 → s.gesture_ud_count_ = 0) ∧
  (s.gesture_lr_delta_ ≥ P.GESTURE_SENSITIVITY_1 → s.gesture_lr_count_ = 1) ∧
  (s.gesture_lr_delta_ ≤ -P.GESTURE_SENSITIVITY_1 → s.gesture_lr_count_ = -1) ∧
  (¬ s.gesture_lr_delta_ ≥ P.GESTURE_SENSITIVITY_1 →
    ¬ s.gesture_lr_delta_ ≤ -P.GESTURE_SENSITIVITY_1 → s.gesture_lr_count_ = 0)

instance (P : Params) (s : Globals) : Decidable (swipeVerdictInv P s) := by
  unfold swipeVerdictInv; infer_instance

/-! ## `decodeGesture` -/

/-- The assignment `gesture_motion_ = m; ... return true;` of `decodeGesture`. -/
def setMotion (s : Globals) (m : GestureSymbol) : Bool × Globals :=
  (true, { s with gesture_motion_ := m })

/-- `decodeGesture` (lines 832-913): the returned boolean and the globals after the
call.  The near/far states are tested first, then the eight combinations of swipe
counts in the order of the source; the final `else` returns false. -/
def decodeGesture (s : Globals) : Bool × Globals :=
  if s.gesture_state_ = MotionState.NEAR_STATE then
    setMotion s GestureSymbol.DIR_NEAR
  else if s.gesture_state_ = MotionState.FAR_STATE then
    setMotion s GestureSymbol.DIR_FAR
  else if s.gesture_ud_count_ = -1 ∧ s.gesture_lr_count_ = 0 then
    setMotion s GestureSymbol.DIR_UP
  else if s.gesture_ud_count_ = 1 ∧ s.gesture_lr_count_ = 0 then
    setMotion s GestureSymbol.DIR_DOWN
  else if s.gesture_ud_count_ = 0 ∧ s.gesture_lr_count_ = 1 then
    setMotion s GestureSymbol.DIR_RIGHT
  else if s.gesture_ud_count_ = 0 ∧ s.gesture_lr_count_ = -1 then
    setMotion s GestureSymbol.DIR_LEFT
  else if s.gesture_ud_count_ = -1 ∧ s.gesture_lr_count_ = 1 then
    if |s.gesture_ud_delta_| > |s.gesture_lr_delta_| then
      setMotion s GestureSymbol.DIR_UP
    else
      setMotion s GestureSymbol.DIR_RIGHT
  else if s.gesture_ud_count_ = 1 ∧ s.gesture_lr_count_ = -1 then
    if |s.gesture_ud_delta_| > |s.gesture_lr_delta_| then
      setMotion s GestureSymbol.DIR_DOWN
    else
      setMotion s GestureSymbol.DIR_LEFT
  else if s.gesture_ud_count_ = -1 ∧ s.gesture_lr_count_ = -1 then
    if |s.gesture_ud_delta_| > |s.gesture_lr_delta_| then
      setMotion s GestureSymbol.DIR_UP
    else
      setMotion s GestureSymbol.DIR_LEFT
  else if s.gesture_ud_count_ = 1 ∧ s.gesture_lr_count_ = 1 then
    if |s.gesture_ud_delta_| > |s.gesture_lr_delta_| then
      setMotion s GestureSymbol.DIR_DOWN
    else
      setMotion s GestureSymbol.DIR_RIGHT
  else
    (false, s)

/-! ## `readGesture`

`readGesture` talks to the sensor through `i2c_read` and `ReadDataBlock` of
`i2c_comm`, which is not part of the sources at hand.  Their results are the input of
the embedding: one `Entry` for the two register reads of the entry test and one `Poll`
for the reads of each pass through the `while(1)` loop.  The two delays have no effect
on the globals and are left out. -/

/-- Macros of the absent header used by the polling driver, taken as parameters. -/
structure SensorConsts where
  /-- The mask of the valid bit of the `GSTATUS` register. -/
  APDS9960_GVALID : Nat
  /-- The value of the macro `ERROR` as the `uint8_t` that `getMode` returns. -/
  ERROR : Nat
deriving DecidableEq, Repr

/-- The results of the two register reads of the entry test of `readGesture`;
`none` is a failed `i2c_read`. -/
structure Entry where
  /-- The read of `APDS9960_GSTATUS` in `isGestureAvailable`. -/
  gstatus : Option Nat
  /-- The read of `APDS9960_ENABLE` in `getMode`. -/
  enable : Option Nat
deriving DecidableEq, Repr

/-- The results of the reads of one pass through the loop of `readGesture`; `none` is
a failed read.  A read the pass does not reach is not looked at. -/
structure Poll where
  /-- The read of `APDS9960_GSTATUS` (line 1020). -/
  gstatus : Option Nat
  /-- The read of `APDS9960_GFLVL` (line 1029). -/
  fifo_level : Option Nat
  /-- The quads waiting in the sensor FIFO for `ReadDataBlock` (line 1037). -/
  fifo : Option (List Quad)
deriving DecidableEq, Repr

/-- Modelled from the spec: `ReadDataBlock` of the absent `i2c_comm`, asked for
`fifo_level * 4` bytes.  It is the `drain(max_quads)` of the sample source: it pulls up
to `max_quads` whole quad samples, fewer if fewer are available, or fails (`none`, the
return value `-1`).  `bytes_read` is four times the number of quads delivered, and
`fifo_data` holds their bytes in the order up, down, left, right. -/
def ReadDataBlock (fifo : Option (List Quad)) (max_quads : Nat) : Option (List Quad) :=
  fifo.map (fun quads => quads.take max_quads)

/-- `isGestureAvailable` (lines 639-661), from the result of its register read. -/
def isGestureAvailable (R : SensorConsts) (gstatus : Option Nat) : Bool :=
  match gstatus with
  | none => false
  | some val => decide (val &&& R.APDS9960_GVALID = 1)

/-- `getMode` (lines 518-527), from the result of its register read. -/
def getMode (R : SensorConsts) (enable : Option Nat) : Nat :=
  match enable with
  | none => R.ERROR
  | some temp => temp

/-- One pass of the sorting loop (lines 1048-1056): the quad is written at `index` of
the four arrays, then `index` and `total_gestures` are incremented.  The arrays have 32
cells: a write at an index of 32 or more has no defined result. -/
def storeQuad (q : Quad) (g : gesture_data_type) : Option gesture_data_type :=
  if g.index < 32 then
    some { u_data := g.u_data.set g.index q.u,
           d_data := g.d_data.set g.index q.d,
           l_data := g.l_data.set g.index q.l,
           r_data := g.r_data.set g.index q.r,
           index := g.index + 1,
           total_gestures := g.total_gestures + 1 }
  else none

/-- The sorting loop `for (i = 0; i < bytes_read; i += 4)` (lines 1046-1057) over the
quads held by `fifo_data`. -/
def sortQuads : List Quad → gesture_data_type → Option gesture_data_type
  | [], g => some g
  | q :: quads, g =>
    match storeQuad q g with
    | some g1 => sortQuads quads g1
    | none => none

/-- The assignments `index = 0; total_gestures = 0;` of lines 1068-1069. -/
def resetData (s : Globals) : Globals :=
  { s with gesture_data_ := { s.gesture_data_ with index := 0, total_gestures := 0 } }

/-- What one pass through the loop of `readGesture` does. -/
inductive StepResult where
  /-- The pass ends and the loop goes on with these globals. -/
  | next (s : Globals)
  /-- The pass executes `return`. -/
  | done (motion : GestureSymbol) (s : Globals)
  /-- The pass has no defined result: a write outside an array or a division by zero. -/
  | undefined
deriving DecidableEq, Repr

/-- Lines 1059-1069: `processGestureData`, then `decodeGesture` when it returned true,
then the buffer index and count are zeroed. -/
def classifyDrain (P : Params) (s : Globals) : StepResult :=
  match processGestureData P s with
  | none => StepResult.undefined
  | some (true, s1) => StepResult.next (resetData (decodeGesture s1).2)
  | some (false, s1) => StepResult.next (resetData s1)

/-- One pass through the body of the `while(1)` loop of `readGesture` (lines
1016-1081) on the reads `p`.  `fifo_data` has 128 bytes, the room for 32 quads: a
block of more has no defined result. -/
def pollStep (P : Params) (R : SensorConsts) (p : Poll) (s : Globals) : StepResult :=
  match p.gstatus with
  | none => StepResult.done GestureSymbol.ERROR s
  | some gstatus =>
    if gstatus &&& R.APDS9960_GVALID = R.APDS9960_GVALID then
      match p.fifo_level with
      | none => StepResult.done GestureSymbol.ERROR s
      | some fifo_level =>
        if fifo_level > 0 then
          match ReadDataBlock p.fifo fifo_level with
          | none => StepResult.done GestureSymbol.ERROR s
          | some quads =>
            if quads.length > 32 then StepResult.undefined
            else if 4 * quads.length ≥ 4 then
              match sortQuads quads s.gesture_data_ with
              | none => StepResult.undefined
              | some g => classifyDrain P { s with gesture_data_ := g }
            else StepResult.next s
        else StepResult.next s
    else
      StepResult.done (decodeGesture s).2.gesture_motion_
        (resetGestureParameters (decodeGesture s).2)

/-- The outcome of `readGesture` on a finite script of reads. -/
inductive Run where
  /-- `readGesture` returned this symbol, leaving these globals. -/
  | returned (motion : GestureSymbol) (s : Globals)
  /-- The script is used up at the start of a pass through the loop, with these
  globals. -/
  | pending (s : Globals)
  /-- A pass had no defined result. -/
  | undefined
deriving DecidableEq, Repr

/-- The `while(1)` loop of `readGesture`: one `Poll` per pass. -/
def pollLoop (P : Params) (R : SensorConsts) : List Poll → Globals → Run
  | [], s => Run.pending s
  | p :: polls, s =>
    match pollStep P R p s with
    | StepResult.next s1 => pollLoop P R polls s1
    | StepResult.done motion s1 => Run.returned motion s1
    | StepResult.undefined => Run.undefined

/-- The entry test of `readGesture` (line 1009):
`!isGestureAvailable() || !(getMode() & 0b01000001)`. -/
def entryRefused (R : SensorConsts) (entry : Entry) : Bool :=
  !isGestureAvailable R entry.gstatus || decide (getMode R entry.enable &&& 0b01000001 = 0)

/-- `readGesture` (lines 999-1083). -/
def readGesture (P : Params) (R : SensorConsts) (entry : Entry) (polls : List Poll)
    (s : Globals) : Run :=
  if entryRefused R entry then Run.returned GestureSymbol.DIR_NONE s
  else pollLoop P R polls s

/-! ## Predicates of the claims -/

/-- The classifier state held in the globals: accumulators, swipe counts, run counters
and motion state. -/
def classifierState (s : Globals) : Int × Int × Int × Int × Nat × Nat × MotionState :=
  (s.gesture_ud_delta_, s.gesture_lr_delta_, s.gesture_ud_count_, s.gesture_lr_count_,
   s.gesture_near_count_, s.gesture_far_count_, s.gesture_state_)


/-- The four arrays of the buffer have their 32 cells. -/
def wellFormed (g : gesture_data_type) : Prop :=
  g.u_data.length = 32 ∧ g.d_data.length = 32 ∧ g.l_data.length = 32 ∧ g.r_data.length = 32

instance (g : gesture_data_type) : Decidable (wellFormed g) := by
  unfold wellFormed; infer_instance

/-- The step of a call of `processGestureData` on the buffer `g` that passes both data
checks (more than 4 and at most 32 entries, no zero channel in `first`) and divides by
no zero; `none` for a call that does not get that far. -/
def bufferStep (P : Params) (g : gesture_data_type) : Option (Int × Int) :=
  if 4 < g.total_gestures ∧ g.total_gestures ≤ 32 ∧ ¬ hasZeroChannel (firstQuad P g) then
    stepDeltas (firstQuad P g) (lastQuad P g)
  else none

/-- A buffer that holds exactly the given quads, with the count at their number. -/
def quadBuffer (quads : List Quad) : gesture_data_type :=
  { u_data := quads.map (fun q => q.u), d_data := quads.map (fun q => q.d),
    l_data := quads.map (fun q => q.l), r_data := quads.map (fun q => q.r),
    index := quads.length, total_gestures := quads.length }

/-- The step of a quiet call on the buffer `g` from the globals `s`: the call passes
the data checks, both recomputed swipe counts are 0 and both step deltas are strictly
inside `GESTURE_SENSITIVITY_2`; `none` for any other call. -/
def quietStep (P : Params) (g : gesture_data_type) (s : Globals) : Option (Int × Int) :=
  match bufferStep P g with
  | some (ud, lr) =>
    if swipeCount P (s.gesture_ud_delta_ + ud) = 0 ∧
        swipeCount P (s.gesture_lr_delta_ + lr) = 0 ∧
        |ud| < P.GESTURE_SENSITIVITY_2 ∧ |lr| < P.GESTURE_SENSITIVITY_2 then
      some (ud, lr)
    else none
  | none => none

/-- A sequence of quiet calls of `processGestureData`, one on each buffer of the list:
the number of `(0,0)` steps, the number of other steps, and the globals after the last
call; `none` when one of the calls is not quiet. -/
def quietSession (P : Params) : List gesture_data_type → Globals → Option (Nat × Nat × Globals)
  | [], s => some (0, 0, s)
  | g :: gs, s =>
    match quietStep P g s, processGestureData P { s with gesture_data_ := g } with
    | some (ud, lr), some r =>
      match quietSession P gs r.2 with
      | some (n, f, t) =>
        some (n + (if ud = 0 ∧ lr = 0 then 1 else 0), f + (if ud = 0 ∧ lr = 0 then 0 else 1), t)
      | none => none
    | _, _ => none

/-- The motion state is one of the two confirmed states. -/
def confirmed (s : Globals) : Prop :=
  s.gesture_state_ = MotionState.NEAR_STATE ∨ s.gesture_state_ = MotionState.FAR_STATE

instance (s : Globals) : Decidable (confirmed s) := by
  unfold confirmed; infer_instance

/-- The session predicate of the stored symbol: both swipe counts are in `{-1, 0, 1}`,
and a stored gesture symbol other than `DIR_NONE` comes with a confirmed motion
state. -/
def symbolInv (s : Globals) : Prop :=
  (s.gesture_ud_count_ = -1 ∨ s.gesture_ud_count_ = 0 ∨ s.gesture_ud_count_ = 1) ∧
  (s.gesture_lr_count_ = -1 ∨ s.gesture_lr_count_ = 0 ∨ s.gesture_lr_count_ = 1) ∧
  (s.gesture_motion_ ≠ GestureSymbol.DIR_NONE → confirmed s)

instance (s : Globals) : Decidable (symbolInv s) := by
  unfold symbolInv; infer_instance

/-- A quad with its up and down channels exchanged. -/
def swapQuad (q : Quad) : Quad := { u := q.d, d := q.u, l := q.l, r := q.r }

/-- The buffer with the up and down channels of every quad exchanged. -/
def swapUpDown (g : gesture_data_type) : gesture_data_type :=
  { g with u_data := g.d_data, d_data := g.u_data }

/-- The globals mirrored on the U/D axis: the up and down channels of the buffer
exchanged, `gesture_ud_delta_` and `gesture_ud_count_` negated. -/
def mirror (s : Globals) : Globals :=
  { s with gesture_data_ := swapUpDown s.gesture_data_,
           gesture_ud_delta_ := -s.gesture_ud_delta_,
           gesture_ud_count_ := -s.gesture_ud_count_ }

/-- A gesture symbol with `DIR_UP` and `DIR_DOWN` exchanged. -/
def exchangeUpDown : GestureSymbol → GestureSymbol
  | GestureSymbol.DIR_UP => GestureSymbol.DIR_DOWN
  | GestureSymbol.DIR_DOWN => GestureSymbol.DIR_UP
  | m => m

/-! ## Sample inputs -/

/-- A sample calibration: threshold 10, swipe sensitivity 50, near/far sensitivity 20. -/
def sampleParams : Params :=
  { GESTURE_THRESHOLD_OUT := 10, GESTURE_SENSITIVITY_1 := 50, GESTURE_SENSITIVITY_2 := 20 }

/-- A byte array of 32 cells holding `xs` followed by zeroes. -/
def cells (xs : List Nat) : List Nat := xs ++ List.replicate (32 - xs.length) 0

/-- A sample buffer of `n` valid entries from the given channel prefixes. -/
def sampleData (u d l r : List Nat) (n : Nat) : gesture_data_type :=
  { u_data := cells u, d_data := cells d, l_data := cells l, r_data := cells r,
    index := n, total_gestures := n }

/-- Globals with the given buffer and every other global as after a reset. -/
def freshGlobals (g : gesture_data_type) : Globals :=
  { gesture_data_ := g, gesture_ud_delta_ := 0, gesture_lr_delta_ := 0,
    gesture_ud_count_ := 0, gesture_lr_count_ := 0,
    gesture_near_count_ := 0, gesture_far_count_ := 0,
    gesture_state_ := MotionState.NONE, gesture_motion_ := GestureSymbol.DIR_NONE }

/-- Five quads, all of them below the threshold 10. -/
def darkData : gesture_data_type :=
  sampleData [3, 4, 5, 6, 7] [3, 4, 5, 6, 7] [3, 4, 5, 6, 7] [3, 4, 5, 6, 7] 5

/-- Six quads; those at indices 1, 2 and 4 are above the threshold 10.  The first
qualifying quad is `(30, 30, 40, 40)`, the last one `(60, 20, 40, 40)`. -/
def swipeData : gesture_data_type :=
  sampleData [5, 30, 50, 9, 60, 2] [5, 30, 30, 90, 20, 80]
             [5, 40, 40, 40, 40, 40] [5, 40, 40, 40, 40, 40] 6

/-- Five equal quads `(20, 20, 20, 20)`, all above the threshold 10: a `(0,0)` step. -/
def flatData : gesture_data_type :=
  sampleData [20, 20, 20, 20, 20] [20, 20, 20, 20, 20]
             [20, 20, 20, 20, 20] [20, 20, 20, 20, 20] 5

/-- Five quads above the threshold 10, the first `(20, 20, 20, 20)` and the last
`(24, 20, 20, 20)`: the step `(9, 0)`, on one axis only. -/
def nudgeData : gesture_data_type :=
  sampleData [20, 20, 20, 20, 24] [20, 20, 20, 20, 20]
             [20, 20, 20, 20, 20] [20, 20, 20, 20, 20] 5

/-- Five quads above the threshold 10, the first `(20, 20, 20, 20)` and the last
`(24, 20, 24, 20)`: the step `(9, 9)`, on both axes. -/
def driftData : gesture_data_type :=
  sampleData [20, 20, 20, 20, 24] [20, 20, 20, 20, 20]
             [20, 20, 20, 20, 24] [20, 20, 20, 20, 20] 5

/-- Globals in the middle of a session on the buffer `g`: the given accumulator and
swipe count on the U/D axis, the given run counters, nothing on the L/R axis. -/
def sessionGlobals (g : gesture_data_type) (ud_delta ud_count : Int) (near far : Nat) :
    Globals :=
  { freshGlobals g with
    gesture_ud_delta_ := ud_delta, gesture_ud_count_ := ud_count,
    gesture_near_count_ := near, gesture_far_count_ := far }

/-- Successive calls of `processGestureData`, the buffer being loaded with the next
element of the list before each call; the globals after the last call. -/
def processAll (P : Params) : List gesture_data_type → Globals → Option Globals
  | [], s => some s
  | g :: gs, s =>
    match processGestureData P { s with gesture_data_ := g } with
    | some r => processAll P gs r.2
    | none => none

/-- The calibration of the specification's examples: swipe sensitivity 30 (threshold
10 and near/far sensitivity 20 as in `sampleParams`). -/
def specParams : Params :=
  { GESTURE_THRESHOLD_OUT := 10, GESTURE_SENSITIVITY_1 := 30, GESTURE_SENSITIVITY_2 := 20 }

/-- Globals on the buffer `g` with the given accumulators, swipe counts and motion
state; run counters 0, gesture symbol `DIR_NONE`. -/
def swipeGlobals (g : gesture_data_type) (ud_delta lr_delta ud_count lr_count : Int)
    (st : MotionState) : Globals :=
  { freshGlobals g with
    gesture_ud_delta_ := ud_delta, gesture_lr_delta_ := lr_delta,
    gesture_ud_count_ := ud_count, gesture_lr_count_ := lr_count,
    gesture_state_ := st }

/-- Five quads above the threshold 10, the first `(20, 20, 20, 20)` and the last
`(27, 13, 20, 20)`: the step `(35, 0)`. -/
def downData : gesture_data_type :=
  sampleData [20, 20, 20, 20, 27] [20, 20, 20, 20, 13]
             [20, 20, 20, 20, 20] [20, 20, 20, 20, 20] 5

/-- Five quads above the threshold 10, the first `(20, 20, 20, 20)` and the last
`(13, 27, 20, 20)`: the step `(-35, 0)`. -/
def upData : gesture_data_type :=
  sampleData [20, 20, 20, 20, 13] [20, 20, 20, 20, 27]
             [20, 20, 20, 20, 20] [20, 20, 20, 20, 20] 5

/-- Five quads above the threshold 10, the first `(20, 20, 20, 20)` and the last
`(12, 28, 28, 12)`: the step `(-40, 40)`, of equal magnitude on both axes. -/
def tieData : gesture_data_type :=
  sampleData [20, 20, 20, 20, 12] [20, 20, 20, 20, 28]
             [20, 20, 20, 20, 28] [20, 20, 20, 20, 12] 5

/-- Five quads above the threshold 10, the first `(20, 20, 20, 20)` and the last
`(20, 20, 33, 11)`: the step `(0, 50)`, outside the near/far sensitivity 20. -/
def sideData : gesture_data_type :=
  sampleData [20, 20, 20, 20, 20] [20, 20, 20, 20, 20]
             [20, 20, 20, 20, 33] [20, 20, 20, 20, 11] 5

/-- Sample register constants: the valid bit is bit 0, `ERROR` is `0xFF`. -/
def sampleConsts : SensorConsts := { APDS9960_GVALID := 1, ERROR := 0xFF }

/-- Entry reads that pass the entry test: data valid, power and gesture bits set. -/
def openEntry : Entry := { gstatus := some 1, enable := some 0b01000001 }

/-- Entry reads with valid data and a mode register in which only the power bit
(bit 0) is set: the gesture engine (bit 6) is off. -/
def powerOnlyEntry : Entry := { gstatus := some 1, enable := some 0b00000001 }

/-- A pass whose status read fails. -/
def failedPoll : Poll := { gstatus := none, fifo_level := none, fifo := none }

/-- A pass that finds the valid bit clear. -/
def invalidPoll : Poll := { gstatus := some 0, fifo_level := none, fifo := none }

/-- A pass that finds valid data and the given quads in the FIFO. -/
def drainPoll (quads : List Quad) : Poll :=
  { gstatus := some 1, fifo_level := some quads.length, fifo := some quads }

/-- A quad from its four channels. -/
def quad (u d l r : Nat) : Quad := { u := u, d := d, l := l, r := r }

/-- Eight quads above the threshold 10, the first `(20, 20, 20, 20)` and the last
`(27, 13, 20, 20)`: the step `(35, 0)`. -/
def downQuads : List Quad :=
  [quad 20 20 20 20, quad 21 19 20 20, quad 22 18 20 20, quad 23 17 20 20,
   quad 24 16 20 20, quad 25 15 20 20, quad 26 14 20 20, quad 27 13 20 20]

/-- The buffer after the drain of `downQuads` into the empty buffer and the zeroing of
index and count: the eight quads are still in the arrays. -/
def drainedData : gesture_data_type :=
  sampleData [20, 21, 22, 23, 24, 25, 26, 27] [20, 19, 18, 17, 16, 15, 14, 13]
             [20, 20, 20, 20, 20, 20, 20, 20] [20, 20, 20, 20, 20, 20, 20, 20] 0

/-- An empty buffer: 32 zero cells in each array, index and count 0. -/
def emptyData : gesture_data_type := sampleData [] [] [] [] 0

/-- The flat buffer with a count of 33, one more than the arrays hold. -/
def overfullData : gesture_data_type := { flatData with index := 33, total_gestures := 33 }

/-- Five quads of which only the one at index 2, `(30, 30, 40, 40)`, is above the
threshold 10. -/
def loneData : gesture_data_type :=
  sampleData [5, 5, 30, 5, 5] [5, 5, 30, 5, 5] [5, 5, 40, 5, 5] [5, 5, 40, 5, 5] 5

/-! ## Theorems -/

/-! ### The two scans -/

/-- Where the forward scan breaks: at an index of its range that satisfies the
condition, with no earlier index of the range satisfying it. -/
theorem scanForward_some (p : Nat → Bool) :
    ∀ (n i k : Nat), scanForward p n i = some k →
      i ≤ k ∧ k < i + n ∧ p k = true ∧ ∀ j, i ≤ j → j < k → p j = false := by
  intro n
  induction n with
  | zero => intro i k h; simp [scanForward] at h
  | succ n ih =>
    intro i k h
    unfold scanForward at h
    by_cases hp : p i = true
    · simp only [hp, if_true, Option.some.injEq] at h
      subst h
      exact ⟨le_refl _, by omega, hp, fun j h1 h2 => absurd h2 (by omega)⟩
    · simp only [hp] at h
      obtain ⟨h1, h2, h3, h4⟩ := ih (i + 1) k h
      refine ⟨by omega, by omega, h3, ?_⟩
      intro j hj1 hj2
      by_cases hji : j = i
      · subst hji; simpa using hp
      · exact h4 j (by omega) hj2

/-- The forward scan runs to the end only if no index of its range satisfies the
condition. -/
theorem scanForward_none (p : Nat → Bool) :
    ∀ (n i : Nat), scanForward p n i = none → ∀ j, i ≤ j → j < i + n → p j = false := by
  intro n
  induction n with
  | zero => intro i _ j h1 h2; omega
  | succ n ih =>
    intro i h j hj1 hj2
    unfold scanForward at h
    by_cases hp : p i = true
    · simp [hp] at h
    · simp only [hp] at h
      by_cases hji : j = i
      · subst hji; simpa using hp
      · exact ih (i + 1) h j (by omega) (by omega)

/-- Where the backward scan breaks: at an index below `n` that satisfies the
condition, with no later index below `n` satisfying it. -/
theorem scanBackward_some (p : Nat → Bool) :
    ∀ (n k : Nat), scanBackward p n = some k →
      k < n ∧ p k = true ∧ ∀ j, k < j → j < n → p j = false := by
  intro n
  induction n with
  | zero => intro k h; simp [scanBackward] at h
  | succ n ih =>
    intro k h
    unfold scanBackward at h
    by_cases hp : p n = true
    · simp only [hp, if_true, Option.some.injEq] at h
      subst h
      exact ⟨by omega, hp, fun j h1 h2 => absurd h2 (by omega)⟩
    · simp only [hp] at h
      obtain ⟨h1, h2, h3⟩ := ih k h
      refine ⟨by omega, h2, ?_⟩
      intro j hj1 hj2
      by_cases hjn : j = n
      · subst hjn; simpa using hp
      · exact h3 j hj1 (by omega)

/-- The backward scan runs to the end only if no index below `n` satisfies the
condition. -/
theorem scanBackward_none (p : Nat → Bool) :
    ∀ (n : Nat), scanBackward p n = none → ∀ j, j < n → p j = false := by
  intro n
  induction n with
  | zero => intro _ j h; omega
  | succ n ih =>
    intro h j hj
    unfold scanBackward at h
    by_cases hp : p n = true
    · simp [hp] at h
    · simp only [hp] at h
      by_cases hjn : j = n
      · subst hjn; simpa using hp
      · exact ih h j (by omega)

/-- With a qualifying index below `total_gestures`, the forward scan breaks at the
smallest one and `*_first` is the quad stored there. -/
theorem firstQuad_of_exists (P : Params) (g : gesture_data_type)
    (hex : ∃ i, i < g.total_gestures ∧ aboveThreshold P g i = true) :
    ∃ i, i < g.total_gestures ∧ aboveThreshold P g i = true ∧
      (∀ k, k < i → aboveThreshold P g k = false) ∧ firstQuad P g = quadAt g i := by
  obtain ⟨i0, hi0, hp0⟩ := hex
  cases hsc : scanForward (aboveThreshold P g) g.total_gestures 0 with
  | none =>
    have := scanForward_none _ _ _ hsc i0 (Nat.zero_le _) (by omega)
    rw [hp0] at this; cases this
  | some i =>
    obtain ⟨_, h2, h3, h4⟩ := scanForward_some _ _ _ _ hsc
    exact ⟨i, by omega, h3, fun k hk => h4 k (Nat.zero_le _) hk, by simp [firstQuad, hsc]⟩

/-- With a qualifying index below `total_gestures`, the backward scan breaks at the
largest one and `*_last` is the quad stored there. -/
theorem lastQuad_of_exists (P : Params) (g : gesture_data_type)
    (hex : ∃ i, i < g.total_gestures ∧ aboveThreshold P g i = true) :
    ∃ j, j < g.total_gestures ∧ aboveThreshold P g j = true ∧
      (∀ k, j < k → k < g.total_gestures → aboveThreshold P g k = false) ∧
      lastQuad P g = quadAt g j := by
  obtain ⟨i0, hi0, hp0⟩ := hex
  cases hsc : scanBackward (aboveThreshold P g) g.total_gestures with
  | none =>
    have := scanBackward_none _ _ hsc i0 hi0
    rw [hp0] at this; cases this
  | some j =>
    obtain ⟨h1, h2, h3⟩ := scanBackward_some _ _ _ hsc
    exact ⟨j, h1, h2, h3, by simp [lastQuad, hsc]⟩

/-- Without a qualifying index below `total_gestures`, `*_first` keeps its zeroes. -/
theorem firstQuad_of_forall (P : Params) (g : gesture_data_type)
    (hno : ∀ i, i < g.total_gestures → aboveThreshold P g i = false) :
    firstQuad P g = zeroQuad := by
  cases hsc : scanForward (aboveThreshold P g) g.total_gestures 0 with
  | none => simp [firstQuad, hsc]
  | some i =>
    obtain ⟨_, h2, h3, _⟩ := scanForward_some _ _ _ _ hsc
    rw [hno i (by omega)] at h3; cases h3

/-- A quad that satisfies the scan condition for a threshold `>= 0` has four
positive channels. -/
theorem quadAt_pos (P : Params) (g : gesture_data_type) (i : Nat)
    (hT : 0 ≤ P.GESTURE_THRESHOLD_OUT) (h : aboveThreshold P g i = true) :
    0 < (quadAt g i).u ∧ 0 < (quadAt g i).d ∧ 0 < (quadAt g i).l ∧ 0 < (quadAt g i).r := by
  simp only [aboveThreshold, Bool.and_eq_true, decide_eq_true_eq] at h
  obtain ⟨⟨⟨h1, h2⟩, h3⟩, h4⟩ := h
  simp only [quadAt]
  omega

/-- The ratio of two bytes whose sum is positive is defined. -/
theorem ratio_of_pos (a b : Nat) (h : 0 < a + b) :
    ratio a b = some (Int.tdiv (((a : Int) - (b : Int)) * 100) ((a : Int) + (b : Int))) := by
  have : ¬ ((a : Int) + (b : Int) = 0) := by omega
  simp [ratio, this]

/-- The ratio of two zero bytes is a division by zero. -/
theorem ratio_zero : ratio 0 0 = none := by
  simp [ratio]

/-! ### The paths through `processGestureData` -/

/-- A call that passes both data checks and divides by no zero continues with the
accumulation and the near/far block on the step of the first and last quads. -/
theorem processGestureDataExit_of_step (P : Params) (s : Globals) (ud lr : Int)
    (h4 : 4 < s.gesture_data_.total_gestures) (h32 : s.gesture_data_.total_gestures ≤ 32)
    (hz : ¬ hasZeroChannel (firstQuad P s.gesture_data_))
    (hstep : stepDeltas (firstQuad P s.gesture_data_) (lastQuad P s.gesture_data_)
      = some (ud, lr)) :
    processGestureDataExit P s = some (nearFar P ud lr (accumulate P ud lr s)) := by
  have h4n : ¬ s.gesture_data_.total_gestures ≤ 4 := by omega
  have h0 : s.gesture_data_.total_gestures > 0 := by omega
  simp [processGestureDataExit, h4n, h32, h0, hz, classifyFrom, hstep]

/-- The paths of a call that returns: the insufficient-data exit, the
no-valid-sample exit, or the near/far block run on the accumulated step. -/
theorem processGestureDataExit_cases (P : Params) (s : Globals) (e : ProcExit)
    (s' : Globals) (h : processGestureDataExit P s = some (e, s')) :
    (s.gesture_data_.total_gestures ≤ 4 ∧ e = ProcExit.InsufficientData ∧ s' = s) ∨
    (4 < s.gesture_data_.total_gestures ∧ s.gesture_data_.total_gestures ≤ 32 ∧
      hasZeroChannel (firstQuad P s.gesture_data_) ∧
      e = ProcExit.NoValidSample ∧ s' = s) ∨
    (4 < s.gesture_data_.total_gestures ∧ s.gesture_data_.total_gestures ≤ 32 ∧
      ¬ hasZeroChannel (firstQuad P s.gesture_data_) ∧
      ∃ ud lr, stepDeltas (firstQuad P s.gesture_data_) (lastQuad P s.gesture_data_)
          = some (ud, lr) ∧
        (e, s') = nearFar P ud lr (accumulate P ud lr s)) := by
  unfold processGestureDataExit at h
  by_cases h4 : s.gesture_data_.total_gestures ≤ 4
  · simp only [h4, if_true, Option.some.injEq, Prod.mk.injEq] at h
    exact Or.inl ⟨h4, h.1.symm, h.2.symm⟩
  · simp only [h4, if_false] at h
    by_cases h32 : s.gesture_data_.total_gestures ≤ 32 ∧ s.gesture_data_.total_gestures > 0
    · simp only [h32, and_self, if_true] at h
      by_cases hz : hasZeroChannel (firstQuad P s.gesture_data_)
      · simp only [hz, if_true, Option.some.injEq, Prod.mk.injEq] at h
        exact Or.inr (Or.inl ⟨by omega, h32.1, hz, h.1.symm, h.2.symm⟩)
      · simp only [hz, if_false] at h
        unfold classifyFrom at h
        cases hst : stepDeltas (firstQuad P s.gesture_data_) (lastQuad P s.gesture_data_) with
        | none => simp [hst] at h
        | some st =>
          obtain ⟨ud, lr⟩ := st
          simp only [hst, Option.some.injEq] at h
          exact Or.inr (Or.inr ⟨by omega, h32.1, hz, ud, lr, rfl, h.symm⟩)
    · simp only [h32, if_false] at h
      simp [classifyFrom, stepDeltas, zeroQuad, ratio_zero] at h

/-- For a threshold `>= 0` and a buffer of 5 to 32 entries with a qualifying quad,
both data checks pass and the four ratios are defined. -/
theorem stepDeltas_defined (P : Params) (g : gesture_data_type)
    (hT : 0 ≤ P.GESTURE_THRESHOLD_OUT)
    (hex : ∃ i, i < g.total_gestures ∧ aboveThreshold P g i = true) :
    ¬ hasZeroChannel (firstQuad P g) ∧
    ∃ ud lr, stepDeltas (firstQuad P g) (lastQuad P g) = some (ud, lr) := by
  obtain ⟨i, _, hi, _, hfi⟩ := firstQuad_of_exists P g hex
  obtain ⟨j, _, hj, _, hlj⟩ := lastQuad_of_exists P g hex
  obtain ⟨a1, a2, a3, a4⟩ := quadAt_pos P g i hT hi
  obtain ⟨b1, b2, b3, b4⟩ := quadAt_pos P g j hT hj
  rw [hfi, hlj]
  refine ⟨?_, ?_⟩
  · unfold hasZeroChannel; omega
  · simp [stepDeltas, ratio_of_pos _ _ (show 0 < (quadAt g i).u + (quadAt g i).d by omega),
      ratio_of_pos _ _ (show 0 < (quadAt g i).l + (quadAt g i).r by omega),
      ratio_of_pos _ _ (show 0 < (quadAt g j).u + (quadAt g j).d by omega),
      ratio_of_pos _ _ (show 0 < (quadAt g j).l + (quadAt g j).r by omega)]

/-- For a threshold `>= 0` and a buffer of at most 32 entries, `processGestureData`
returns: no ratio divides by zero. -/
theorem processGestureDataExit_returns (P : Params) (s : Globals)
    (hT : 0 ≤ P.GESTURE_THRESHOLD_OUT) (h32 : s.gesture_data_.total_gestures ≤ 32) :
    ∃ e s', processGestureDataExit P s = some (e, s') := by
  by_cases h4 : s.gesture_data_.total_gestures ≤ 4
  · exact ⟨ProcExit.InsufficientData, s, by simp [processGestureDataExit, h4]⟩
  · by_cases hz : hasZeroChannel (firstQuad P s.gesture_data_)
    · exact ⟨ProcExit.NoValidSample, s, by
        simp [processGestureDataExit, h4, h32, hz, show s.gesture_data_.total_gestures > 0 by omega]⟩
    · have hex : ∃ i, i < s.gesture_data_.total_gestures ∧
          aboveThreshold P s.gesture_data_ i = true := by
        by_contra hcon
        push_neg at hcon
        have := firstQuad_of_forall P s.gesture_data_ (fun i hi => by simpa using hcon i hi)
        exact hz (by rw [this]; simp [hasZeroChannel, zeroQuad])
      obtain ⟨_, ud, lr, hst⟩ := stepDeltas_defined P s.gesture_data_ hT hex
      exact ⟨_, _, processGestureDataExit_of_step P s ud lr (by omega) h32 hz hst⟩

/-- The boolean result and the labelled result of a call agree. -/
theorem processGestureData_eq_some (P : Params) (s : Globals) (b : Bool) (s' : Globals) :
    processGestureData P s = some (b, s') ↔
      ∃ e, processGestureDataExit P s = some (e, s') ∧ e.toBool = b := by
  unfold processGestureData
  cases h : processGestureDataExit P s with
  | none => simp
  | some r =>
    obtain ⟨e, t⟩ := r
    simp only [Option.map_some', Option.some.injEq, Prod.mk.injEq]
    constructor
    · rintro ⟨h1, h2⟩; exact ⟨e, ⟨rfl, h2⟩, h1⟩
    · rintro ⟨e', ⟨h1, h2⟩, h3⟩; subst h1; exact ⟨h3, h2⟩

/-- The near/far block leaves through `return true` or the final `return false`. -/
theorem nearFar_exit (P : Params) (ud lr : Int) (t : Globals) :
    (nearFar P ud lr t).1 = ProcExit.Confirmed ∨ (nearFar P ud lr t).1 = ProcExit.NoVerdict := by
  unfold nearFar
  dsimp only
  by_cases hc : t.gesture_ud_count_ = 0 ∧ t.gesture_lr_count_ = 0 <;>
  by_cases hs : |ud| < P.GESTURE_SENSITIVITY_2 ∧ |lr| < P.GESTURE_SENSITIVITY_2 <;>
  simp only [hc, hs, if_true, if_false, true_or, or_true] <;>
  split_ifs <;> simp

/-- The value of a defined ratio. -/
theorem ratio_eq_some (a b : Nat) (x : Int) (h : ratio a b = some x) :
    x = Int.tdiv (((a : Int) - (b : Int)) * 100) ((a : Int) + (b : Int)) := by
  unfold ratio at h
  split_ifs at h
  exact (Option.some.inj h).symm

/-- The value of a defined step: last ratio minus first ratio on each axis, each ratio
being `((a - b) * 100) / (a + b)` with truncating division. -/
theorem stepDeltas_eq_some (first last : Quad) (ud lr : Int)
    (h : stepDeltas first last = some (ud, lr)) :
    ud = Int.tdiv (((last.u : Int) - (last.d : Int)) * 100) ((last.u : Int) + (last.d : Int))
        - Int.tdiv (((first.u : Int) - (first.d : Int)) * 100)
            ((first.u : Int) + (first.d : Int)) ∧
    lr = Int.tdiv (((last.l : Int) - (last.r : Int)) * 100) ((last.l : Int) + (last.r : Int))
        - Int.tdiv (((first.l : Int) - (first.r : Int)) * 100)
            ((first.l : Int) + (first.r : Int)) := by
  unfold stepDeltas at h
  cases h1 : ratio first.u first.d with
  | none => simp [h1] at h
  | some a =>
    cases h2 : ratio first.l first.r with
    | none => simp [h1, h2] at h
    | some b =>
      cases h3 : ratio last.u last.d with
      | none => simp [h1, h2, h3] at h
      | some c =>
        cases h4 : ratio last.l last.r with
        | none => simp [h1, h2, h3, h4] at h
        | some d =>
          simp only [h1, h2, h3, h4, Option.some.injEq, Prod.mk.injEq] at h
          rw [← h.1, ← h.2, ratio_eq_some _ _ _ h1, ratio_eq_some _ _ _ h2,
            ratio_eq_some _ _ _ h3, ratio_eq_some _ _ _ h4]
          exact ⟨rfl, rfl⟩

/-- A step that is not strictly inside `GESTURE_SENSITIVITY_2` on both axes skips the
near/far block: final `return false`, globals as accumulated. -/
theorem nearFar_quiet (P : Params) (ud lr : Int) (t : Globals)
    (hs : ¬ (|ud| < P.GESTURE_SENSITIVITY_2 ∧ |lr| < P.GESTURE_SENSITIVITY_2)) :
    nearFar P ud lr t = (ProcExit.NoVerdict, t) := by
  unfold nearFar
  simp only [hs, if_false, ite_self]

/-- The near/far block with both swipe counts 0 and a `(0,0)` step (lines 784-805). -/
theorem nearFar_center_zero (P : Params) (ud lr : Int) (t : Globals)
    (hc : t.gesture_ud_count_ = 0 ∧ t.gesture_lr_count_ = 0)
    (hs : |ud| < P.GESTURE_SENSITIVITY_2 ∧ |lr| < P.GESTURE_SENSITIVITY_2)
    (hz : ud = 0 ∧ lr = 0) :
    nearFar P ud lr t =
      (if t.gesture_near_count_ + 1 ≥ 10 ∧ t.gesture_far_count_ ≥ 2 then
        (ProcExit.Confirmed,
          { t with gesture_near_count_ := t.gesture_near_count_ + 1,
                   gesture_state_ := MotionState.NEAR_STATE })
       else (ProcExit.NoVerdict, { t with gesture_near_count_ := t.gesture_near_count_ + 1 })) := by
  obtain ⟨rfl, rfl⟩ := hz
  unfold nearFar
  simp only [hc, hs, and_self, if_true]

/-- The near/far block with both swipe counts 0 and a step other than `(0,0)`
(lines 788-805). -/
theorem nearFar_center_move (P : Params) (ud lr : Int) (t : Globals)
    (hc : t.gesture_ud_count_ = 0 ∧ t.gesture_lr_count_ = 0)
    (hs : |ud| < P.GESTURE_SENSITIVITY_2 ∧ |lr| < P.GESTURE_SENSITIVITY_2)
    (hz : ¬ (ud = 0 ∧ lr = 0)) :
    nearFar P ud lr t =
      (if t.gesture_near_count_ ≥ 10 ∧ t.gesture_far_count_ + 1 ≥ 2 then
        (ProcExit.Confirmed,
          if ud ≠ 0 ∧ lr ≠ 0 then
            { t with gesture_far_count_ := t.gesture_far_count_ + 1,
                     gesture_state_ := MotionState.FAR_STATE }
          else { t with gesture_far_count_ := t.gesture_far_count_ + 1 })
       else (ProcExit.NoVerdict, { t with gesture_far_count_ := t.gesture_far_count_ + 1 })) := by
  have hor : ud ≠ 0 ∨ lr ≠ 0 := by
    by_contra h; push_neg at h; exact hz h
  unfold nearFar
  simp only [hc, hs, hz, hor, and_self, if_true, if_false]

/-- The near/far block with a nonzero swipe count (lines 808-826). -/
theorem nearFar_swipe (P : Params) (ud lr : Int) (t : Globals)
    (hc : ¬ (t.gesture_ud_count_ = 0 ∧ t.gesture_lr_count_ = 0))
    (hs : |ud| < P.GESTURE_SENSITIVITY_2 ∧ |lr| < P.GESTURE_SENSITIVITY_2) :
    nearFar P ud lr t =
      (ProcExit.NoVerdict,
        if t.gesture_near_count_ + (if ud = 0 ∧ lr = 0 then 1 else 0) ≥ 10 then
          { t with gesture_near_count_ :=
                     t.gesture_near_count_ + (if ud = 0 ∧ lr = 0 then 1 else 0),
                   gesture_ud_count_ := 0, gesture_lr_count_ := 0,
                   gesture_ud_delta_ := 0, gesture_lr_delta_ := 0 }
        else
          { t with gesture_near_count_ :=
                     t.gesture_near_count_ + (if ud = 0 ∧ lr = 0 then 1 else 0) }) := by
  unfold nearFar
  by_cases hz : ud = 0 ∧ lr = 0
  · obtain ⟨rfl, rfl⟩ := hz
    simp only [hc, hs, and_self, if_true, if_false]
  · simp only [hc, hs, hz, and_self, if_true, if_false, add_zero]


/-- The near/far block leaves through `return true` exactly when both recomputed swipe
counts are 0, both step deltas are strictly inside `GESTURE_SENSITIVITY_2`, and after
the increment of this call `near_count >= 10` and `far_count >= 2`. -/
theorem nearFar_confirmed_iff (P : Params) (ud lr : Int) (s : Globals) :
    (nearFar P ud lr (accumulate P ud lr s)).1 = ProcExit.Confirmed ↔
      swipeCount P (s.gesture_ud_delta_ + ud) = 0 ∧
      swipeCount P (s.gesture_lr_delta_ + lr) = 0 ∧
      |ud| < P.GESTURE_SENSITIVITY_2 ∧ |lr| < P.GESTURE_SENSITIVITY_2 ∧
      s.gesture_near_count_ + (if ud = 0 ∧ lr = 0 then 1 else 0) ≥ 10 ∧
      s.gesture_far_count_ + (if ud = 0 ∧ lr = 0 then 0 else 1) ≥ 2 := by
  by_cases hs : |ud| < P.GESTURE_SENSITIVITY_2 ∧ |lr| < P.GESTURE_SENSITIVITY_2
  · by_cases hc : swipeCount P (s.gesture_ud_delta_ + ud) = 0 ∧
        swipeCount P (s.gesture_lr_delta_ + lr) = 0
    · by_cases hz : ud = 0 ∧ lr = 0
      · rw [nearFar_center_zero P ud lr _ hc hs hz]
        obtain ⟨rfl, rfl⟩ := hz
        split_ifs <;> simp_all [accumulate]
      · rw [nearFar_center_move P ud lr _ hc hs hz]
        split_ifs <;> simp_all [accumulate]
    · rw [nearFar_swipe P ud lr _ hc hs]
      by_cases hz : ud = 0 ∧ lr = 0
      · obtain ⟨rfl, rfl⟩ := hz
        split_ifs <;> simp_all [accumulate]
      · split_ifs
        simp_all [accumulate]
  · rw [nearFar_quiet P ud lr _ hs]
    simp_all [accumulate]

/-- The two run counters after the near/far block: `near_count` is incremented on a
`(0,0)` step inside `GESTURE_SENSITIVITY_2`; `far_count` is incremented on another
step inside `GESTURE_SENSITIVITY_2` when both recomputed swipe counts are 0. -/
theorem nearFar_counters (P : Params) (ud lr : Int) (s : Globals) :
    (nearFar P ud lr (accumulate P ud lr s)).2.gesture_near_count_ =
      s.gesture_near_count_ +
        (if (|ud| < P.GESTURE_SENSITIVITY_2 ∧ |lr| < P.GESTURE_SENSITIVITY_2) ∧
            (ud = 0 ∧ lr = 0) then 1 else 0) ∧
    (nearFar P ud lr (accumulate P ud lr s)).2.gesture_far_count_ =
      s.gesture_far_count_ +
        (if (swipeCount P (s.gesture_ud_delta_ + ud) = 0 ∧
              swipeCount P (s.gesture_lr_delta_ + lr) = 0) ∧
            (|ud| < P.GESTURE_SENSITIVITY_2 ∧ |lr| < P.GESTURE_SENSITIVITY_2) ∧
            ¬ (ud = 0 ∧ lr = 0) then 1 else 0) := by
  by_cases hs : |ud| < P.GESTURE_SENSITIVITY_2 ∧ |lr| < P.GESTURE_SENSITIVITY_2
  · by_cases hc : swipeCount P (s.gesture_ud_delta_ + ud) = 0 ∧
        swipeCount P (s.gesture_lr_delta_ + lr) = 0
    · by_cases hz : ud = 0 ∧ lr = 0
      · rw [nearFar_center_zero P ud lr _ hc hs hz]
        obtain ⟨rfl, rfl⟩ := hz
        split_ifs <;> simp_all [accumulate]
      · rw [nearFar_center_move P ud lr _ hc hs hz]
        split_ifs <;> simp_all [accumulate]
    · rw [nearFar_swipe P ud lr _ hc hs]
      by_cases hz : ud = 0 ∧ lr = 0
      · obtain ⟨rfl, rfl⟩ := hz
        split_ifs <;> simp_all [accumulate]
      · split_ifs <;> simp_all [accumulate]
  · rw [nearFar_quiet P ud lr _ hs]
    simp_all [accumulate]

/-- The motion state after the near/far block: written only on the `return true`
path, to `NEAR_STATE` on a `(0,0)` step and to `FAR_STATE` when both step components
are nonzero. -/
theorem nearFar_state (P : Params) (ud lr : Int) (s : Globals) :
    (nearFar P ud lr (accumulate P ud lr s)).2.gesture_state_ =
      (if (nearFar P ud lr (accumulate P ud lr s)).1 = ProcExit.Confirmed then
        (if ud = 0 ∧ lr = 0 then MotionState.NEAR_STATE
         else if ud ≠ 0 ∧ lr ≠ 0 then MotionState.FAR_STATE
         else s.gesture_state_)
       else s.gesture_state_) := by
  by_cases hs : |ud| < P.GESTURE_SENSITIVITY_2 ∧ |lr| < P.GESTURE_SENSITIVITY_2
  · by_cases hc : swipeCount P (s.gesture_ud_delta_ + ud) = 0 ∧
        swipeCount P (s.gesture_lr_delta_ + lr) = 0
    · by_cases hz : ud = 0 ∧ lr = 0
      · rw [nearFar_center_zero P ud lr _ hc hs hz]
        obtain ⟨rfl, rfl⟩ := hz
        split_ifs <;> simp_all [accumulate]
      · rw [nearFar_center_move P ud lr _ hc hs hz]
        split_ifs <;> simp_all [accumulate]
    · rw [nearFar_swipe P ud lr _ hc hs]
      by_cases hz : ud = 0 ∧ lr = 0
      · obtain ⟨rfl, rfl⟩ := hz
        split_ifs <;> simp_all [accumulate]
      · split_ifs <;> simp_all [accumulate]
  · rw [nearFar_quiet P ud lr _ hs]
    simp_all [accumulate]

/-- The near/far block writes neither the sample buffer nor the gesture symbol. -/
theorem nearFar_frame (P : Params) (ud lr : Int) (s : Globals) :
    (nearFar P ud lr (accumulate P ud lr s)).2.gesture_data_ = s.gesture_data_ ∧
    (nearFar P ud lr (accumulate P ud lr s)).2.gesture_motion_ = s.gesture_motion_ := by
  by_cases hs : |ud| < P.GESTURE_SENSITIVITY_2 ∧ |lr| < P.GESTURE_SENSITIVITY_2
  · by_cases hc : swipeCount P (s.gesture_ud_delta_ + ud) = 0 ∧
        swipeCount P (s.gesture_lr_delta_ + lr) = 0
    · by_cases hz : ud = 0 ∧ lr = 0
      · rw [nearFar_center_zero P ud lr _ hc hs hz]
        obtain ⟨rfl, rfl⟩ := hz
        split_ifs <;> simp_all [accumulate]
      · rw [nearFar_center_move P ud lr _ hc hs hz]
        split_ifs <;> simp_all [accumulate]
    · rw [nearFar_swipe P ud lr _ hc hs]
      by_cases hz : ud = 0 ∧ lr = 0
      · obtain ⟨rfl, rfl⟩ := hz
        split_ifs <;> simp_all [accumulate]
      · split_ifs <;> simp_all [accumulate]
  · rw [nearFar_quiet P ud lr _ hs]
    simp_all [accumulate]

/-- The accumulators after the near/far block: zero when the stabilization reset is
executed, the accumulated values otherwise. -/
theorem nearFar_deltas (P : Params) (ud lr : Int) (s : Globals) :
    (stabilizationFires P ud lr s →
      (nearFar P ud lr (accumulate P ud lr s)).2.gesture_ud_delta_ = 0 ∧
      (nearFar P ud lr (accumulate P ud lr s)).2.gesture_lr_delta_ = 0 ∧
      (nearFar P ud lr (accumulate P ud lr s)).2.gesture_ud_count_ = 0 ∧
      (nearFar P ud lr (accumulate P ud lr s)).2.gesture_lr_count_ = 0) ∧
    (¬ stabilizationFires P ud lr s →
      (nearFar P ud lr (accumulate P ud lr s)).2.gesture_ud_delta_
        = s.gesture_ud_delta_ + ud ∧
      (nearFar P ud lr (accumulate P ud lr s)).2.gesture_lr_delta_
        = s.gesture_lr_delta_ + lr ∧
      (nearFar P ud lr (accumulate P ud lr s)).2.gesture_ud_count_
        = swipeCount P (s.gesture_ud_delta_ + ud) ∧
      (nearFar P ud lr (accumulate P ud lr s)).2.gesture_lr_count_
        = swipeCount P (s.gesture_lr_delta_ + lr)) := by
  by_cases hs : |ud| < P.GESTURE_SENSITIVITY_2 ∧ |lr| < P.GESTURE_SENSITIVITY_2
  · by_cases hc : swipeCount P (s.gesture_ud_delta_ + ud) = 0 ∧
        swipeCount P (s.gesture_lr_delta_ + lr) = 0
    · by_cases hz : ud = 0 ∧ lr = 0
      · rw [nearFar_center_zero P ud lr _ hc hs hz]
        obtain ⟨rfl, rfl⟩ := hz
        split_ifs <;> simp_all [accumulate, stabilizationFires]
      · rw [nearFar_center_move P ud lr _ hc hs hz]
        split_ifs <;> simp_all [accumulate, stabilizationFires]
    · rw [nearFar_swipe P ud lr _ hc hs]
      by_cases hz : ud = 0 ∧ lr = 0
      · obtain ⟨rfl, rfl⟩ := hz
        split_ifs <;> simp_all [accumulate, stabilizationFires]
      · simp only [stabilizationFires, if_neg hz, add_zero]
        split_ifs with hn <;> simp_all [accumulate]
  · rw [nearFar_quiet P ud lr _ hs]
    simp_all [accumulate, stabilizationFires]

/-- The boolean result of a call that continues to the near/far block. -/
theorem processGestureData_of_step (P : Params) (s : Globals) (ud lr : Int)
    (h4 : 4 < s.gesture_data_.total_gestures) (h32 : s.gesture_data_.total_gestures ≤ 32)
    (hz : ¬ hasZeroChannel (firstQuad P s.gesture_data_))
    (hstep : stepDeltas (firstQuad P s.gesture_data_) (lastQuad P s.gesture_data_)
      = some (ud, lr)) :
    processGestureData P s =
      some ((nearFar P ud lr (accumulate P ud lr s)).1.toBool,
        (nearFar P ud lr (accumulate P ud lr s)).2) := by
  simp [processGestureData, processGestureDataExit_of_step P s ud lr h4 h32 hz hstep]

/-- The swipe counts computed by the three-way comparison satisfy the swipe-verdict
predicate when `GESTURE_SENSITIVITY_1 > 0`. -/
theorem swipeCount_verdict (P : Params) (hS1 : 0 < P.GESTURE_SENSITIVITY_1) (delta : Int) :
    (delta ≥ P.GESTURE_SENSITIVITY_1 → swipeCount P delta = 1) ∧
    (delta ≤ -P.GESTURE_SENSITIVITY_1 → swipeCount P delta = -1) ∧
    (¬ delta ≥ P.GESTURE_SENSITIVITY_1 → ¬ delta ≤ -P.GESTURE_SENSITIVITY_1 →
      swipeCount P delta = 0) := by
  unfold swipeCount
  refine ⟨?_, ?_, ?_⟩
  · intro h; simp [h]
  · intro h
    have : ¬ delta ≥ P.GESTURE_SENSITIVITY_1 := by omega
    simp [this, h]
  · intro h1 h2; simp [h1, h2]

/-- C1: for every sample buffer with `total_gestures <= 4` and every classifier state,
`processGestureData` leaves through the insufficient-data `return false` and every
global (the accumulators, the swipe counts, the near/far counters, the motion state)
is unchanged. -/
theorem processGestureData_insufficient (P : Params) (s : Globals)
    (h : s.gesture_data_.total_gestures ≤ 4) :
    processGestureDataExit P s = some (ProcExit.InsufficientData, s) ∧
    processGestureData P s = some (false, s) := by
  simp [processGestureData, processGestureDataExit, h, ProcExit.toBool]

/-- C1 at a concrete input: a buffer of four entries, all above the threshold. -/
theorem processGestureData_insufficient_witness :
    processGestureData sampleParams
        (freshGlobals { flatData with total_gestures := 4 }) =
      some (false, freshGlobals { flatData with total_gestures := 4 }) :=
  (processGestureData_insufficient sampleParams
    (freshGlobals { flatData with total_gestures := 4 }) (by decide)).2

/-- C2: for a buffer with `4 < total_gestures <= 32` and a threshold
`GESTURE_THRESHOLD_OUT >= 0`, `processGestureData` leaves through the no-valid-sample
`return false` exactly when no quad among the first `total_gestures` entries has all
four channels strictly greater than the threshold; when it does, it returns false and
the globals are unchanged; and the call returns in either case. -/
theorem processGestureData_noValidSample (P : Params) (s : Globals)
    (h4 : 4 < s.gesture_data_.total_gestures) (h32 : s.gesture_data_.total_gestures ≤ 32)
    (hT : 0 ≤ P.GESTURE_THRESHOLD_OUT) :
    ((∃ s', processGestureDataExit P s = some (ProcExit.NoValidSample, s')) ↔
      ∀ i, i < s.gesture_data_.total_gestures → aboveThreshold P s.gesture_data_ i = false) ∧
    (∀ s', processGestureDataExit P s = some (ProcExit.NoValidSample, s') →
      s' = s ∧ processGestureData P s = some (false, s)) ∧
    (∃ e s', processGestureDataExit P s = some (e, s')) := by
  refine ⟨⟨?_, ?_⟩, ?_, processGestureDataExit_returns P s hT h32⟩
  · rintro ⟨s', hs'⟩ i hi
    rcases processGestureDataExit_cases P s _ _ hs' with ⟨_, he, _⟩ | ⟨_, _, hz, _, _⟩ |
      ⟨_, _, _, ud, lr, _, he⟩
    · cases he
    · by_contra hcon
      exact (stepDeltas_defined P s.gesture_data_ hT ⟨i, hi, by simpa using hcon⟩).1 hz
    · have h1 := congrArg Prod.fst he
      rcases nearFar_exit P ud lr (accumulate P ud lr s) with h | h <;>
        · rw [h] at h1; cases h1
  · intro hno
    refine ⟨s, ?_⟩
    have hz : hasZeroChannel (firstQuad P s.gesture_data_) := by
      rw [firstQuad_of_forall P s.gesture_data_ hno]; simp [hasZeroChannel, zeroQuad]
    simp [processGestureDataExit, show ¬ s.gesture_data_.total_gestures ≤ 4 by omega, h32,
      show s.gesture_data_.total_gestures > 0 by omega, hz]
  · intro s' hs'
    rcases processGestureDataExit_cases P s _ _ hs' with ⟨_, he, _⟩ | ⟨_, _, _, _, hs⟩ |
      ⟨_, _, _, ud, lr, _, he⟩
    · cases he
    · subst hs
      exact ⟨rfl, (processGestureData_eq_some P s' false s').2 ⟨_, hs', rfl⟩⟩
    · have h1 := congrArg Prod.fst he
      rcases nearFar_exit P ud lr (accumulate P ud lr s) with h | h <;>
        · rw [h] at h1; cases h1

/-- C2 at a concrete input: five quads below the threshold 10 give the
no-valid-sample exit with unchanged globals. -/
theorem processGestureData_noValidSample_witness :
    (∃ s', processGestureDataExit sampleParams (freshGlobals darkData) =
        some (ProcExit.NoValidSample, s')) ∧
    processGestureData sampleParams (freshGlobals darkData) =
      some (false, freshGlobals darkData) := by
  have h := processGestureData_noValidSample sampleParams (freshGlobals darkData)
    (by decide) (by decide) (by decide)
  have h1 := h.1.2 (by decide)
  obtain ⟨s', hs'⟩ := h1
  exact ⟨⟨s', hs'⟩, (h.2.1 s' hs').2⟩

/-- C3: for a buffer with `4 < total_gestures <= 32` that holds a quad whose four
channels all exceed `GESTURE_THRESHOLD_OUT`, the quad `processGestureData` takes as
`first` is the one at the smallest index below `total_gestures` that satisfies the
condition, the quad it takes as `last` is the one at the largest such index, and the
call continues from these two quads (test on `first`, then ratios). -/
theorem processGestureData_first_last (P : Params) (s : Globals)
    (h4 : 4 < s.gesture_data_.total_gestures) (h32 : s.gesture_data_.total_gestures ≤ 32)
    (hex : ∃ i, i < s.gesture_data_.total_gestures ∧
      aboveThreshold P s.gesture_data_ i = true) :
    ∃ i j,
      i < s.gesture_data_.total_gestures ∧ aboveThreshold P s.gesture_data_ i = true ∧
      (∀ k, k < i → aboveThreshold P s.gesture_data_ k = false) ∧
      j < s.gesture_data_.total_gestures ∧ aboveThreshold P s.gesture_data_ j = true ∧
      (∀ k, j < k → k < s.gesture_data_.total_gestures →
        aboveThreshold P s.gesture_data_ k = false) ∧
      firstQuad P s.gesture_data_ = quadAt s.gesture_data_ i ∧
      lastQuad P s.gesture_data_ = quadAt s.gesture_data_ j ∧
      processGestureDataExit P s =
        (if hasZeroChannel (quadAt s.gesture_data_ i) then some (ProcExit.NoValidSample, s)
         else classifyFrom P (quadAt s.gesture_data_ i) (quadAt s.gesture_data_ j) s) := by
  obtain ⟨i, hi1, hi2, hi3, hfi⟩ := firstQuad_of_exists P s.gesture_data_ hex
  obtain ⟨j, hj1, hj2, hj3, hlj⟩ := lastQuad_of_exists P s.gesture_data_ hex
  refine ⟨i, j, hi1, hi2, hi3, hj1, hj2, hj3, hfi, hlj, ?_⟩
  simp [processGestureDataExit, show ¬ s.gesture_data_.total_gestures ≤ 4 by omega, h32,
    show s.gesture_data_.total_gestures > 0 by omega, hfi, hlj]

/-- C3 at a concrete input: in the six-quad buffer the qualifying indices are 1, 2
and 4, and the call uses the quads at indices 1 and 4. -/
theorem processGestureData_first_last_witness :
    firstQuad sampleParams swipeData = quadAt swipeData 1 ∧
    lastQuad sampleParams swipeData = quadAt swipeData 4 ∧
    ∃ i j,
      i < 6 ∧ aboveThreshold sampleParams swipeData i = true ∧
      (∀ k, k < i → aboveThreshold sampleParams swipeData k = false) ∧
      j < 6 ∧ aboveThreshold sampleParams swipeData j = true ∧
      (∀ k, j < k → k < 6 → aboveThreshold sampleParams swipeData k = false) ∧
      firstQuad sampleParams swipeData = quadAt swipeData i ∧
      lastQuad sampleParams swipeData = quadAt swipeData j ∧
      processGestureDataExit sampleParams (freshGlobals swipeData) =
        (if hasZeroChannel (quadAt swipeData i) then
          some (ProcExit.NoValidSample, freshGlobals swipeData)
         else classifyFrom sampleParams (quadAt swipeData i) (quadAt swipeData j)
           (freshGlobals swipeData)) :=
  ⟨by decide, by decide,
    processGestureData_first_last sampleParams (freshGlobals swipeData)
      (by decide) (by decide) ⟨1, by decide, by decide⟩⟩

/-- C4: in a call with `4 < total_gestures <= 32` that gets past the test on `first`,
the step on each axis is the ratio of `last` minus the ratio of `first`, with
`ud_ratio = ((up - down) * 100) / (up + down)` and
`lr_ratio = ((left - right) * 100) / (left + right)` under truncating division; the
value compared with the swipe threshold is the old accumulator plus this step; and the
accumulators stored after the call are these sums, unless the stabilization reset is
executed, in which case both are 0.  For a threshold `>= 0` a qualifying quad is enough
for the call to get that far. -/
theorem processGestureData_accumulates (P : Params) (s : Globals)
    (h4 : 4 < s.gesture_data_.total_gestures) (h32 : s.gesture_data_.total_gestures ≤ 32) :
    (∀ e s', processGestureDataExit P s = some (e, s') → e ≠ ProcExit.NoValidSample →
      ∃ (first last : Quad) (ud lr : Int),
        first = firstQuad P s.gesture_data_ ∧ last = lastQuad P s.gesture_data_ ∧
        ud = Int.tdiv (((last.u : Int) - (last.d : Int)) * 100)
              ((last.u : Int) + (last.d : Int))
            - Int.tdiv (((first.u : Int) - (first.d : Int)) * 100)
              ((first.u : Int) + (first.d : Int)) ∧
        lr = Int.tdiv (((last.l : Int) - (last.r : Int)) * 100)
              ((last.l : Int) + (last.r : Int))
            - Int.tdiv (((first.l : Int) - (first.r : Int)) * 100)
              ((first.l : Int) + (first.r : Int)) ∧
        (e, s') = nearFar P ud lr (accumulate P ud lr s) ∧
        (accumulate P ud lr s).gesture_ud_delta_ = s.gesture_ud_delta_ + ud ∧
        (accumulate P ud lr s).gesture_lr_delta_ = s.gesture_lr_delta_ + lr ∧
        (accumulate P ud lr s).gesture_ud_count_ =
          (if s.gesture_ud_delta_ + ud ≥ P.GESTURE_SENSITIVITY_1 then 1
           else if s.gesture_ud_delta_ + ud ≤ -P.GESTURE_SENSITIVITY_1 then -1 else 0) ∧
        (accumulate P ud lr s).gesture_lr_count_ =
          (if s.gesture_lr_delta_ + lr ≥ P.GESTURE_SENSITIVITY_1 then 1
           else if s.gesture_lr_delta_ + lr ≤ -P.GESTURE_SENSITIVITY_1 then -1 else 0) ∧
        (stabilizationFires P ud lr s →
          s'.gesture_ud_delta_ = 0 ∧ s'.gesture_lr_delta_ = 0) ∧
        (¬ stabilizationFires P ud lr s →
          s'.gesture_ud_delta_ = s.gesture_ud_delta_ + ud ∧
          s'.gesture_lr_delta_ = s.gesture_lr_delta_ + lr)) ∧
    (0 ≤ P.GESTURE_THRESHOLD_OUT →
      (∃ i, i < s.gesture_data_.total_gestures ∧ aboveThreshold P s.gesture_data_ i = true) →
      ∃ e s', processGestureDataExit P s = some (e, s') ∧ e ≠ ProcExit.NoValidSample) := by
  constructor
  · intro e s' hs' hne
    rcases processGestureDataExit_cases P s _ _ hs' with ⟨h, _, _⟩ | ⟨_, _, _, he, _⟩ |
      ⟨_, _, _, ud, lr, hst, he⟩
    · omega
    · exact absurd he hne
    · obtain ⟨hud, hlr⟩ := stepDeltas_eq_some _ _ _ _ hst
      have hd := nearFar_deltas P ud lr s
      rw [← he] at hd
      refine ⟨_, _, ud, lr, rfl, rfl, hud, hlr, he, rfl, rfl, rfl, rfl, ?_, ?_⟩
      · intro hf; exact ⟨(hd.1 hf).1, (hd.1 hf).2.1⟩
      · intro hf; exact ⟨(hd.2 hf).1, (hd.2 hf).2.1⟩
  · intro hT hex
    obtain ⟨hz, ud, lr, hst⟩ := stepDeltas_defined P s.gesture_data_ hT hex
    refine ⟨(nearFar P ud lr (accumulate P ud lr s)).1,
      (nearFar P ud lr (accumulate P ud lr s)).2,
      processGestureDataExit_of_step P s ud lr h4 h32 hz hst, ?_⟩
    rcases nearFar_exit P ud lr (accumulate P ud lr s) with h | h <;> rw [h] <;> simp

/-- C4 at a concrete input: the six-quad buffer has first quad `(30, 30, 40, 40)` and
last quad `(60, 20, 40, 40)`, hence the step `(50, 0)`; from zero accumulators the
call stores `ud_delta = 50`, `lr_delta = 0`. -/
theorem processGestureData_accumulates_witness :
    ∃ e s', processGestureDataExit sampleParams (freshGlobals swipeData) = some (e, s') ∧
      e ≠ ProcExit.NoValidSample ∧
      s'.gesture_ud_delta_ = 50 ∧ s'.gesture_lr_delta_ = 0 := by
  have h := processGestureData_accumulates sampleParams (freshGlobals swipeData)
    (by decide) (by decide)
  obtain ⟨e, s', hs', hne⟩ := h.2 (by decide) ⟨1, by decide, by decide⟩
  obtain ⟨first, last, ud, lr, hf, hl, hud, hlr, _, _, _, _, _, _, hno⟩ := h.1 e s' hs' hne
  have hf' : first = { u := 30, d := 30, l := 40, r := 40 } := by rw [hf]; decide
  have hl' : last = { u := 60, d := 20, l := 40, r := 40 } := by rw [hl]; decide
  subst hf' hl'
  have hud' : ud = 50 := by rw [hud]; decide
  have hlr' : lr = 0 := by rw [hlr]; decide
  subst hud' hlr'
  have := hno (by decide)
  exact ⟨e, s', hs', hne, by simpa [freshGlobals] using this.1,
    by simpa [freshGlobals] using this.2⟩

/-- C5: assuming `GESTURE_SENSITIVITY_1 > 0`, the swipe-verdict predicate (each swipe
count is `+1`, `-1` or `0` according to the comparison of its accumulated delta with
the sensitivity) holds after `resetGestureParameters`, is preserved by every call of
`processGestureData` whatever its result, and forces both counts into `{-1, 0, 1}`;
for a threshold `>= 0` and a buffer of at most 32 entries the call does return. -/
theorem swipeVerdictInv_invariant (P : Params) (hS1 : 0 < P.GESTURE_SENSITIVITY_1) :
    (∀ s, swipeVerdictInv P (resetGestureParameters s)) ∧
    (∀ s b s', swipeVerdictInv P s → processGestureData P s = some (b, s') →
      swipeVerdictInv P s') ∧
    (∀ s, swipeVerdictInv P s →
      (s.gesture_ud_count_ = -1 ∨ s.gesture_ud_count_ = 0 ∨ s.gesture_ud_count_ = 1) ∧
      (s.gesture_lr_count_ = -1 ∨ s.gesture_lr_count_ = 0 ∨ s.gesture_lr_count_ = 1)) ∧
    (∀ s, 0 ≤ P.GESTURE_THRESHOLD_OUT → s.gesture_data_.total_gestures ≤ 32 →
      ∃ b s', processGestureData P s = some (b, s')) := by
  refine ⟨?_, ?_, ?_, ?_⟩
  · intro s
    have hneg : ¬ (0 : Int) ≥ P.GESTURE_SENSITIVITY_1 := by omega
    have hneg' : ¬ (0 : Int) ≤ -P.GESTURE_SENSITIVITY_1 := by omega
    exact ⟨fun h => absurd h hneg, fun h => absurd h hneg', fun _ _ => rfl,
      fun h => absurd h hneg, fun h => absurd h hneg', fun _ _ => rfl⟩
  · intro s b s' hinv h
    obtain ⟨e, hexit, _⟩ := (processGestureData_eq_some P s b s').1 h
    rcases processGestureDataExit_cases P s _ _ hexit with ⟨_, _, hs⟩ | ⟨_, _, _, _, hs⟩ |
      ⟨_, _, _, ud, lr, _, he⟩
    · rw [hs]; exact hinv
    · rw [hs]; exact hinv
    · have hs' : s' = (nearFar P ud lr (accumulate P ud lr s)).2 := by rw [← he]
      have hd := nearFar_deltas P ud lr s
      rw [← hs'] at hd
      by_cases hf : stabilizationFires P ud lr s
      · obtain ⟨h1, h2, h3, h4⟩ := hd.1 hf
        have hneg : ¬ (0 : Int) ≥ P.GESTURE_SENSITIVITY_1 := by omega
        have hneg' : ¬ (0 : Int) ≤ -P.GESTURE_SENSITIVITY_1 := by omega
        unfold swipeVerdictInv
        rw [h1, h2, h3, h4]
        exact ⟨fun h => absurd h hneg, fun h => absurd h hneg', fun _ _ => rfl,
          fun h => absurd h hneg, fun h => absurd h hneg', fun _ _ => rfl⟩
      · obtain ⟨h1, h2, h3, h4⟩ := hd.2 hf
        obtain ⟨a1, a2, a3⟩ := swipeCount_verdict P hS1 (s.gesture_ud_delta_ + ud)
        obtain ⟨b1, b2, b3⟩ := swipeCount_verdict P hS1 (s.gesture_lr_delta_ + lr)
        unfold swipeVerdictInv
        rw [h1, h2, h3, h4]
        exact ⟨a1, a2, a3, b1, b2, b3⟩
  · intro s hinv
    obtain ⟨a1, a2, a3, b1, b2, b3⟩ := hinv
    constructor
    · by_cases h1 : s.gesture_ud_delta_ ≥ P.GESTURE_SENSITIVITY_1
      · exact Or.inr (Or.inr (a1 h1))
      · by_cases h2 : s.gesture_ud_delta_ ≤ -P.GESTURE_SENSITIVITY_1
        · exact Or.inl (a2 h2)
        · exact Or.inr (Or.inl (a3 h1 h2))
    · by_cases h1 : s.gesture_lr_delta_ ≥ P.GESTURE_SENSITIVITY_1
      · exact Or.inr (Or.inr (b1 h1))
      · by_cases h2 : s.gesture_lr_delta_ ≤ -P.GESTURE_SENSITIVITY_1
        · exact Or.inl (b2 h2)
        · exact Or.inr (Or.inl (b3 h1 h2))
  · intro s hT h32
    obtain ⟨e, s', hexit⟩ := processGestureDataExit_returns P s hT h32
    exact ⟨e.toBool, s', (processGestureData_eq_some P s _ s').2 ⟨e, hexit, rfl⟩⟩

/-- C5 at a concrete input: with the sensitivity 50 the predicate holds after the
swipe call on the six-quad buffer, which stores `ud_delta = 50`, `ud_count = 1`. -/
theorem swipeVerdictInv_invariant_witness :
    (0 : Int) < sampleParams.GESTURE_SENSITIVITY_1 ∧
    processGestureData sampleParams (freshGlobals swipeData) =
      some (false, sessionGlobals swipeData 50 1 0 0) ∧
    swipeVerdictInv sampleParams (sessionGlobals swipeData 50 1 0 0) :=
  ⟨by decide, by decide,
    (swipeVerdictInv_invariant sampleParams (by decide)).2.1
      (freshGlobals swipeData) false (sessionGlobals swipeData 50 1 0 0)
      (by decide) (by decide)⟩

/-- C6: `processGestureData` returns true exactly when the data checks pass (more than
4 and at most 32 entries, no zero channel in `first`, ratios defined), both recomputed
swipe counts are 0, both step deltas are strictly inside `GESTURE_SENSITIVITY_2`, and
after the counter increment of this call `near_count >= 10` and `far_count >= 2`; in
particular, whenever it returns true both swipe counts are 0. -/
theorem processGestureData_true_iff (P : Params) (s : Globals) :
    ((∃ s', processGestureData P s = some (true, s')) ↔
      4 < s.gesture_data_.total_gestures ∧ s.gesture_data_.total_gestures ≤ 32 ∧
      ¬ hasZeroChannel (firstQuad P s.gesture_data_) ∧
      ∃ ud lr,
        stepDeltas (firstQuad P s.gesture_data_) (lastQuad P s.gesture_data_)
          = some (ud, lr) ∧
        swipeCount P (s.gesture_ud_delta_ + ud) = 0 ∧
        swipeCount P (s.gesture_lr_delta_ + lr) = 0 ∧
        |ud| < P.GESTURE_SENSITIVITY_2 ∧ |lr| < P.GESTURE_SENSITIVITY_2 ∧
        s.gesture_near_count_ + (if ud = 0 ∧ lr = 0 then 1 else 0) ≥ 10 ∧
        s.gesture_far_count_ + (if ud = 0 ∧ lr = 0 then 0 else 1) ≥ 2) ∧
    (∀ s', processGestureData P s = some (true, s') →
      s'.gesture_ud_count_ = 0 ∧ s'.gesture_lr_count_ = 0) := by
  have key : ∀ s', processGestureData P s = some (true, s') →
      4 < s.gesture_data_.total_gestures ∧ s.gesture_data_.total_gestures ≤ 32 ∧
      ¬ hasZeroChannel (firstQuad P s.gesture_data_) ∧
      ∃ ud lr,
        stepDeltas (firstQuad P s.gesture_data_) (lastQuad P s.gesture_data_)
          = some (ud, lr) ∧
        (nearFar P ud lr (accumulate P ud lr s)).1 = ProcExit.Confirmed ∧
        s' = (nearFar P ud lr (accumulate P ud lr s)).2 := by
    intro s' h
    obtain ⟨e, hexit, hb⟩ := (processGestureData_eq_some P s true s').1 h
    rcases processGestureDataExit_cases P s _ _ hexit with ⟨_, he, _⟩ | ⟨_, _, _, he, _⟩ |
      ⟨h4, h32, hz, ud, lr, hst, he⟩
    · subst he; cases hb
    · subst he; cases hb
    · refine ⟨h4, h32, hz, ud, lr, hst, ?_, by rw [← he]⟩
      have h1 : e = (nearFar P ud lr (accumulate P ud lr s)).1 := by rw [← he]
      rw [← h1]
      cases e <;> first | rfl | cases hb
  refine ⟨⟨?_, ?_⟩, ?_⟩
  · rintro ⟨s', h⟩
    obtain ⟨h4, h32, hz, ud, lr, hst, hc, _⟩ := key s' h
    exact ⟨h4, h32, hz, ud, lr, hst, (nearFar_confirmed_iff P ud lr s).1 hc⟩
  · rintro ⟨h4, h32, hz, ud, lr, hst, hcond⟩
    have hc := (nearFar_confirmed_iff P ud lr s).2 hcond
    refine ⟨(nearFar P ud lr (accumulate P ud lr s)).2, ?_⟩
    rw [processGestureData_of_step P s ud lr h4 h32 hz hst, hc]
    rfl
  · intro s' h
    obtain ⟨_, _, _, ud, lr, _, hc, hs'⟩ := key s' h
    obtain ⟨c1, c2, _, _, _, _⟩ := (nearFar_confirmed_iff P ud lr s).1 hc
    have hnf : ¬ stabilizationFires P ud lr s := fun hf => hf.1 ⟨c1, c2⟩
    obtain ⟨_, _, h3, h4⟩ := (nearFar_deltas P ud lr s).2 hnf
    rw [hs', h3, h4]
    exact ⟨c1, c2⟩

/-- C6 at a concrete input: on the flat buffer with `near_count = 9`, `far_count = 2`
and zero swipe counts the call returns true. -/
theorem processGestureData_true_iff_witness :
    ∃ s', processGestureData sampleParams (sessionGlobals flatData 0 0 9 2) = some (true, s') :=
  (processGestureData_true_iff sampleParams (sessionGlobals flatData 0 0 9 2)).1.2
    ⟨by decide, by decide, by decide, 0, 0, by decide, by decide, by decide, by decide,
      by decide, by decide, by decide⟩

/-- C7: in a call of `processGestureData` where the confirmation condition is met
(data checks passed, both recomputed swipe counts 0, both step deltas strictly inside
`GESTURE_SENSITIVITY_2`, `near_count >= 10` and `far_count >= 2` after the increment),
the call returns true and the motion state becomes `NEAR_STATE` if the step is
`(0,0)`, becomes `FAR_STATE` if both step components are nonzero, and is left
unchanged if exactly one step component is nonzero. -/
theorem processGestureData_confirmed_state (P : Params) (s : Globals) (ud lr : Int)
    (h4 : 4 < s.gesture_data_.total_gestures) (h32 : s.gesture_data_.total_gestures ≤ 32)
    (hz : ¬ hasZeroChannel (firstQuad P s.gesture_data_))
    (hst : stepDeltas (firstQuad P s.gesture_data_) (lastQuad P s.gesture_data_)
      = some (ud, lr))
    (hud : swipeCount P (s.gesture_ud_delta_ + ud) = 0)
    (hlr : swipeCount P (s.gesture_lr_delta_ + lr) = 0)
    (hsu : |ud| < P.GESTURE_SENSITIVITY_2) (hsl : |lr| < P.GESTURE_SENSITIVITY_2)
    (hnear : s.gesture_near_count_ + (if ud = 0 ∧ lr = 0 then 1 else 0) ≥ 10)
    (hfar : s.gesture_far_count_ + (if ud = 0 ∧ lr = 0 then 0 else 1) ≥ 2) :
    ∃ s', processGestureData P s = some (true, s') ∧
      (ud = 0 ∧ lr = 0 → s'.gesture_state_ = MotionState.NEAR_STATE) ∧
      (ud ≠ 0 ∧ lr ≠ 0 → s'.gesture_state_ = MotionState.FAR_STATE) ∧
      ((ud = 0 ∧ lr ≠ 0) ∨ (ud ≠ 0 ∧ lr = 0) → s'.gesture_state_ = s.gesture_state_) := by
  have hc := (nearFar_confirmed_iff P ud lr s).2 ⟨hud, hlr, hsu, hsl, hnear, hfar⟩
  have hstate := nearFar_state P ud lr s
  rw [if_pos hc] at hstate
  refine ⟨(nearFar P ud lr (accumulate P ud lr s)).2, ?_, ?_, ?_, ?_⟩
  · rw [processGestureData_of_step P s ud lr h4 h32 hz hst, hc]; rfl
  · intro h; rw [hstate, if_pos h]
  · intro h
    have hn : ¬ (ud = 0 ∧ lr = 0) := fun h0 => h.1 h0.1
    rw [hstate, if_neg hn, if_pos h]
  · intro h
    have hn : ¬ (ud = 0 ∧ lr = 0) := by
      rintro ⟨h1, h2⟩
      rcases h with ⟨_, h⟩ | ⟨h, _⟩
      · exact h h2
      · exact h h1
    have hn' : ¬ (ud ≠ 0 ∧ lr ≠ 0) := by
      rintro ⟨h1, h2⟩
      rcases h with ⟨h, _⟩ | ⟨_, h⟩
      · exact h1 h
      · exact h2 h
    rw [hstate, if_neg hn, if_neg hn']

/-- C7 at three concrete inputs with `near_count` and `far_count` about to reach 10
and 2: the `(0,0)` step of the flat buffer gives `NEAR_STATE`, the step `(9, 9)` gives
`FAR_STATE`, and the one-axis step `(9, 0)` returns true with the motion state still
`NONE`. -/
theorem processGestureData_confirmed_state_witness :
    (∃ s', processGestureData sampleParams (sessionGlobals flatData 0 0 9 2) = some (true, s') ∧
      s'.gesture_state_ = MotionState.NEAR_STATE) ∧
    (∃ s', processGestureData sampleParams (sessionGlobals driftData 0 0 10 1) = some (true, s') ∧
      s'.gesture_state_ = MotionState.FAR_STATE) ∧
    (∃ s', processGestureData sampleParams (sessionGlobals nudgeData 0 0 10 1) = some (true, s') ∧
      s'.gesture_state_ = MotionState.NONE) := by
  refine ⟨?_, ?_, ?_⟩
  · obtain ⟨s', h1, h2, _, _⟩ := processGestureData_confirmed_state sampleParams
      (sessionGlobals flatData 0 0 9 2) 0 0 (by decide) (by decide) (by decide) (by decide)
      (by decide) (by decide) (by decide) (by decide) (by decide) (by decide)
    exact ⟨s', h1, h2 ⟨rfl, rfl⟩⟩
  · obtain ⟨s', h1, _, h3, _⟩ := processGestureData_confirmed_state sampleParams
      (sessionGlobals driftData 0 0 10 1) 9 9 (by decide) (by decide) (by decide) (by decide)
      (by decide) (by decide) (by decide) (by decide) (by decide) (by decide)
    exact ⟨s', h1, h3 ⟨by decide, by decide⟩⟩
  · obtain ⟨s', h1, _, _, h4⟩ := processGestureData_confirmed_state sampleParams
      (sessionGlobals nudgeData 0 0 10 1) 9 0 (by decide) (by decide) (by decide) (by decide)
      (by decide) (by decide) (by decide) (by decide) (by decide) (by decide)
    exact ⟨s', h1, h4 (Or.inr ⟨by decide, rfl⟩)⟩

/-- C8: in a call of `processGestureData` where at least one recomputed swipe count is
nonzero and both step deltas are strictly inside `GESTURE_SENSITIVITY_2`, the call
returns false, a `(0,0)` step increments `near_count` by one (another step leaves it),
`far_count` is unchanged, and if `near_count` is then `>= 10` the four swipe fields
are 0 after the call, while if it is `< 10` they keep the accumulated deltas and the
recomputed counts. -/
theorem processGestureData_stabilization (P : Params) (s : Globals) (ud lr : Int)
    (h4 : 4 < s.gesture_data_.total_gestures) (h32 : s.gesture_data_.total_gestures ≤ 32)
    (hz : ¬ hasZeroChannel (firstQuad P s.gesture_data_))
    (hst : stepDeltas (firstQuad P s.gesture_data_) (lastQuad P s.gesture_data_)
      = some (ud, lr))
    (hc : ¬ (swipeCount P (s.gesture_ud_delta_ + ud) = 0 ∧
      swipeCount P (s.gesture_lr_delta_ + lr) = 0))
    (hsu : |ud| < P.GESTURE_SENSITIVITY_2) (hsl : |lr| < P.GESTURE_SENSITIVITY_2) :
    ∃ s', processGestureData P s = some (false, s') ∧
      s'.gesture_near_count_ =
        s.gesture_near_count_ + (if ud = 0 ∧ lr = 0 then 1 else 0) ∧
      s'.gesture_far_count_ = s.gesture_far_count_ ∧
      (s'.gesture_near_count_ ≥ 10 →
        s'.gesture_ud_count_ = 0 ∧ s'.gesture_lr_count_ = 0 ∧
        s'.gesture_ud_delta_ = 0 ∧ s'.gesture_lr_delta_ = 0) ∧
      (s'.gesture_near_count_ < 10 →
        s'.gesture_ud_count_ = swipeCount P (s.gesture_ud_delta_ + ud) ∧
        s'.gesture_lr_count_ = swipeCount P (s.gesture_lr_delta_ + lr) ∧
        s'.gesture_ud_delta_ = s.gesture_ud_delta_ + ud ∧
        s'.gesture_lr_delta_ = s.gesture_lr_delta_ + lr) := by
  have hnc : (nearFar P ud lr (accumulate P ud lr s)).1 ≠ ProcExit.Confirmed :=
    fun h => hc ⟨((nearFar_confirmed_iff P ud lr s).1 h).1,
      ((nearFar_confirmed_iff P ud lr s).1 h).2.1⟩
  have hnv : (nearFar P ud lr (accumulate P ud lr s)).1 = ProcExit.NoVerdict := by
    rcases nearFar_exit P ud lr (accumulate P ud lr s) with h | h
    · exact absurd h hnc
    · exact h
  obtain ⟨hn, hf⟩ := nearFar_counters P ud lr s
  rw [if_neg (fun h => hc h.1)] at hf
  have hn' : (nearFar P ud lr (accumulate P ud lr s)).2.gesture_near_count_ =
      s.gesture_near_count_ + (if ud = 0 ∧ lr = 0 then 1 else 0) := by
    rw [hn]
    by_cases h0 : ud = 0 ∧ lr = 0
    · rw [if_pos ⟨⟨hsu, hsl⟩, h0⟩, if_pos h0]
    · rw [if_neg (fun h => h0 h.2), if_neg h0]
  have hd := nearFar_deltas P ud lr s
  refine ⟨(nearFar P ud lr (accumulate P ud lr s)).2, ?_, hn', by rw [hf]; rfl, ?_, ?_⟩
  · rw [processGestureData_of_step P s ud lr h4 h32 hz hst, hnv]; rfl
  · intro h10
    rw [hn'] at h10
    obtain ⟨a, b, c, d⟩ := hd.1 ⟨hc, hsu, hsl, h10⟩
    exact ⟨c, d, a, b⟩
  · intro h10
    rw [hn'] at h10
    obtain ⟨a, b, c, d⟩ := hd.2 (fun hf => absurd hf.2.2.2 (by omega))
    exact ⟨c, d, a, b⟩

/-- C8 at a concrete input: with `ud_delta = 59` (swipe count 1), `near_count = 9` and
the `(0,0)` step of the flat buffer, `near_count` becomes 10 and the four swipe fields
are zeroed. -/
theorem processGestureData_stabilization_witness :
    ∃ s', processGestureData sampleParams (sessionGlobals flatData 59 1 9 1) = some (false, s') ∧
      s'.gesture_near_count_ = 10 ∧ s'.gesture_far_count_ = 1 ∧
      s'.gesture_ud_count_ = 0 ∧ s'.gesture_lr_count_ = 0 ∧
      s'.gesture_ud_delta_ = 0 ∧ s'.gesture_lr_delta_ = 0 := by
  obtain ⟨s', h1, h2, h3, h4, _⟩ := processGestureData_stabilization sampleParams
    (sessionGlobals flatData 59 1 9 1) 0 0 (by decide) (by decide) (by decide) (by decide)
    (by decide) (by decide) (by decide)
  have hn : s'.gesture_near_count_ = 10 := by rw [h2]; decide
  obtain ⟨a, b, c, d⟩ := h4 (by omega)
  exact ⟨s', h1, hn, by rw [h3]; decide, a, b, c, d⟩

/-- C9 fails on the code: from the reset state, one call on the one-axis buffer, one
on the swipe buffer and nine on the flat buffer lead to `ud_delta = 59`,
`ud_count = 1`, `near_count = 9`, `far_count = 1`; the next call on the flat buffer
(step `(0,0)`) performs the stabilization reset of the four swipe fields and leaves
`near_count = 10` and `far_count = 1`, neither of them zero. -/
theorem stabilization_reset_keeps_run_counters :
    processAll sampleParams (nudgeData :: swipeData :: List.replicate 9 flatData)
        (resetGestureParameters (freshGlobals darkData)) =
      some (sessionGlobals flatData 59 1 9 1) ∧
    stepDeltas (firstQuad sampleParams flatData) (lastQuad sampleParams flatData) =
      some (0, 0) ∧
    stabilizationFires sampleParams 0 0 (sessionGlobals flatData 59 1 9 1) ∧
    processGestureData sampleParams (sessionGlobals flatData 59 1 9 1) =
      some (false, sessionGlobals flatData 0 0 10 1) ∧
    (sessionGlobals flatData 0 0 10 1).gesture_near_count_ = 10 ∧
    (sessionGlobals flatData 0 0 10 1).gesture_far_count_ = 1 := by
  decide

/-- C9 as amended: whenever a call of `processGestureData` performs the stabilization
reset (the four swipe fields are set to 0), the call returns false, `near_count` is at
least 10 after it and `far_count` has the value it had before: the call resets neither
run counter.  Both counters are set to zero, together with the four swipe fields, by
`resetGestureParameters`. -/
theorem processGestureData_reset_keeps_counters (P : Params) (s : Globals) (ud lr : Int)
    (h4 : 4 < s.gesture_data_.total_gestures) (h32 : s.gesture_data_.total_gestures ≤ 32)
    (hz : ¬ hasZeroChannel (firstQuad P s.gesture_data_))
    (hst : stepDeltas (firstQuad P s.gesture_data_) (lastQuad P s.gesture_data_)
      = some (ud, lr))
    (hf : stabilizationFires P ud lr s) :
    (∃ s', processGestureData P s = some (false, s') ∧
      s'.gesture_ud_count_ = 0 ∧ s'.gesture_lr_count_ = 0 ∧
      s'.gesture_ud_delta_ = 0 ∧ s'.gesture_lr_delta_ = 0 ∧
      s'.gesture_near_count_ ≥ 10 ∧
      s'.gesture_near_count_ =
        s.gesture_near_count_ + (if ud = 0 ∧ lr = 0 then 1 else 0) ∧
      s'.gesture_far_count_ = s.gesture_far_count_) ∧
    ((resetGestureParameters s).gesture_near_count_ = 0 ∧
      (resetGestureParameters s).gesture_far_count_ = 0 ∧
      (resetGestureParameters s).gesture_ud_count_ = 0 ∧
      (resetGestureParameters s).gesture_lr_count_ = 0 ∧
      (resetGestureParameters s).gesture_ud_delta_ = 0 ∧
      (resetGestureParameters s).gesture_lr_delta_ = 0) := by
  refine ⟨?_, rfl, rfl, rfl, rfl, rfl, rfl⟩
  obtain ⟨hc, hsu, hsl, h10⟩ := hf
  have hnc : (nearFar P ud lr (accumulate P ud lr s)).1 ≠ ProcExit.Confirmed :=
    fun h => hc ⟨((nearFar_confirmed_iff P ud lr s).1 h).1,
      ((nearFar_confirmed_iff P ud lr s).1 h).2.1⟩
  have hnv : (nearFar P ud lr (accumulate P ud lr s)).1 = ProcExit.NoVerdict := by
    rcases nearFar_exit P ud lr (accumulate P ud lr s) with h | h
    · exact absurd h hnc
    · exact h
  obtain ⟨hn, hfar⟩ := nearFar_counters P ud lr s
  rw [if_neg (fun h => hc h.1)] at hfar
  have hn' : (nearFar P ud lr (accumulate P ud lr s)).2.gesture_near_count_ =
      s.gesture_near_count_ + (if ud = 0 ∧ lr = 0 then 1 else 0) := by
    rw [hn]
    by_cases h0 : ud = 0 ∧ lr = 0
    · rw [if_pos ⟨⟨hsu, hsl⟩, h0⟩, if_pos h0]
    · rw [if_neg (fun h => h0 h.2), if_neg h0]
  obtain ⟨a, b, c, d⟩ := (nearFar_deltas P ud lr s).1 ⟨hc, hsu, hsl, h10⟩
  refine ⟨(nearFar P ud lr (accumulate P ud lr s)).2, ?_, c, d, a, b, ?_, hn',
    by rw [hfar]; rfl⟩
  · rw [processGestureData_of_step P s ud lr h4 h32 hz hst, hnv]; rfl
  · rw [hn']; exact h10

/-- C9 as amended, at a concrete input: the call that zeroes the four swipe fields
leaves `near_count >= 10` and `far_count = 1`. -/
theorem processGestureData_reset_keeps_counters_witness :
    stabilizationFires sampleParams 0 0 (sessionGlobals flatData 59 1 9 1) ∧
    ∃ s', processGestureData sampleParams (sessionGlobals flatData 59 1 9 1) = some (false, s') ∧
      s'.gesture_ud_count_ = 0 ∧ s'.gesture_ud_delta_ = 0 ∧
      s'.gesture_near_count_ ≥ 10 ∧ s'.gesture_far_count_ = 1 := by
  refine ⟨by decide, ?_⟩
  obtain ⟨⟨s', h1, h2, _, h4, _, h6, _, h8⟩, _⟩ :=
    processGestureData_reset_keeps_counters sampleParams (sessionGlobals flatData 59 1 9 1) 0 0
      (by decide) (by decide) (by decide) (by decide) (by decide)
  exact ⟨s', h1, h2, h4, h6, by rw [h8]; decide⟩

/-- C10: `processGestureData` never decreases `near_count` or `far_count`: after every
call that returns each counter is at least its value before, and the call has
incremented at most one of the two, by exactly 1; for a threshold `>= 0` and a buffer
of at most 32 entries the call does return. -/
theorem processGestureData_counters_monotone (P : Params) (s : Globals) :
    (∀ b s', processGestureData P s = some (b, s') →
      s.gesture_near_count_ ≤ s'.gesture_near_count_ ∧
      s.gesture_far_count_ ≤ s'.gesture_far_count_ ∧
      ((s'.gesture_near_count_ = s.gesture_near_count_ ∧
          s'.gesture_far_count_ = s.gesture_far_count_) ∨
        (s'.gesture_near_count_ = s.gesture_near_count_ + 1 ∧
          s'.gesture_far_count_ = s.gesture_far_count_) ∨
        (s'.gesture_near_count_ = s.gesture_near_count_ ∧
          s'.gesture_far_count_ = s.gesture_far_count_ + 1))) ∧
    (0 ≤ P.GESTURE_THRESHOLD_OUT → s.gesture_data_.total_gestures ≤ 32 →
      ∃ b s', processGestureData P s = some (b, s')) := by
  constructor
  · intro b s' h
    obtain ⟨e, hexit, _⟩ := (processGestureData_eq_some P s b s').1 h
    rcases processGestureDataExit_cases P s _ _ hexit with ⟨_, _, hs⟩ | ⟨_, _, _, _, hs⟩ |
      ⟨_, _, _, ud, lr, _, he⟩
    · subst hs; exact ⟨le_refl _, le_refl _, Or.inl ⟨rfl, rfl⟩⟩
    · subst hs; exact ⟨le_refl _, le_refl _, Or.inl ⟨rfl, rfl⟩⟩
    · have hs' : s' = (nearFar P ud lr (accumulate P ud lr s)).2 := by rw [← he]
      obtain ⟨hn, hf⟩ := nearFar_counters P ud lr s
      rw [← hs'] at hn hf
      rw [hn, hf]
      split_ifs with c1 c2 <;> first
        | exact absurd c1.2 c2.2.2
        | (refine ⟨by omega, by omega, ?_⟩; omega)
  · intro hT h32
    obtain ⟨e, s', hexit⟩ := processGestureDataExit_returns P s hT h32
    exact ⟨e.toBool, s', (processGestureData_eq_some P s _ s').2 ⟨e, hexit, rfl⟩⟩

/-- C10 at two concrete inputs: the flat buffer increments `near_count` only, the
one-axis buffer increments `far_count` only. -/
theorem processGestureData_counters_monotone_witness :
    (∃ s', processGestureData sampleParams (freshGlobals flatData) = some (false, s') ∧
      s'.gesture_near_count_ = 1 ∧ s'.gesture_far_count_ = 0 ∧
      (0 ≤ s'.gesture_near_count_ ∧ 0 ≤ s'.gesture_far_count_)) ∧
    (∃ s', processGestureData sampleParams (freshGlobals nudgeData) = some (false, s') ∧
      s'.gesture_near_count_ = 0 ∧ s'.gesture_far_count_ = 1 ∧
      (0 ≤ s'.gesture_near_count_ ∧ 0 ≤ s'.gesture_far_count_)) := by
  constructor
  · have h : processGestureData sampleParams (freshGlobals flatData) =
        some (false, sessionGlobals flatData 0 0 1 0) := by decide
    obtain ⟨a, b, _⟩ := (processGestureData_counters_monotone sampleParams
      (freshGlobals flatData)).1 false _ h
    exact ⟨_, h, rfl, rfl, a, b⟩
  · have h : processGestureData sampleParams (freshGlobals nudgeData) =
        some (false, sessionGlobals nudgeData 9 0 0 1) := by decide
    obtain ⟨a, b, _⟩ := (processGestureData_counters_monotone sampleParams
      (freshGlobals nudgeData)).1 false _ h
    exact ⟨_, h, rfl, rfl, a, b⟩

/-! ### Claims on the large step, `decodeGesture` and the reset -/

/-- After the accumulation and the near/far block the swipe-verdict predicate holds,
whatever the globals were before, when `GESTURE_SENSITIVITY_1 > 0`. -/
theorem swipeVerdictInv_after_step (P : Params) (hS1 : 0 < P.GESTURE_SENSITIVITY_1)
    (ud lr : Int) (s : Globals) :
    swipeVerdictInv P (nearFar P ud lr (accumulate P ud lr s)).2 := by
  have hd := nearFar_deltas P ud lr s
  by_cases hf : stabilizationFires P ud lr s
  · obtain ⟨h1, h2, h3, h4⟩ := hd.1 hf
    have hneg : ¬ (0 : Int) ≥ P.GESTURE_SENSITIVITY_1 := by omega
    have hneg' : ¬ (0 : Int) ≤ -P.GESTURE_SENSITIVITY_1 := by omega
    unfold swipeVerdictInv
    rw [h1, h2, h3, h4]
    exact ⟨fun h => absurd h hneg, fun h => absurd h hneg', fun _ _ => rfl,
      fun h => absurd h hneg, fun h => absurd h hneg', fun _ _ => rfl⟩
  · obtain ⟨h1, h2, h3, h4⟩ := hd.2 hf
    obtain ⟨a1, a2, a3⟩ := swipeCount_verdict P hS1 (s.gesture_ud_delta_ + ud)
    obtain ⟨b1, b2, b3⟩ := swipeCount_verdict P hS1 (s.gesture_lr_delta_ + lr)
    unfold swipeVerdictInv
    rw [h1, h2, h3, h4]
    exact ⟨a1, a2, a3, b1, b2, b3⟩

/-- C11: in a call of `processGestureData` that passes the data checks and whose step
has at least one component of absolute value `>= GESTURE_SENSITIVITY_2`, the near/far
block is not evaluated: the call returns false, `near_count`, `far_count` and the
motion state (and the buffer and the gesture symbol) are unchanged, and the globals
after the call differ from those before only in `ud_delta`, `lr_delta`, `ud_count`
and `lr_count`, which hold the accumulated deltas and the recomputed counts. -/
theorem processGestureData_large_step (P : Params) (s : Globals) (ud lr : Int)
    (h4 : 4 < s.gesture_data_.total_gestures) (h32 : s.gesture_data_.total_gestures ≤ 32)
    (hz : ¬ hasZeroChannel (firstQuad P s.gesture_data_))
    (hst : stepDeltas (firstQuad P s.gesture_data_) (lastQuad P s.gesture_data_)
      = some (ud, lr))
    (hbig : |ud| ≥ P.GESTURE_SENSITIVITY_2 ∨ |lr| ≥ P.GESTURE_SENSITIVITY_2) :
    ∃ s', processGestureData P s = some (false, s') ∧
      s'.gesture_near_count_ = s.gesture_near_count_ ∧
      s'.gesture_far_count_ = s.gesture_far_count_ ∧
      s'.gesture_state_ = s.gesture_state_ ∧
      s'.gesture_data_ = s.gesture_data_ ∧
      s'.gesture_motion_ = s.gesture_motion_ ∧
      s' = { s with
        gesture_ud_delta_ := s.gesture_ud_delta_ + ud,
        gesture_lr_delta_ := s.gesture_lr_delta_ + lr,
        gesture_ud_count_ := swipeCount P (s.gesture_ud_delta_ + ud),
        gesture_lr_count_ := swipeCount P (s.gesture_lr_delta_ + lr) } := by
  have hs : ¬ (|ud| < P.GESTURE_SENSITIVITY_2 ∧ |lr| < P.GESTURE_SENSITIVITY_2) := by
    rintro ⟨h1, h2⟩
    rcases hbig with h | h <;> omega
  refine ⟨accumulate P ud lr s, ?_, rfl, rfl, rfl, rfl, rfl, rfl⟩
  rw [processGestureData_of_step P s ud lr h4 h32 hz hst,
    nearFar_quiet P ud lr (accumulate P ud lr s) hs]
  rfl

/-- C11 at a concrete input: the step `(0, 50)` with near/far sensitivity 20 changes
only `lr_delta` and `lr_count`; the run counters 9 and 1 and the motion state stay. -/
theorem processGestureData_large_step_witness :
    ∃ s', processGestureData sampleParams (sessionGlobals sideData 0 0 9 1) = some (false, s') ∧
      s'.gesture_near_count_ = 9 ∧ s'.gesture_far_count_ = 1 ∧
      s'.gesture_state_ = MotionState.NONE ∧
      s'.gesture_lr_delta_ = 50 ∧ s'.gesture_lr_count_ = 1 := by
  obtain ⟨s', h1, h2, h3, h4, _, _, h7⟩ := processGestureData_large_step sampleParams
    (sessionGlobals sideData 0 0 9 1) 0 50 (by decide) (by decide) (by decide) (by decide)
    (by decide)
  refine ⟨s', h1, h2, h3, h4, ?_, ?_⟩
  · rw [h7]; decide
  · rw [h7]; decide

/-- C12: `decodeGesture` gives near/far precedence: in every state whose motion state
is `NEAR_STATE` it returns true and stores `DIR_NEAR`, and in every state whose motion
state is `FAR_STATE` it returns true and stores `DIR_FAR`, whatever the swipe counts
and the accumulated deltas are. -/
theorem decodeGesture_near_far (s : Globals) :
    (s.gesture_state_ = MotionState.NEAR_STATE →
      decodeGesture s = (true, { s with gesture_motion_ := GestureSymbol.DIR_NEAR })) ∧
    (s.gesture_state_ = MotionState.FAR_STATE →
      decodeGesture s = (true, { s with gesture_motion_ := GestureSymbol.DIR_FAR })) := by
  constructor
  · intro h; simp [decodeGesture, setMotion, h]
  · intro h; simp [decodeGesture, setMotion, h]

/-- C12 at two concrete inputs: diagonal swipe counts `(-1, 1)` with accumulators
`(-60, 45)` do not keep a confirmed near or far from being decoded. -/
theorem decodeGesture_near_far_witness :
    (decodeGesture (swipeGlobals flatData (-60) 45 (-1) 1 MotionState.NEAR_STATE)).2.gesture_motion_
      = GestureSymbol.DIR_NEAR ∧
    (decodeGesture (swipeGlobals flatData (-60) 45 (-1) 1 MotionState.FAR_STATE)).2.gesture_motion_
      = GestureSymbol.DIR_FAR := by
  constructor
  · rw [(decodeGesture_near_far
      (swipeGlobals flatData (-60) 45 (-1) 1 MotionState.NEAR_STATE)).1 (by decide)]
  · rw [(decodeGesture_near_far
      (swipeGlobals flatData (-60) 45 (-1) 1 MotionState.FAR_STATE)).2 (by decide)]

/-- C13: with no confirmed near/far, `decodeGesture` maps the single-axis swipe counts
`(ud_count, lr_count)` as `(-1, 0)` to `DIR_UP`, `(1, 0)` to `DIR_DOWN`, `(0, 1)` to
`DIR_RIGHT` and `(0, -1)` to `DIR_LEFT`, for every value of the accumulated deltas. -/
theorem decodeGesture_single_axis (s : Globals)
    (hst : s.gesture_state_ = MotionState.NONE) :
    (s.gesture_ud_count_ = -1 ∧ s.gesture_lr_count_ = 0 →
      decodeGesture s = (true, { s with gesture_motion_ := GestureSymbol.DIR_UP })) ∧
    (s.gesture_ud_count_ = 1 ∧ s.gesture_lr_count_ = 0 →
      decodeGesture s = (true, { s with gesture_motion_ := GestureSymbol.DIR_DOWN })) ∧
    (s.gesture_ud_count_ = 0 ∧ s.gesture_lr_count_ = 1 →
      decodeGesture s = (true, { s with gesture_motion_ := GestureSymbol.DIR_RIGHT })) ∧
    (s.gesture_ud_count_ = 0 ∧ s.gesture_lr_count_ = -1 →
      decodeGesture s = (true, { s with gesture_motion_ := GestureSymbol.DIR_LEFT })) := by
  refine ⟨?_, ?_, ?_, ?_⟩ <;>
  · rintro ⟨h1, h2⟩
    simp [decodeGesture, setMotion, hst, h1, h2]

/-- C13 at four concrete inputs, with accumulators that would favour the other axis. -/
theorem decodeGesture_single_axis_witness :
    (decodeGesture (swipeGlobals flatData 3 70 (-1) 0 MotionState.NONE)).2.gesture_motion_
      = GestureSymbol.DIR_UP ∧
    (decodeGesture (swipeGlobals flatData 3 70 1 0 MotionState.NONE)).2.gesture_motion_
      = GestureSymbol.DIR_DOWN ∧
    (decodeGesture (swipeGlobals flatData 70 3 0 1 MotionState.NONE)).2.gesture_motion_
      = GestureSymbol.DIR_RIGHT ∧
    (decodeGesture (swipeGlobals flatData 70 3 0 (-1) MotionState.NONE)).2.gesture_motion_
      = GestureSymbol.DIR_LEFT := by
  refine ⟨?_, ?_, ?_, ?_⟩
  · rw [(decodeGesture_single_axis (swipeGlobals flatData 3 70 (-1) 0 MotionState.NONE)
      (by decide)).1 (by decide)]
  · rw [(decodeGesture_single_axis (swipeGlobals flatData 3 70 1 0 MotionState.NONE)
      (by decide)).2.1 (by decide)]
  · rw [(decodeGesture_single_axis (swipeGlobals flatData 70 3 0 1 MotionState.NONE)
      (by decide)).2.2.1 (by decide)]
  · rw [(decodeGesture_single_axis (swipeGlobals flatData 70 3 0 (-1) MotionState.NONE)
      (by decide)).2.2.2 (by decide)]

/-- C14: with no confirmed near/far and diagonal swipe counts, `decodeGesture` picks
the axis whose accumulated delta has the strictly larger magnitude: when
`|ud_delta| > |lr_delta|` it stores `DIR_UP` for `ud_count = -1` and `DIR_DOWN` for
`ud_count = 1`; when `|lr_delta| > |ud_delta|` it stores `DIR_RIGHT` for
`lr_count = 1` and `DIR_LEFT` for `lr_count = -1`. -/
theorem decodeGesture_diagonal (s : Globals)
    (hst : s.gesture_state_ = MotionState.NONE)
    (hud : s.gesture_ud_count_ = -1 ∨ s.gesture_ud_count_ = 1)
    (hlr : s.gesture_lr_count_ = 1 ∨ s.gesture_lr_count_ = -1) :
    (|s.gesture_ud_delta_| > |s.gesture_lr_delta_| →
      (s.gesture_ud_count_ = -1 →
        decodeGesture s = (true, { s with gesture_motion_ := GestureSymbol.DIR_UP })) ∧
      (s.gesture_ud_count_ = 1 →
        decodeGesture s = (true, { s with gesture_motion_ := GestureSymbol.DIR_DOWN }))) ∧
    (|s.gesture_lr_delta_| > |s.gesture_ud_delta_| →
      (s.gesture_lr_count_ = 1 →
        decodeGesture s = (true, { s with gesture_motion_ := GestureSymbol.DIR_RIGHT })) ∧
      (s.gesture_lr_count_ = -1 →
        decodeGesture s = (true, { s with gesture_motion_ := GestureSymbol.DIR_LEFT }))) := by
  constructor
  · intro hgt
    constructor <;>
    · intro hu
      rcases hlr with hl | hl <;>
        simp [decodeGesture, setMotion, hst, hu, hl, hgt]
  · intro hgt
    have hng : ¬ |s.gesture_ud_delta_| > |s.gesture_lr_delta_| := not_lt.2 (le_of_lt hgt)
    constructor <;>
    · intro hl
      rcases hud with hu | hu <;>
        simp [decodeGesture, setMotion, hst, hu, hl, hng]

/-- C14 at the four diagonal count pairs, each with both orders of magnitude. -/
theorem decodeGesture_diagonal_witness :
    ((decodeGesture (swipeGlobals flatData (-60) 45 (-1) 1 MotionState.NONE)).2.gesture_motion_
        = GestureSymbol.DIR_UP ∧
      (decodeGesture (swipeGlobals flatData (-45) 60 (-1) 1 MotionState.NONE)).2.gesture_motion_
        = GestureSymbol.DIR_RIGHT) ∧
    ((decodeGesture (swipeGlobals flatData 60 (-45) 1 (-1) MotionState.NONE)).2.gesture_motion_
        = GestureSymbol.DIR_DOWN ∧
      (decodeGesture (swipeGlobals flatData 45 (-60) 1 (-1) MotionState.NONE)).2.gesture_motion_
        = GestureSymbol.DIR_LEFT) ∧
    ((decodeGesture (swipeGlobals flatData (-60) (-45) (-1) (-1) MotionState.NONE)).2.gesture_motion_
        = GestureSymbol.DIR_UP ∧
      (decodeGesture (swipeGlobals flatData (-45) (-60) (-1) (-1) MotionState.NONE)).2.gesture_motion_
        = GestureSymbol.DIR_LEFT) ∧
    ((decodeGesture (swipeGlobals flatData 60 45 1 1 MotionState.NONE)).2.gesture_motion_
        = GestureSymbol.DIR_DOWN ∧
      (decodeGesture (swipeGlobals flatData 45 60 1 1 MotionState.NONE)).2.gesture_motion_
        = GestureSymbol.DIR_RIGHT) := by
  refine ⟨⟨?_, ?_⟩, ⟨?_, ?_⟩, ⟨?_, ?_⟩, ⟨?_, ?_⟩⟩
  · rw [((decodeGesture_diagonal (swipeGlobals flatData (-60) 45 (-1) 1 MotionState.NONE)
      (by decide) (by decide) (by decide)).1 (by decide)).1 (by decide)]
  · rw [((decodeGesture_diagonal (swipeGlobals flatData (-45) 60 (-1) 1 MotionState.NONE)
      (by decide) (by decide) (by decide)).2 (by decide)).1 (by decide)]
  · rw [((decodeGesture_diagonal (swipeGlobals flatData 60 (-45) 1 (-1) MotionState.NONE)
      (by decide) (by decide) (by decide)).1 (by decide)).2 (by decide)]
  · rw [((decodeGesture_diagonal (swipeGlobals flatData 45 (-60) 1 (-1) MotionState.NONE)
      (by decide) (by decide) (by decide)).2 (by decide)).2 (by decide)]
  · rw [((decodeGesture_diagonal (swipeGlobals flatData (-60) (-45) (-1) (-1) MotionState.NONE)
      (by decide) (by decide) (by decide)).1 (by decide)).1 (by decide)]
  · rw [((decodeGesture_diagonal (swipeGlobals flatData (-45) (-60) (-1) (-1) MotionState.NONE)
      (by decide) (by decide) (by decide)).2 (by decide)).2 (by decide)]
  · rw [((decodeGesture_diagonal (swipeGlobals flatData 60 45 1 1 MotionState.NONE)
      (by decide) (by decide) (by decide)).1 (by decide)).2 (by decide)]
  · rw [((decodeGesture_diagonal (swipeGlobals flatData 45 60 1 1 MotionState.NONE)
      (by decide) (by decide) (by decide)).2 (by decide)).1 (by decide)]

/-- The two outcomes of `decodeGesture`: false with the globals untouched, or true with
only the gesture symbol written. -/
theorem decodeGesture_outcomes (s : Globals) :
    decodeGesture s = (false, s) ∨
    ∃ m, decodeGesture s = (true, { s with gesture_motion_ := m }) := by
  unfold decodeGesture
  by_cases h0 : s.gesture_state_ = MotionState.NEAR_STATE
  · rw [if_pos h0]; exact Or.inr ⟨_, rfl⟩
  rw [if_neg h0]
  by_cases h1 : s.gesture_state_ = MotionState.FAR_STATE
  · rw [if_pos h1]; exact Or.inr ⟨_, rfl⟩
  rw [if_neg h1]
  by_cases h2 : s.gesture_ud_count_ = -1 ∧ s.gesture_lr_count_ = 0
  · rw [if_pos h2]; exact Or.inr ⟨_, rfl⟩
  rw [if_neg h2]
  by_cases h3 : s.gesture_ud_count_ = 1 ∧ s.gesture_lr_count_ = 0
  · rw [if_pos h3]; exact Or.inr ⟨_, rfl⟩
  rw [if_neg h3]
  by_cases h4 : s.gesture_ud_count_ = 0 ∧ s.gesture_lr_count_ = 1
  · rw [if_pos h4]; exact Or.inr ⟨_, rfl⟩
  rw [if_neg h4]
  by_cases h5 : s.gesture_ud_count_ = 0 ∧ s.gesture_lr_count_ = -1
  · rw [if_pos h5]; exact Or.inr ⟨_, rfl⟩
  rw [if_neg h5]
  by_cases h6 : s.gesture_ud_count_ = -1 ∧ s.gesture_lr_count_ = 1
  · rw [if_pos h6]
    by_cases hg : |s.gesture_ud_delta_| > |s.gesture_lr_delta_|
    · rw [if_pos hg]; exact Or.inr ⟨_, rfl⟩
    · rw [if_neg hg]; exact Or.inr ⟨_, rfl⟩
  rw [if_neg h6]
  by_cases h7 : s.gesture_ud_count_ = 1 ∧ s.gesture_lr_count_ = -1
  · rw [if_pos h7]
    by_cases hg : |s.gesture_ud_delta_| > |s.gesture_lr_delta_|
    · rw [if_pos hg]; exact Or.inr ⟨_, rfl⟩
    · rw [if_neg hg]; exact Or.inr ⟨_, rfl⟩
  rw [if_neg h7]
  by_cases h8 : s.gesture_ud_count_ = -1 ∧ s.gesture_lr_count_ = -1
  · rw [if_pos h8]
    by_cases hg : |s.gesture_ud_delta_| > |s.gesture_lr_delta_|
    · rw [if_pos hg]; exact Or.inr ⟨_, rfl⟩
    · rw [if_neg hg]; exact Or.inr ⟨_, rfl⟩
  rw [if_neg h8]
  by_cases h9 : s.gesture_ud_count_ = 1 ∧ s.gesture_lr_count_ = 1
  · rw [if_pos h9]
    by_cases hg : |s.gesture_ud_delta_| > |s.gesture_lr_delta_|
    · rw [if_pos hg]; exact Or.inr ⟨_, rfl⟩
    · rw [if_neg hg]; exact Or.inr ⟨_, rfl⟩
  rw [if_neg h9]
  exact Or.inl rfl

/-- C15 fails on the code: the call of `processGestureData` on the tie buffer with
swipe sensitivity 30 leaves `ud_delta = -40`, `lr_delta = 40` and swipe counts
`(-1, 1)`; `|lr_delta| > |ud_delta|` does not hold, and `decodeGesture` nevertheless
returns true and stores `DIR_RIGHT`. -/
theorem decodeGesture_tie_is_right :
    processGestureData specParams (freshGlobals tieData) =
      some (false, swipeGlobals tieData (-40) 40 (-1) 1 MotionState.NONE) ∧
    ¬ (|(swipeGlobals tieData (-40) 40 (-1) 1 MotionState.NONE).gesture_lr_delta_| >
        |(swipeGlobals tieData (-40) 40 (-1) 1 MotionState.NONE).gesture_ud_delta_|) ∧
    decodeGesture (swipeGlobals tieData (-40) 40 (-1) 1 MotionState.NONE) =
      (true, { swipeGlobals tieData (-40) 40 (-1) 1 MotionState.NONE with
                 gesture_motion_ := GestureSymbol.DIR_RIGHT }) := by
  decide

/-- C15 as amended: with swipe counts `(-1, 1)` and no confirmed near/far,
`decodeGesture` returns true and stores `DIR_RIGHT` if and only if
`|lr_delta| >= |ud_delta|`, and `DIR_UP` if and only if `|ud_delta| > |lr_delta|`; in
particular for the tie `ud_delta = -40`, `lr_delta = 40` it stores `DIR_RIGHT`. -/
theorem decodeGesture_up_right (s : Globals)
    (hst : s.gesture_state_ = MotionState.NONE)
    (hud : s.gesture_ud_count_ = -1) (hlr : s.gesture_lr_count_ = 1) :
    (decodeGesture s).1 = true ∧
    ((decodeGesture s).2.gesture_motion_ = GestureSymbol.DIR_RIGHT ↔
      |s.gesture_lr_delta_| ≥ |s.gesture_ud_delta_|) ∧
    ((decodeGesture s).2.gesture_motion_ = GestureSymbol.DIR_UP ↔
      |s.gesture_ud_delta_| > |s.gesture_lr_delta_|) ∧
    (s.gesture_ud_delta_ = -40 → s.gesture_lr_delta_ = 40 →
      decodeGesture s = (true, { s with gesture_motion_ := GestureSymbol.DIR_RIGHT })) := by
  by_cases hgt : |s.gesture_ud_delta_| > |s.gesture_lr_delta_|
  · have hng : ¬ |s.gesture_lr_delta_| ≥ |s.gesture_ud_delta_| := not_le.2 hgt
    have hd : decodeGesture s = (true, { s with gesture_motion_ := GestureSymbol.DIR_UP }) := by
      simp [decodeGesture, setMotion, hst, hud, hlr, hgt]
    rw [hd]
    refine ⟨rfl, ⟨fun h => (by cases h), fun h => absurd h hng⟩,
      ⟨fun _ => hgt, fun _ => rfl⟩, ?_⟩
    intro h1 h2
    rw [h1, h2] at hgt
    exact absurd hgt (by decide)
  · have hge : |s.gesture_lr_delta_| ≥ |s.gesture_ud_delta_| := not_lt.1 hgt
    have hd : decodeGesture s =
        (true, { s with gesture_motion_ := GestureSymbol.DIR_RIGHT }) := by
      simp [decodeGesture, setMotion, hst, hud, hlr, hgt]
    rw [hd]
    exact ⟨rfl, ⟨fun _ => hge, fun _ => rfl⟩, ⟨fun h => (by cases h), fun h => absurd h hgt⟩,
      fun _ _ => rfl⟩

/-- C15 as amended, at the tie of the specification. -/
theorem decodeGesture_up_right_witness :
    decodeGesture (swipeGlobals tieData (-40) 40 (-1) 1 MotionState.NONE) =
      (true, { swipeGlobals tieData (-40) 40 (-1) 1 MotionState.NONE with
                 gesture_motion_ := GestureSymbol.DIR_RIGHT }) :=
  (decodeGesture_up_right (swipeGlobals tieData (-40) 40 (-1) 1 MotionState.NONE)
    (by decide) (by decide) (by decide)).2.2.2 (by decide) (by decide)

/-- C16: equal magnitudes resolve consistently: in every state with no confirmed
near/far, diagonal swipe counts and `|ud_delta| = |lr_delta|`, `decodeGesture` picks
the L/R axis in all four diagonal cases: it returns true and stores `DIR_RIGHT` when
`lr_count = 1` and `DIR_LEFT` when `lr_count = -1`. -/
theorem decodeGesture_tie (s : Globals)
    (hst : s.gesture_state_ = MotionState.NONE)
    (hud : s.gesture_ud_count_ = -1 ∨ s.gesture_ud_count_ = 1)
    (htie : |s.gesture_ud_delta_| = |s.gesture_lr_delta_|) :
    (s.gesture_lr_count_ = 1 →
      decodeGesture s = (true, { s with gesture_motion_ := GestureSymbol.DIR_RIGHT })) ∧
    (s.gesture_lr_count_ = -1 →
      decodeGesture s = (true, { s with gesture_motion_ := GestureSymbol.DIR_LEFT })) := by
  have hng : ¬ |s.gesture_ud_delta_| > |s.gesture_lr_delta_| := by
    rw [htie]; exact lt_irrefl _
  constructor <;>
  · intro hl
    rcases hud with hu | hu <;>
      simp [decodeGesture, setMotion, hst, hu, hl, hng]

/-- C16 at the four diagonal count pairs, with both orderings `(-40, 40)` and
`(40, -40)` of the tied accumulators. -/
theorem decodeGesture_tie_witness :
    ((decodeGesture (swipeGlobals flatData (-40) 40 (-1) 1 MotionState.NONE)).2.gesture_motion_
        = GestureSymbol.DIR_RIGHT ∧
      (decodeGesture (swipeGlobals flatData 40 (-40) (-1) 1 MotionState.NONE)).2.gesture_motion_
        = GestureSymbol.DIR_RIGHT) ∧
    ((decodeGesture (swipeGlobals flatData (-40) 40 1 (-1) MotionState.NONE)).2.gesture_motion_
        = GestureSymbol.DIR_LEFT ∧
      (decodeGesture (swipeGlobals flatData 40 (-40) 1 (-1) MotionState.NONE)).2.gesture_motion_
        = GestureSymbol.DIR_LEFT) ∧
    ((decodeGesture (swipeGlobals flatData (-40) 40 (-1) (-1) MotionState.NONE)).2.gesture_motion_
        = GestureSymbol.DIR_LEFT ∧
      (decodeGesture (swipeGlobals flatData 40 (-40) (-1) (-1) MotionState.NONE)).2.gesture_motion_
        = GestureSymbol.DIR_LEFT) ∧
    ((decodeGesture (swipeGlobals flatData (-40) 40 1 1 MotionState.NONE)).2.gesture_motion_
        = GestureSymbol.DIR_RIGHT ∧
      (decodeGesture (swipeGlobals flatData 40 (-40) 1 1 MotionState.NONE)).2.gesture_motion_
        = GestureSymbol.DIR_RIGHT) := by
  refine ⟨⟨?_, ?_⟩, ⟨?_, ?_⟩, ⟨?_, ?_⟩, ⟨?_, ?_⟩⟩
  · rw [(decodeGesture_tie (swipeGlobals flatData (-40) 40 (-1) 1 MotionState.NONE)
      (by decide) (by decide) (by decide)).1 (by decide)]
  · rw [(decodeGesture_tie (swipeGlobals flatData 40 (-40) (-1) 1 MotionState.NONE)
      (by decide) (by decide) (by decide)).1 (by decide)]
  · rw [(decodeGesture_tie (swipeGlobals flatData (-40) 40 1 (-1) MotionState.NONE)
      (by decide) (by decide) (by decide)).2 (by decide)]
  · rw [(decodeGesture_tie (swipeGlobals flatData 40 (-40) 1 (-1) MotionState.NONE)
      (by decide) (by decide) (by decide)).2 (by decide)]
  · rw [(decodeGesture_tie (swipeGlobals flatData (-40) 40 (-1) (-1) MotionState.NONE)
      (by decide) (by decide) (by decide)).2 (by decide)]
  · rw [(decodeGesture_tie (swipeGlobals flatData 40 (-40) (-1) (-1) MotionState.NONE)
      (by decide) (by decide) (by decide)).2 (by decide)]
  · rw [(decodeGesture_tie (swipeGlobals flatData (-40) 40 1 1 MotionState.NONE)
      (by decide) (by decide) (by decide)).1 (by decide)]
  · rw [(decodeGesture_tie (swipeGlobals flatData 40 (-40) 1 1 MotionState.NONE)
      (by decide) (by decide) (by decide)).1 (by decide)]

/-- C17: for every state whose swipe counts lie in `{-1, 0, 1}`, `decodeGesture`
returns false if and only if the motion state is neither `NEAR_STATE` nor `FAR_STATE`
and `(ud_count, lr_count) = (0, 0)`; when it returns false every global, the stored
gesture symbol included, is unchanged, and when it returns true only the stored
gesture symbol is written. -/
theorem decodeGesture_fails_iff (s : Globals)
    (hud : s.gesture_ud_count_ = -1 ∨ s.gesture_ud_count_ = 0 ∨ s.gesture_ud_count_ = 1)
    (hlr : s.gesture_lr_count_ = -1 ∨ s.gesture_lr_count_ = 0 ∨ s.gesture_lr_count_ = 1) :
    ((decodeGesture s).1 = false ↔
      (s.gesture_state_ ≠ MotionState.NEAR_STATE ∧
        s.gesture_state_ ≠ MotionState.FAR_STATE) ∧
      s.gesture_ud_count_ = 0 ∧ s.gesture_lr_count_ = 0) ∧
    ((decodeGesture s).1 = false → (decodeGesture s).2 = s) ∧
    ((decodeGesture s).1 = true →
      ∃ m, (decodeGesture s).2 = { s with gesture_motion_ := m }) := by
  refine ⟨?_, ?_, ?_⟩
  · by_cases hn : s.gesture_state_ = MotionState.NEAR_STATE
    · simp [decodeGesture, setMotion, hn]
    by_cases hf : s.gesture_state_ = MotionState.FAR_STATE
    · simp [decodeGesture, setMotion, hf]
    by_cases hg : |s.gesture_ud_delta_| > |s.gesture_lr_delta_| <;>
    rcases hud with hu | hu | hu <;> rcases hlr with hl | hl | hl <;>
      simp [decodeGesture, setMotion, hn, hf, hu, hl, hg]
  · intro h
    rcases decodeGesture_outcomes s with h1 | ⟨m, h1⟩
    · rw [h1]
    · rw [h1] at h; cases h
  · intro h
    rcases decodeGesture_outcomes s with h1 | ⟨m, h1⟩
    · rw [h1] at h; cases h
    · exact ⟨m, by rw [h1]⟩

/-- C17 at two concrete inputs: zero counts with no confirmed near/far fail and keep
the stored symbol `DIR_LEFT` of an earlier decode; counts `(1, 0)` succeed and write
only the symbol. -/
theorem decodeGesture_fails_iff_witness :
    decodeGesture { swipeGlobals flatData 12 (-7) 0 0 MotionState.NONE with
        gesture_motion_ := GestureSymbol.DIR_LEFT } =
      (false, { swipeGlobals flatData 12 (-7) 0 0 MotionState.NONE with
        gesture_motion_ := GestureSymbol.DIR_LEFT }) ∧
    ∃ m, (decodeGesture (swipeGlobals flatData 35 0 1 0 MotionState.NONE)).2 =
      { swipeGlobals flatData 35 0 1 0 MotionState.NONE with gesture_motion_ := m } := by
  constructor
  · have h := decodeGesture_fails_iff
      { swipeGlobals flatData 12 (-7) 0 0 MotionState.NONE with
        gesture_motion_ := GestureSymbol.DIR_LEFT } (by decide) (by decide)
    have h1 := h.1.2 (by decide)
    exact Prod.ext h1 (h.2.1 h1)
  · exact (decodeGesture_fails_iff (swipeGlobals flatData 35 0 1 0 MotionState.NONE)
      (by decide) (by decide)).2.2 (by decide)

/-- C18: from any state, `resetGestureParameters` followed immediately by
`decodeGesture` returns false, leaves the reset globals as they are, and the stored
gesture symbol is `DIR_NONE`. -/
theorem decodeGesture_after_reset (s : Globals) :
    decodeGesture (resetGestureParameters s) = (false, resetGestureParameters s) ∧
    (decodeGesture (resetGestureParameters s)).2.gesture_motion_ = GestureSymbol.DIR_NONE := by
  have h : decodeGesture (resetGestureParameters s) = (false, resetGestureParameters s) := by
    simp [decodeGesture, setMotion, resetGestureParameters]
  exact ⟨h, by rw [h]; rfl⟩

/-- C19: `resetGestureParameters` re-zeroes all session fields together: afterwards the
buffer index and count are 0, both accumulators, both swipe counts and both run
counters are 0, the motion state is `NONE` and the stored gesture symbol is
`DIR_NONE`; the four sample arrays are left as they were; and resetting twice gives
the same globals as resetting once. -/
theorem resetGestureParameters_spec (s : Globals) :
    (resetGestureParameters s).gesture_data_.index = 0 ∧
    (resetGestureParameters s).gesture_data_.total_gestures = 0 ∧
    (resetGestureParameters s).gesture_ud_delta_ = 0 ∧
    (resetGestureParameters s).gesture_lr_delta_ = 0 ∧
    (resetGestureParameters s).gesture_ud_count_ = 0 ∧
    (resetGestureParameters s).gesture_lr_count_ = 0 ∧
    (resetGestureParameters s).gesture_near_count_ = 0 ∧
    (resetGestureParameters s).gesture_far_count_ = 0 ∧
    (resetGestureParameters s).gesture_state_ = MotionState.NONE ∧
    (resetGestureParameters s).gesture_motion_ = GestureSymbol.DIR_NONE ∧
    (resetGestureParameters s).gesture_data_.u_data = s.gesture_data_.u_data ∧
    (resetGestureParameters s).gesture_data_.d_data = s.gesture_data_.d_data ∧
    (resetGestureParameters s).gesture_data_.l_data = s.gesture_data_.l_data ∧
    (resetGestureParameters s).gesture_data_.r_data = s.gesture_data_.r_data ∧
    resetGestureParameters (resetGestureParameters s) = resetGestureParameters s :=
  ⟨rfl, rfl, rfl, rfl, rfl, rfl, rfl, rfl, rfl, rfl, rfl, rfl, rfl, rfl, rfl⟩

/-- C20: sign convention of the swipe decision.  For `GESTURE_SENSITIVITY_1 > 0`, take
a call of `processGestureData` that ran the accumulation (it passed the data checks)
or started from globals satisfying the swipe-verdict predicate, and that leaves no
near/far confirmed and `|lr_delta| < GESTURE_SENSITIVITY_1`.  If it leaves
`ud_delta >= GESTURE_SENSITIVITY_1` (so the stabilization reset, which zeroes the
accumulators, was not executed), then `ud_count = 1`, `lr_count = 0` and
`decodeGesture` returns true and stores `DIR_DOWN`; if it leaves
`ud_delta <= -GESTURE_SENSITIVITY_1`, then `ud_count = -1`, `lr_count = 0` and
`decodeGesture` stores `DIR_UP`. -/
theorem swipe_sign_convention (P : Params) (s : Globals) (b : Bool) (s' : Globals)
    (hS1 : 0 < P.GESTURE_SENSITIVITY_1)
    (hcall : processGestureData P s = some (b, s'))
    (hpath : swipeVerdictInv P s ∨
      (4 < s.gesture_data_.total_gestures ∧ ¬ hasZeroChannel (firstQuad P s.gesture_data_)))
    (hst : s'.gesture_state_ = MotionState.NONE)
    (hlr : |s'.gesture_lr_delta_| < P.GESTURE_SENSITIVITY_1) :
    (s'.gesture_ud_delta_ ≥ P.GESTURE_SENSITIVITY_1 →
      s'.gesture_ud_count_ = 1 ∧ s'.gesture_lr_count_ = 0 ∧
      decodeGesture s' = (true, { s' with gesture_motion_ := GestureSymbol.DIR_DOWN })) ∧
    (s'.gesture_ud_delta_ ≤ -P.GESTURE_SENSITIVITY_1 →
      s'.gesture_ud_count_ = -1 ∧ s'.gesture_lr_count_ = 0 ∧
      decodeGesture s' = (true, { s' with gesture_motion_ := GestureSymbol.DIR_UP })) := by
  have hinv : swipeVerdictInv P s' := by
    obtain ⟨e, hexit, _⟩ := (processGestureData_eq_some P s b s').1 hcall
    rcases processGestureDataExit_cases P s _ _ hexit with ⟨h4, _, hs⟩ | ⟨_, _, hz, _, hs⟩ |
      ⟨_, _, _, ud, lr, _, he⟩
    · rcases hpath with h | ⟨h, _⟩
      · rw [hs]; exact h
      · omega
    · rcases hpath with h | ⟨_, h⟩
      · rw [hs]; exact h
      · exact absurd hz h
    · have hs' : s' = (nearFar P ud lr (accumulate P ud lr s)).2 := by rw [← he]
      rw [hs']
      exact swipeVerdictInv_after_step P hS1 ud lr s
  obtain ⟨a1, a2, _, b1, b2, b3⟩ := hinv
  obtain ⟨hl1, hl2⟩ := abs_lt.1 hlr
  have hlr0 : s'.gesture_lr_count_ = 0 := b3 (by omega) (by omega)
  constructor
  · intro h
    have hu := a1 h
    exact ⟨hu, hlr0, by simp [decodeGesture, setMotion, hst, hu, hlr0]⟩
  · intro h
    have hu := a2 h
    exact ⟨hu, hlr0, by simp [decodeGesture, setMotion, hst, hu, hlr0]⟩

/-- C20 at the example of the specification, sensitivity 30: a call that leaves
`ud_delta = 35`, `lr_delta = 0` gives counts `(1, 0)` and decodes to `DIR_DOWN`; the
mirrored call leaves `ud_delta = -35` and decodes to `DIR_UP`. -/
theorem swipe_sign_convention_witness :
    (processGestureData specParams (freshGlobals downData) =
        some (false, swipeGlobals downData 35 0 1 0 MotionState.NONE) ∧
      decodeGesture (swipeGlobals downData 35 0 1 0 MotionState.NONE) =
        (true, { swipeGlobals downData 35 0 1 0 MotionState.NONE with
                   gesture_motion_ := GestureSymbol.DIR_DOWN })) ∧
    (processGestureData specParams (freshGlobals upData) =
        some (false, swipeGlobals upData (-35) 0 (-1) 0 MotionState.NONE) ∧
      decodeGesture (swipeGlobals upData (-35) 0 (-1) 0 MotionState.NONE) =
        (true, { swipeGlobals upData (-35) 0 (-1) 0 MotionState.NONE with
                   gesture_motion_ := GestureSymbol.DIR_UP })) :=
  ⟨⟨by decide,
      ((swipe_sign_convention specParams (freshGlobals downData) false
        (swipeGlobals downData 35 0 1 0 MotionState.NONE) (by decide) (by decide)
        (Or.inl (by decide)) (by decide) (by decide)).1 (by decide)).2.2⟩,
    ⟨by decide,
      ((swipe_sign_convention specParams (freshGlobals upData) false
        (swipeGlobals upData (-35) 0 (-1) 0 MotionState.NONE) (by decide) (by decide)
        (Or.inl (by decide)) (by decide) (by decide)).2 (by decide)).2.2⟩⟩

/-! ### Claims on the buffer bounds of `processGestureData` -/

/-- The forward scan depends on the condition only at the indices of its range. -/
theorem scanForward_congr (p q : Nat → Bool) :
    ∀ (n i : Nat), (∀ j, i ≤ j → j < i + n → p j = q j) →
      scanForward p n i = scanForward q n i := by
  intro n
  induction n with
  | zero => intro i _; rfl
  | succ n ih =>
    intro i h
    unfold scanForward
    rw [h i (le_refl _) (by omega), ih (i + 1) (fun j h1 h2 => h j (by omega) (by omega))]

/-- The backward scan depends on the condition only at the indices below `n`. -/
theorem scanBackward_congr (p q : Nat → Bool) :
    ∀ (n : Nat), (∀ j, j < n → p j = q j) → scanBackward p n = scanBackward q n := by
  intro n
  induction n with
  | zero => intro _; rfl
  | succ n ih =>
    intro h
    unfold scanBackward
    rw [h n (by omega), ih (fun j h1 => h j (by omega))]

/-- Two buffers with the same count that agree on their first `total_gestures` quads
give the same `first` and `last` quads. -/
theorem firstQuad_lastQuad_congr (P : Params) (g1 g2 : gesture_data_type)
    (hn : g1.total_gestures = g2.total_gestures)
    (hagree : ∀ i, i < g1.total_gestures → quadAt g1 i = quadAt g2 i) :
    firstQuad P g1 = firstQuad P g2 ∧ lastQuad P g1 = lastQuad P g2 := by
  have hp : ∀ i, i < g1.total_gestures → aboveThreshold P g1 i = aboveThreshold P g2 i := by
    intro i hi
    have h := hagree i hi
    simp only [quadAt, Quad.mk.injEq] at h
    obtain ⟨h1, h2, h3, h4⟩ := h
    simp only [aboveThreshold, h1, h2, h3, h4]
  constructor
  · have hsc := scanForward_congr (aboveThreshold P g1) (aboveThreshold P g2)
      g1.total_gestures 0 (fun j _ h2 => hp j (by omega))
    unfold firstQuad
    rw [← hn, ← hsc]
    cases h : scanForward (aboveThreshold P g1) g1.total_gestures 0 with
    | none => rfl
    | some i =>
      obtain ⟨_, hlt, _, _⟩ := scanForward_some _ _ _ _ h
      exact hagree i (by omega)
  · have hsc := scanBackward_congr (aboveThreshold P g1) (aboveThreshold P g2)
      g1.total_gestures hp
    unfold lastQuad
    rw [← hn, ← hsc]
    cases h : scanBackward (aboveThreshold P g1) g1.total_gestures with
    | none => rfl
    | some i =>
      obtain ⟨hlt, _, _⟩ := scanBackward_some _ _ _ h
      exact hagree i hlt

/-- The near/far block neither reads nor writes the buffer and the gesture symbol. -/
theorem nearFar_withData (P : Params) (ud lr : Int) (t : Globals)
    (g : gesture_data_type) (m : GestureSymbol) :
    nearFar P ud lr { t with gesture_data_ := g, gesture_motion_ := m } =
      ((nearFar P ud lr t).1,
        { (nearFar P ud lr t).2 with gesture_data_ := g, gesture_motion_ := m }) := by
  unfold nearFar
  dsimp only
  split_ifs <;> rfl

/-- The body of `processGestureData` reads the buffer only through its count and the
`first` and `last` quads, and leaves the buffer and the gesture symbol alone. -/
theorem processGestureDataExit_withData (P : Params) (s : Globals)
    (g : gesture_data_type) (m : GestureSymbol)
    (hn : g.total_gestures = s.gesture_data_.total_gestures)
    (hf : firstQuad P g = firstQuad P s.gesture_data_)
    (hl : lastQuad P g = lastQuad P s.gesture_data_) :
    processGestureDataExit P { s with gesture_data_ := g, gesture_motion_ := m } =
      (processGestureDataExit P s).map
        (fun r => (r.1, { r.2 with gesture_data_ := g, gesture_motion_ := m })) := by
  unfold processGestureDataExit
  simp only [hn, hf, hl]
  split_ifs
  · rfl
  · rfl
  · unfold classifyFrom
    cases stepDeltas (firstQuad P s.gesture_data_) (lastQuad P s.gesture_data_) with
    | none => rfl
    | some st =>
      obtain ⟨ud, lr⟩ := st
      simp only [Option.map_some', Option.some.injEq]
      exact nearFar_withData P ud lr (accumulate P ud lr s) g m
  · simp [classifyFrom, stepDeltas, zeroQuad, ratio_zero]


/-- C28: stale bytes beyond the count are never read.  For two sets of globals whose
buffers have the same count (at most 32) and agree on their first `total_gestures`
quads, and whose classifier states are the same, `processGestureData` returns the
same boolean and produces the same classifier state (or has no defined result for
both). -/
theorem processGestureData_ignores_stale (P : Params) (s1 s2 : Globals)
    (hn : s1.gesture_data_.total_gestures = s2.gesture_data_.total_gestures)
    (h32 : s1.gesture_data_.total_gestures ≤ 32)
    (hagree : ∀ i, i < s1.gesture_data_.total_gestures →
      quadAt s1.gesture_data_ i = quadAt s2.gesture_data_ i)
    (hcls : classifierState s1 = classifierState s2) :
    (processGestureData P s1).map (fun r => (r.1, classifierState r.2)) =
      (processGestureData P s2).map (fun r => (r.1, classifierState r.2)) := by
  obtain ⟨hf, hl⟩ := firstQuad_lastQuad_congr P s1.gesture_data_ s2.gesture_data_ hn hagree
  have hs2 : s2 = { s1 with gesture_data_ := s2.gesture_data_,
                            gesture_motion_ := s2.gesture_motion_ } := by
    simp only [classifierState, Prod.mk.injEq] at hcls
    obtain ⟨h1, h2, h3, h4, h5, h6, h7⟩ := hcls
    cases s1; cases s2
    simp only [Globals.mk.injEq] at *
    simp_all
  have hex := processGestureDataExit_withData P s1 s2.gesture_data_ s2.gesture_motion_
    hn.symm hf.symm hl.symm
  rw [← hs2] at hex
  unfold processGestureData
  rw [hex]
  cases processGestureDataExit P s1 with
  | none => rfl
  | some r => rfl

/-- C28 at a concrete input: the flat buffer of five entries and the same buffer with
stale bytes `99, 1, 0, 200` behind the fifth entry give the same result. -/
theorem processGestureData_ignores_stale_witness :
    (processGestureData sampleParams (sessionGlobals flatData 59 1 9 1)).map
        (fun r => (r.1, classifierState r.2)) =
      (processGestureData sampleParams
        (sessionGlobals { flatData with
          u_data := cells [20, 20, 20, 20, 20, 99], d_data := cells [20, 20, 20, 20, 20, 1],
          l_data := cells [20, 20, 20, 20, 20, 0], r_data := cells [20, 20, 20, 20, 20, 200] }
          59 1 9 1)).map
        (fun r => (r.1, classifierState r.2)) :=
  processGestureData_ignores_stale sampleParams _ _ (by decide) (by decide) (by decide)
    (by decide)

/-- C29: division by zero is unreachable in `processGestureData` for
`total_gestures <= 32` (in particular for `4 < total_gestures <= 32`, where the call
gets past the first test) and `GESTURE_THRESHOLD_OUT >= 0`: the call returns, and
whenever it gets past the test on `first`, so that the four ratios are evaluated,
`first` and `last` are quads found by the two scans at qualifying indices below
`total_gestures`, and `up + down > 0` and `left + right > 0` for each of them. -/
theorem processGestureData_no_division_by_zero (P : Params) (s : Globals)
    (h32 : s.gesture_data_.total_gestures ≤ 32) (hT : 0 ≤ P.GESTURE_THRESHOLD_OUT) :
    (∃ b s', processGestureData P s = some (b, s')) ∧
    (¬ hasZeroChannel (firstQuad P s.gesture_data_) →
      (∃ i j, i < s.gesture_data_.total_gestures ∧ j < s.gesture_data_.total_gestures ∧
        aboveThreshold P s.gesture_data_ i = true ∧
        aboveThreshold P s.gesture_data_ j = true ∧
        firstQuad P s.gesture_data_ = quadAt s.gesture_data_ i ∧
        lastQuad P s.gesture_data_ = quadAt s.gesture_data_ j) ∧
      0 < (firstQuad P s.gesture_data_).u + (firstQuad P s.gesture_data_).d ∧
      0 < (firstQuad P s.gesture_data_).l + (firstQuad P s.gesture_data_).r ∧
      0 < (lastQuad P s.gesture_data_).u + (lastQuad P s.gesture_data_).d ∧
      0 < (lastQuad P s.gesture_data_).l + (lastQuad P s.gesture_data_).r ∧
      ∃ ud lr, stepDeltas (firstQuad P s.gesture_data_) (lastQuad P s.gesture_data_)
        = some (ud, lr)) := by
  constructor
  · obtain ⟨e, s', hexit⟩ := processGestureDataExit_returns P s hT h32
    exact ⟨e.toBool, s', (processGestureData_eq_some P s _ s').2 ⟨e, hexit, rfl⟩⟩
  · intro hz
    have hex : ∃ i, i < s.gesture_data_.total_gestures ∧
        aboveThreshold P s.gesture_data_ i = true := by
      by_contra hcon
      push_neg at hcon
      have := firstQuad_of_forall P s.gesture_data_ (fun i hi => by simpa using hcon i hi)
      exact hz (by rw [this]; simp [hasZeroChannel, zeroQuad])
    obtain ⟨i, hi1, hi2, _, hfi⟩ := firstQuad_of_exists P s.gesture_data_ hex
    obtain ⟨j, hj1, hj2, _, hlj⟩ := lastQuad_of_exists P s.gesture_data_ hex
    obtain ⟨a1, a2, a3, a4⟩ := quadAt_pos P s.gesture_data_ i hT hi2
    obtain ⟨b1, b2, b3, b4⟩ := quadAt_pos P s.gesture_data_ j hT hj2
    obtain ⟨_, hst⟩ := stepDeltas_defined P s.gesture_data_ hT hex
    refine ⟨⟨i, j, hi1, hj1, hi2, hj2, hfi, hlj⟩, ?_, ?_, ?_, ?_, hst⟩
    · rw [hfi]; omega
    · rw [hfi]; omega
    · rw [hlj]; omega
    · rw [hlj]; omega

/-- C29 at a concrete input: on the six-quad buffer the call returns and its four
divisors are 60, 80, 80 and 80. -/
theorem processGestureData_no_division_by_zero_witness :
    (∃ b s', processGestureData sampleParams (freshGlobals swipeData) = some (b, s')) ∧
    (firstQuad sampleParams swipeData).u + (firstQuad sampleParams swipeData).d = 60 ∧
    (0 < (firstQuad sampleParams swipeData).u + (firstQuad sampleParams swipeData).d ∧
      0 < (lastQuad sampleParams swipeData).u + (lastQuad sampleParams swipeData).d) := by
  have h := processGestureData_no_division_by_zero sampleParams (freshGlobals swipeData)
    (by decide) (by decide)
  have h2 := h.2 (by decide)
  exact ⟨h.1, by decide, h2.2.1, h2.2.2.2.1⟩

/-- A buffer whose count exceeds 32 skips both scans, so `first` and `last` keep their
zeroes and the first ratio divides 0 by 0: the call has no defined result. -/
theorem processGestureData_overfull (P : Params) (s : Globals)
    (h : 32 < s.gesture_data_.total_gestures) :
    processGestureData P s = none := by
  have h4 : ¬ s.gesture_data_.total_gestures ≤ 4 := by omega
  have h32 : ¬ s.gesture_data_.total_gestures ≤ 32 := by omega
  simp [processGestureData, processGestureDataExit, h4, h32, classifyFrom, stepDeltas,
    zeroQuad, ratio_zero]

/-- C27 fails on the code: with a count of 33 the bounds test of line 688 only skips
the scans; the ratios are then evaluated on the zero-initialized locals, a division of
0 by 0, and the call does not return false with the globals unchanged. -/
theorem processGestureData_overfull_divides_by_zero :
    overfullData.total_gestures = 33 ∧
    stepDeltas zeroQuad zeroQuad = none ∧
    processGestureData sampleParams (freshGlobals overfullData) = none ∧
    processGestureData sampleParams (freshGlobals overfullData)
      ≠ some (false, freshGlobals overfullData) := by
  decide

/-! ### Claims on sessions of calls -/

/-- What a defined `bufferStep` says about the buffer. -/
theorem bufferStep_some (P : Params) (g : gesture_data_type) (ud lr : Int)
    (h : bufferStep P g = some (ud, lr)) :
    4 < g.total_gestures ∧ g.total_gestures ≤ 32 ∧ ¬ hasZeroChannel (firstQuad P g) ∧
    stepDeltas (firstQuad P g) (lastQuad P g) = some (ud, lr) := by
  unfold bufferStep at h
  split_ifs at h with hc
  exact ⟨hc.1, hc.2.1, hc.2.2, h⟩

/-- What a defined `quietStep` says about the call. -/
theorem quietStep_some (P : Params) (g : gesture_data_type) (s : Globals) (ud lr : Int)
    (h : quietStep P g s = some (ud, lr)) :
    bufferStep P g = some (ud, lr) ∧
    swipeCount P (s.gesture_ud_delta_ + ud) = 0 ∧
    swipeCount P (s.gesture_lr_delta_ + lr) = 0 ∧
    |ud| < P.GESTURE_SENSITIVITY_2 ∧ |lr| < P.GESTURE_SENSITIVITY_2 := by
  unfold quietStep at h
  cases hb : bufferStep P g with
  | none => simp [hb] at h
  | some st =>
    obtain ⟨a, b⟩ := st
    simp only [hb] at h
    split_ifs at h with hc
    simp only [Option.some.injEq, Prod.mk.injEq] at h
    obtain ⟨rfl, rfl⟩ := h
    exact ⟨rfl, hc⟩

/-- A quiet call returns, and increments `near_count` on a `(0,0)` step and
`far_count` on any other step. -/
theorem quietStep_call (P : Params) (g : gesture_data_type) (s : Globals) (ud lr : Int)
    (h : quietStep P g s = some (ud, lr)) :
    ∃ b s', processGestureData P { s with gesture_data_ := g } = some (b, s') ∧
      s'.gesture_near_count_ = s.gesture_near_count_ + (if ud = 0 ∧ lr = 0 then 1 else 0) ∧
      s'.gesture_far_count_ = s.gesture_far_count_ + (if ud = 0 ∧ lr = 0 then 0 else 1) := by
  obtain ⟨hb, hc1, hc2, hs1, hs2⟩ := quietStep_some P g s ud lr h
  obtain ⟨h4, h32, hz, hst⟩ := bufferStep_some P g ud lr hb
  have hcall := processGestureData_of_step P { s with gesture_data_ := g } ud lr h4 h32 hz hst
  obtain ⟨hn, hf⟩ := nearFar_counters P ud lr { s with gesture_data_ := g }
  refine ⟨_, _, hcall, ?_, ?_⟩
  · rw [hn]
    by_cases h0 : ud = 0 ∧ lr = 0
    · rw [if_pos ⟨⟨hs1, hs2⟩, h0⟩, if_pos h0]
    · rw [if_neg (fun h => h0 h.2), if_neg h0]
  · rw [hf]
    by_cases h0 : ud = 0 ∧ lr = 0
    · rw [if_neg (fun h => h.2.2 h0), if_pos h0]
    · rw [if_pos ⟨⟨hc1, hc2⟩, ⟨hs1, hs2⟩, h0⟩, if_neg h0]

/-- Over a sequence of quiet calls the run counters grow by the number of `(0,0)`
steps and the number of other steps, and the globals reached are those of the
successive calls of `processGestureData`. -/
theorem quietSession_counters (P : Params) :
    ∀ (gs : List gesture_data_type) (s : Globals) (n f : Nat) (t : Globals),
      quietSession P gs s = some (n, f, t) →
      t.gesture_near_count_ = s.gesture_near_count_ + n ∧
      t.gesture_far_count_ = s.gesture_far_count_ + f ∧
      processAll P gs s = some t := by
  intro gs
  induction gs with
  | nil =>
    intro s n f t h
    simp only [quietSession, Option.some.injEq, Prod.mk.injEq] at h
    obtain ⟨rfl, rfl, rfl⟩ := h
    exact ⟨rfl, rfl, rfl⟩
  | cons g gs ih =>
    intro s n f t h
    unfold quietSession at h
    cases hq : quietStep P g s with
    | none => simp [hq] at h
    | some st =>
      obtain ⟨ud, lr⟩ := st
      obtain ⟨b, s', hcall, hn, hf⟩ := quietStep_call P g s ud lr hq
      simp only [hq, hcall] at h
      cases hrest : quietSession P gs s' with
      | none => simp [hrest] at h
      | some r =>
        obtain ⟨n1, f1, t1⟩ := r
        simp only [hrest, Option.some.injEq, Prod.mk.injEq] at h
        obtain ⟨rfl, rfl, rfl⟩ := h
        obtain ⟨a1, a2, a3⟩ := ih s' n1 f1 t1 hrest
        refine ⟨by rw [a1, hn]; omega, by rw [a2, hf]; omega, ?_⟩
        simp only [processAll, hcall, a3]

/-- C21: starting from the reset state, take a sequence of calls of
`processGestureData` on valid buffers in which both swipe counts stay `(0,0)` and
every step is strictly inside `GESTURE_SENSITIVITY_2` (`quietSession` for all calls
but the last, `quietStep` for the last).  If the last step is `(0,0)`, at least ten
steps of the sequence are `(0,0)` and at least two are not, then the last call returns
true with the motion state `NEAR_STATE`, and a following `decodeGesture` returns true
and stores `DIR_NEAR`. -/
theorem near_confirmed_session (P : Params) (s0 : Globals) (gs : List gesture_data_type)
    (g : gesture_data_type) (n f : Nat) (t : Globals)
    (hrun : quietSession P gs (resetGestureParameters s0) = some (n, f, t))
    (hlast : quietStep P g t = some (0, 0))
    (hn : n + 1 ≥ 10) (hf : f ≥ 2) :
    processAll P gs (resetGestureParameters s0) = some t ∧
    ∃ s2, processGestureData P { t with gesture_data_ := g } = some (true, s2) ∧
      s2.gesture_state_ = MotionState.NEAR_STATE ∧
      decodeGesture s2 = (true, { s2 with gesture_motion_ := GestureSymbol.DIR_NEAR }) := by
  obtain ⟨a1, a2, a3⟩ := quietSession_counters P gs _ n f t hrun
  have hn0 : t.gesture_near_count_ = n := by
    rw [a1]; simp [resetGestureParameters]
  have hf0 : t.gesture_far_count_ = f := by
    rw [a2]; simp [resetGestureParameters]
  obtain ⟨hb, hc1, hc2, hs1, hs2⟩ := quietStep_some P g t 0 0 hlast
  obtain ⟨h4, h32, hz, hst⟩ := bufferStep_some P g 0 0 hb
  have hcall := processGestureData_of_step P { t with gesture_data_ := g } 0 0 h4 h32 hz hst
  have hconf : (nearFar P 0 0 (accumulate P 0 0 { t with gesture_data_ := g })).1
      = ProcExit.Confirmed := by
    refine (nearFar_confirmed_iff P 0 0 { t with gesture_data_ := g }).2
      ⟨hc1, hc2, hs1, hs2, ?_, ?_⟩
    · show t.gesture_near_count_ + (if (0 : Int) = 0 ∧ (0 : Int) = 0 then 1 else 0) ≥ 10
      rw [hn0, if_pos ⟨rfl, rfl⟩]; exact hn
    · show t.gesture_far_count_ + (if (0 : Int) = 0 ∧ (0 : Int) = 0 then 0 else 1) ≥ 2
      rw [hf0, if_pos ⟨rfl, rfl⟩]; exact hf
  have hstate := nearFar_state P 0 0 { t with gesture_data_ := g }
  rw [if_pos hconf, if_pos ⟨rfl, rfl⟩] at hstate
  refine ⟨a3, _, ?_, hstate, ?_⟩
  · rw [hcall, hconf]; rfl
  · simp [decodeGesture, setMotion, hstate]

/-- C21 at a concrete session with near/far sensitivity 20 and swipe sensitivity 50:
two one-axis steps `(9, 0)`, nine `(0,0)` steps, and a tenth `(0,0)` step that
confirms near. -/
theorem near_confirmed_session_witness :
    ∃ t s2,
      processAll sampleParams ([nudgeData, nudgeData] ++ List.replicate 9 flatData)
        (resetGestureParameters (freshGlobals darkData)) = some t ∧
      processGestureData sampleParams { t with gesture_data_ := flatData } = some (true, s2) ∧
      s2.gesture_state_ = MotionState.NEAR_STATE ∧
      (decodeGesture s2).2.gesture_motion_ = GestureSymbol.DIR_NEAR := by
  have hrun : quietSession sampleParams ([nudgeData, nudgeData] ++ List.replicate 9 flatData)
      (resetGestureParameters (freshGlobals darkData))
        = some (9, 2, sessionGlobals flatData 18 0 9 2) := by decide
  obtain ⟨h1, s2, h2, h3, h4⟩ := near_confirmed_session sampleParams (freshGlobals darkData)
    ([nudgeData, nudgeData] ++ List.replicate 9 flatData) flatData 9 2
    (sessionGlobals flatData 18 0 9 2) hrun (by decide) (by decide) (by decide)
  exact ⟨_, s2, h1, h2, h3, by rw [h4]⟩

/-! ### The sorting loop of `readGesture` -/

/-- A cell read after a write at another index. -/
theorem readCell_set_ne (a : List Nat) (i k v : Nat) (h : k ≠ i) :
    readCell (a.set i v) k = readCell a k := by
  simp [readCell, List.getD_eq_getElem?_getD, List.getElem?_set, h.symm]

/-- A cell read after a write at its index, inside the array. -/
theorem readCell_set_eq (a : List Nat) (i v : Nat) (h : i < a.length) :
    readCell (a.set i v) i = v := by
  simp [readCell, List.getD_eq_getElem?_getD, List.getElem?_set, h]

/-- One pass of the sorting loop: it needs `index < 32`, increments `index` and
`total_gestures`, stores the quad at the old `index` and alters no other entry. -/
theorem storeQuad_spec (q : Quad) (g g1 : gesture_data_type) (h : storeQuad q g = some g1) :
    g.index < 32 ∧ g1.index = g.index + 1 ∧
    g1.total_gestures = g.total_gestures + 1 ∧
    (wellFormed g → wellFormed g1) ∧
    (wellFormed g → quadAt g1 g.index = q) ∧
    (∀ k, k ≠ g.index → quadAt g1 k = quadAt g k) := by
  unfold storeQuad at h
  split_ifs at h with hi
  simp only [Option.some.injEq] at h
  subst h
  refine ⟨hi, rfl, rfl, ?_, ?_, ?_⟩
  · rintro ⟨h1, h2, h3, h4⟩
    simp [wellFormed, h1, h2, h3, h4]
  · rintro ⟨h1, h2, h3, h4⟩
    simp only [quadAt]
    rw [readCell_set_eq _ _ _ (by omega), readCell_set_eq _ _ _ (by omega),
      readCell_set_eq _ _ _ (by omega), readCell_set_eq _ _ _ (by omega)]
  · intro k hk
    simp only [quadAt]
    rw [readCell_set_ne _ _ _ _ hk, readCell_set_ne _ _ _ _ hk,
      readCell_set_ne _ _ _ _ hk, readCell_set_ne _ _ _ _ hk]

/-- The sorting loop: `index` and `total_gestures` grow by the number of quads, which
fit below cell 32; the quads are stored in order from the old `index` on and no other
entry is altered. -/
theorem sortQuads_spec :
    ∀ (quads : List Quad) (g g' : gesture_data_type), sortQuads quads g = some g' →
      g'.index = g.index + quads.length ∧
      g'.total_gestures = g.total_gestures + quads.length ∧
      (quads ≠ [] → g.index + quads.length ≤ 32) ∧
      (wellFormed g → wellFormed g') ∧
      (∀ k, k < g.index → quadAt g' k = quadAt g k) ∧
      (∀ k, g.index + quads.length ≤ k → quadAt g' k = quadAt g k) ∧
      (wellFormed g → ∀ j q, quads[j]? = some q → quadAt g' (g.index + j) = q) := by
  intro quads
  induction quads with
  | nil =>
    intro g g' h
    simp only [sortQuads, Option.some.injEq] at h
    subst h
    exact ⟨rfl, rfl, fun h => absurd rfl h, fun h => h, fun _ _ => rfl, fun _ _ => rfl,
      fun _ j q hq => by simp at hq⟩
  | cons q quads ih =>
    intro g g' h
    unfold sortQuads at h
    cases h1 : storeQuad q g with
    | none => simp [h1] at h
    | some g1 =>
      simp only [h1] at h
      obtain ⟨b0, b1, b2, b3, b4, b5⟩ := storeQuad_spec q g g1 h1
      obtain ⟨c1, c2, c3, c4, c5, c6, c7⟩ := ih g1 g' h
      simp only [List.length_cons]
      have hfit : g.index + (quads.length + 1) ≤ 32 := by
        cases quads with
        | nil => simp only [List.length_nil]; omega
        | cons q2 quads2 =>
          have := c3 (by simp)
          omega
      refine ⟨by omega, by omega, fun _ => hfit, fun hw => c4 (b3 hw), ?_, ?_, ?_⟩
      · intro k hk
        rw [c5 k (by omega), b5 k (by omega)]
      · intro k hk
        rw [c6 k (by omega), b5 k (by omega)]
      · intro hw j q' hq
        cases j with
        | zero =>
          simp only [List.getElem?_cons_zero, Option.some.injEq] at hq
          subst hq
          rw [Nat.add_zero, c5 g.index (by omega)]
          exact b4 hw
        | succ j =>
          simp only [List.getElem?_cons_succ] at hq
          have := c7 (b3 hw) j q' hq
          rw [b1] at this
          rw [show g.index + (j + 1) = g.index + 1 + j by omega]
          exact this

/-- The sorting loop has a defined result exactly when the quads fit below cell 32. -/
theorem sortQuads_defined :
    ∀ (quads : List Quad) (g : gesture_data_type),
      (g.index + quads.length ≤ 32 → ∃ g', sortQuads quads g = some g') ∧
      (quads ≠ [] → 32 < g.index + quads.length → sortQuads quads g = none) := by
  intro quads
  induction quads with
  | nil =>
    intro g
    exact ⟨fun _ => ⟨g, rfl⟩, fun h => absurd rfl h⟩
  | cons q quads ih =>
    intro g
    simp only [List.length_cons]
    by_cases hi : g.index < 32
    · obtain ⟨g1, h1, hidx⟩ : ∃ g1, storeQuad q g = some g1 ∧ g1.index = g.index + 1 := by
        cases h1 : storeQuad q g with
        | none => simp [storeQuad, hi] at h1
        | some g1 => exact ⟨g1, rfl, (storeQuad_spec q g g1 h1).2.1⟩
      constructor
      · intro h
        obtain ⟨g', hg'⟩ := (ih g1).1 (by omega)
        exact ⟨g', by simp only [sortQuads, h1, hg']⟩
      · intro _ h
        have hne : quads ≠ [] := by
          intro h0
          rw [h0] at h
          simp only [List.length_nil] at h
          omega
        have := (ih g1).2 hne (by omega)
        simp only [sortQuads, h1, this]
    · have h1 : storeQuad q g = none := by simp [storeQuad, hi]
      constructor
      · intro h; omega
      · intro _ _; simp only [sortQuads, h1]

/-! ### The passes of the loop of `readGesture` -/

/-- A reset after `decodeGesture` is the reset of the globals before it: the gesture
symbol is all that `decodeGesture` writes. -/
theorem resetGestureParameters_decodeGesture (s : Globals) :
    resetGestureParameters (decodeGesture s).2 = resetGestureParameters s := by
  rcases decodeGesture_outcomes s with h | ⟨m, h⟩
  · rw [h]
  · rw [h]; rfl

/-- A pass whose status read fails returns `ERROR` with the globals untouched. -/
theorem pollStep_status_fail (P : Params) (R : SensorConsts) (p : Poll) (s : Globals)
    (h : p.gstatus = none) :
    pollStep P R p s = StepResult.done GestureSymbol.ERROR s := by
  simp [pollStep, h]

/-- A pass that finds the valid bit clear decodes, resets and returns the symbol. -/
theorem pollStep_invalid (P : Params) (R : SensorConsts) (p : Poll) (s : Globals) (v : Nat)
    (h : p.gstatus = some v) (hv : v &&& R.APDS9960_GVALID ≠ R.APDS9960_GVALID) :
    pollStep P R p s =
      StepResult.done (decodeGesture s).2.gesture_motion_
        (resetGestureParameters (decodeGesture s).2) := by
  simp [pollStep, h, hv]

/-- A pass whose FIFO-level read fails returns `ERROR` with the globals untouched. -/
theorem pollStep_level_fail (P : Params) (R : SensorConsts) (p : Poll) (s : Globals) (v : Nat)
    (h : p.gstatus = some v) (hv : v &&& R.APDS9960_GVALID = R.APDS9960_GVALID)
    (hl : p.fifo_level = none) :
    pollStep P R p s = StepResult.done GestureSymbol.ERROR s := by
  simp [pollStep, h, hv, hl]

/-- A pass that finds valid data and a FIFO level of 0 changes nothing. -/
theorem pollStep_level_zero (P : Params) (R : SensorConsts) (p : Poll) (s : Globals) (v : Nat)
    (h : p.gstatus = some v) (hv : v &&& R.APDS9960_GVALID = R.APDS9960_GVALID)
    (hl : p.fifo_level = some 0) :
    pollStep P R p s = StepResult.next s := by
  simp [pollStep, h, hv, hl]

/-- A pass whose block read fails returns `ERROR` with the globals untouched. -/
theorem pollStep_block_fail (P : Params) (R : SensorConsts) (p : Poll) (s : Globals)
    (v n : Nat)
    (h : p.gstatus = some v) (hv : v &&& R.APDS9960_GVALID = R.APDS9960_GVALID)
    (hl : p.fifo_level = some n) (hn : 0 < n) (hf : p.fifo = none) :
    pollStep P R p s = StepResult.done GestureSymbol.ERROR s := by
  simp [pollStep, h, hv, hl, hn, hf, ReadDataBlock]

/-- A pass that reads a block of at least one and at most 32 quads sorts them into the
buffer and classifies. -/
theorem pollStep_block (P : Params) (R : SensorConsts) (p : Poll) (s : Globals)
    (v n : Nat) (fifo : List Quad) (g : gesture_data_type)
    (h : p.gstatus = some v) (hv : v &&& R.APDS9960_GVALID = R.APDS9960_GVALID)
    (hl : p.fifo_level = some n) (hn : 0 < n) (hf : p.fifo = some fifo)
    (hne : fifo.take n ≠ []) (h32 : (fifo.take n).length ≤ 32)
    (hs : sortQuads (fifo.take n) s.gesture_data_ = some g) :
    pollStep P R p s = classifyDrain P { s with gesture_data_ := g } := by
  have h1 : ¬ (fifo.take n).length > 32 := by omega
  have h2 : 4 * (fifo.take n).length ≥ 4 := by
    have : 0 < (fifo.take n).length := List.length_pos.2 hne
    omega
  simp only [pollStep, h, hv, hl, hn, hf, ReadDataBlock, Option.map_some', if_true, h1,
    if_false, h2, hs]

/-- A pass whose block does not fit the arrays has no defined result. -/
theorem pollStep_block_overflow (P : Params) (R : SensorConsts) (p : Poll) (s : Globals)
    (v n : Nat) (fifo : List Quad)
    (h : p.gstatus = some v) (hv : v &&& R.APDS9960_GVALID = R.APDS9960_GVALID)
    (hl : p.fifo_level = some n) (hn : 0 < n) (hf : p.fifo = some fifo)
    (hne : fifo.take n ≠ [])
    (hs : sortQuads (fifo.take n) s.gesture_data_ = none) :
    pollStep P R p s = StepResult.undefined := by
  have h2 : 4 * (fifo.take n).length ≥ 4 := by
    have : 0 < (fifo.take n).length := List.length_pos.2 hne
    omega
  by_cases h1 : (fifo.take n).length > 32
  · simp only [pollStep, h, hv, hl, hn, hf, ReadDataBlock, Option.map_some', if_true, h1]
  · simp only [pollStep, h, hv, hl, hn, hf, ReadDataBlock, Option.map_some', if_true, h1,
      if_false, h2, hs]

/-- The ways through one pass of the loop. -/
theorem pollStep_cases (P : Params) (R : SensorConsts) (p : Poll) (s : Globals) :
    pollStep P R p s = StepResult.done GestureSymbol.ERROR s ∨
    pollStep P R p s = StepResult.done (decodeGesture s).2.gesture_motion_
      (resetGestureParameters (decodeGesture s).2) ∨
    pollStep P R p s = StepResult.next s ∨
    pollStep P R p s = StepResult.undefined ∨
    ∃ quads g, quads ≠ [] ∧ quads.length ≤ 32 ∧
      sortQuads quads s.gesture_data_ = some g ∧
      pollStep P R p s = classifyDrain P { s with gesture_data_ := g } := by
  cases hg : p.gstatus with
  | none => exact Or.inl (pollStep_status_fail P R p s hg)
  | some v =>
    by_cases hv : v &&& R.APDS9960_GVALID = R.APDS9960_GVALID
    · cases hl : p.fifo_level with
      | none => exact Or.inl (pollStep_level_fail P R p s v hg hv hl)
      | some n =>
        by_cases hn : 0 < n
        · cases hf : p.fifo with
          | none => exact Or.inl (pollStep_block_fail P R p s v n hg hv hl hn hf)
          | some fifo =>
            by_cases h32 : (fifo.take n).length ≤ 32
            · by_cases hne : fifo.take n = []
              · refine Or.inr (Or.inr (Or.inl ?_))
                simp [pollStep, hg, hv, hl, hn, hf, ReadDataBlock, hne]
              · cases hs : sortQuads (fifo.take n) s.gesture_data_ with
                | none =>
                  exact Or.inr (Or.inr (Or.inr (Or.inl
                    (pollStep_block_overflow P R p s v n fifo hg hv hl hn hf hne hs))))
                | some g =>
                  exact Or.inr (Or.inr (Or.inr (Or.inr ⟨_, g, hne, h32, hs,
                    pollStep_block P R p s v n fifo g hg hv hl hn hf hne h32 hs⟩)))
            · refine Or.inr (Or.inr (Or.inr (Or.inl ?_)))
              have h1 : (fifo.take n).length > 32 := by omega
              simp only [pollStep, hg, hv, hl, hn, hf, ReadDataBlock, Option.map_some',
                if_true, h1]
        · have hn0 : n = 0 := by omega
          subst hn0
          exact Or.inr (Or.inr (Or.inl (pollStep_level_zero P R p s v hg hv hl)))
    · exact Or.inr (Or.inl (pollStep_invalid P R p s v hg hv))

/-- After the classification of a drain the buffer index and count are 0 again. -/
theorem classifyDrain_next (P : Params) (s s' : Globals)
    (h : classifyDrain P s = StepResult.next s') :
    s'.gesture_data_.index = 0 ∧ s'.gesture_data_.total_gestures = 0 := by
  unfold classifyDrain at h
  cases hp : processGestureData P s with
  | none => simp [hp] at h
  | some r =>
    obtain ⟨b, s1⟩ := r
    cases b <;> simp only [hp, StepResult.next.injEq] at h <;> subst h <;> exact ⟨rfl, rfl⟩

/-- The classification of a drain never returns from `readGesture`. -/
theorem classifyDrain_not_done (P : Params) (s : Globals) (m : GestureSymbol) (s' : Globals) :
    classifyDrain P s ≠ StepResult.done m s' := by
  unfold classifyDrain
  cases hp : processGestureData P s with
  | none => simp
  | some r =>
    obtain ⟨b, s1⟩ := r
    cases b <;> simp

/-- The loop on a script in two parts: the second part runs from the globals the first
part leaves pending. -/
theorem pollLoop_append (P : Params) (R : SensorConsts) :
    ∀ (pre rest : List Poll) (s0 s : Globals), pollLoop P R pre s0 = Run.pending s →
      pollLoop P R (pre ++ rest) s0 = pollLoop P R rest s := by
  intro pre
  induction pre with
  | nil =>
    intro rest s0 s h
    simp only [pollLoop, Run.pending.injEq] at h
    subst h
    rfl
  | cons p pre ih =>
    intro rest s0 s h
    simp only [List.cons_append, pollLoop] at h ⊢
    cases hp : pollStep P R p s0 with
    | next s1 =>
      simp only [hp] at h ⊢
      exact ih rest s1 s h
    | done m s1 => simp [hp] at h
    | undefined => simp [hp] at h

/-- Past the entry test `readGesture` is its loop. -/
theorem readGesture_open (P : Params) (R : SensorConsts) (entry : Entry) (polls : List Poll)
    (s : Globals) (h : entryRefused R entry = false) :
    readGesture P R entry polls s = pollLoop P R polls s := by
  simp [readGesture, h]

/-- When the entry test refuses, `readGesture` returns `DIR_NONE` at once: no pass of
the loop is made and the globals are untouched. -/
theorem readGesture_refused (P : Params) (R : SensorConsts) (entry : Entry)
    (polls : List Poll) (s : Globals) (h : entryRefused R entry = true) :
    readGesture P R entry polls s = Run.returned GestureSymbol.DIR_NONE s := by
  simp [readGesture, h]

/-! ### Claims on the entry test and the exits of `readGesture` -/

/-- The entry test refuses exactly when the data is not reported valid or both the
power bit (bit 0) and the gesture bit (bit 6) of the mode are clear: the mask
`0b01000001` lets a mode with only one of the two bits set through. -/
theorem entryRefused_iff (R : SensorConsts) (entry : Entry) :
    entryRefused R entry = true ↔
      isGestureAvailable R entry.gstatus = false ∨
      getMode R entry.enable &&& 0b01000001 = 0 := by
  unfold entryRefused
  cases isGestureAvailable R entry.gstatus <;> simp

/-- C23 fails on the code: with the data reported valid and a mode register in which
the power bit is set and the gesture bit (bit 6) is clear, the entry test
`!(getMode() & 0b01000001)` does not refuse; `readGesture` enters its loop and, on a
script whose first status read fails, returns `ERROR` instead of `DIR_NONE`; on a
script with a drain it classifies and returns `DIR_DOWN`. -/
theorem readGesture_power_only_polls :
    isGestureAvailable sampleConsts powerOnlyEntry.gstatus = true ∧
    getMode sampleConsts powerOnlyEntry.enable &&& 0b01000000 = 0 ∧
    entryRefused sampleConsts powerOnlyEntry = false ∧
    readGesture specParams sampleConsts powerOnlyEntry [failedPoll] (freshGlobals emptyData) =
      Run.returned GestureSymbol.ERROR (freshGlobals emptyData) ∧
    (∃ s', readGesture specParams sampleConsts powerOnlyEntry
        [drainPoll downQuads, invalidPoll] (freshGlobals emptyData) =
      Run.returned GestureSymbol.DIR_DOWN s') := by
  refine ⟨by decide, by decide, by decide, by decide, ?_⟩
  exact ⟨freshGlobals drainedData, by decide⟩

/-- C24: quiescence exit of `readGesture`.  When a pass of the loop, reached with the
globals `s`, finds the valid bit of the status clear, `readGesture` makes one
`decodeGesture` call on `s`, returns the gesture symbol stored after that call, and
the globals on return are `resetGestureParameters s`: every session field zero or
`NONE`. -/
theorem readGesture_quiescence (P : Params) (R : SensorConsts) (entry : Entry)
    (pre : List Poll) (p : Poll) (rest : List Poll) (s0 s : Globals) (v : Nat)
    (hopen : entryRefused R entry = false)
    (hpre : pollLoop P R pre s0 = Run.pending s)
    (hst : p.gstatus = some v)
    (hinv : v &&& R.APDS9960_GVALID ≠ R.APDS9960_GVALID) :
    readGesture P R entry (pre ++ p :: rest) s0 =
      Run.returned (decodeGesture s).2.gesture_motion_ (resetGestureParameters s) ∧
    classifierState (resetGestureParameters s) = (0, 0, 0, 0, 0, 0, MotionState.NONE) ∧
    (resetGestureParameters s).gesture_data_.index = 0 ∧
    (resetGestureParameters s).gesture_data_.total_gestures = 0 ∧
    (resetGestureParameters s).gesture_motion_ = GestureSymbol.DIR_NONE := by
  refine ⟨?_, rfl, rfl, rfl, rfl⟩
  rw [readGesture_open P R entry _ s0 hopen, pollLoop_append P R pre (p :: rest) s0 s hpre]
  simp only [pollLoop, pollStep_invalid P R p s v hst hinv,
    resetGestureParameters_decodeGesture]

/-- C24 at a concrete input: after a drain that leaves `ud_delta = 35`, `ud_count = 1`
pending, the invalid pass decodes `DIR_DOWN`, returns it and leaves reset globals. -/
theorem readGesture_quiescence_witness :
    ∃ s, pollLoop specParams sampleConsts [drainPoll downQuads] (freshGlobals emptyData)
        = Run.pending s ∧
      s.gesture_ud_delta_ = 35 ∧
      readGesture specParams sampleConsts openEntry ([drainPoll downQuads] ++ invalidPoll :: [])
          (freshGlobals emptyData) =
        Run.returned GestureSymbol.DIR_DOWN (resetGestureParameters s) := by
  have hpre : pollLoop specParams sampleConsts [drainPoll downQuads] (freshGlobals emptyData)
      = Run.pending (swipeGlobals drainedData 35 0 1 0 MotionState.NONE) := by decide
  have h := (readGesture_quiescence specParams sampleConsts openEntry [drainPoll downQuads]
    invalidPoll [] (freshGlobals emptyData) (swipeGlobals drainedData 35 0 1 0 MotionState.NONE)
    0 (by decide) hpre (by decide) (by decide)).1
  exact ⟨swipeGlobals drainedData 35 0 1 0 MotionState.NONE, hpre, by decide, h⟩

/-- C25: if a read of the sample source fails in a pass of the loop reached with the
globals `s` (the status read, the FIFO-level read after a valid status, or the block
read after a valid status and a nonzero level), `readGesture` returns `ERROR` and the
globals on return are exactly `s`: nothing is reset. -/
theorem readGesture_read_failure (P : Params) (R : SensorConsts) (entry : Entry)
    (pre : List Poll) (p : Poll) (rest : List Poll) (s0 s : Globals)
    (hopen : entryRefused R entry = false)
    (hpre : pollLoop P R pre s0 = Run.pending s)
    (hfail : p.gstatus = none ∨
      (∃ v, p.gstatus = some v ∧ v &&& R.APDS9960_GVALID = R.APDS9960_GVALID ∧
        p.fifo_level = none) ∨
      (∃ v n, p.gstatus = some v ∧ v &&& R.APDS9960_GVALID = R.APDS9960_GVALID ∧
        p.fifo_level = some n ∧ 0 < n ∧ p.fifo = none)) :
    readGesture P R entry (pre ++ p :: rest) s0 = Run.returned GestureSymbol.ERROR s := by
  rw [readGesture_open P R entry _ s0 hopen, pollLoop_append P R pre (p :: rest) s0 s hpre]
  rcases hfail with h | ⟨v, h, hv, hl⟩ | ⟨v, n, h, hv, hl, hn, hf⟩
  · simp only [pollLoop, pollStep_status_fail P R p s h]
  · simp only [pollLoop, pollStep_level_fail P R p s v h hv hl]
  · simp only [pollLoop, pollStep_block_fail P R p s v n h hv hl hn hf]

/-- C25 at three concrete inputs: after a drain that leaves `ud_delta = 35` pending, a
failed status read, a failed level read and a failed block read each return `ERROR`
with `ud_delta = 35`, `ud_count = 1` still in the globals. -/
theorem readGesture_read_failure_witness :
    ∃ s, s.gesture_ud_delta_ = 35 ∧ s.gesture_ud_count_ = 1 ∧
      readGesture specParams sampleConsts openEntry ([drainPoll downQuads] ++ failedPoll :: [])
          (freshGlobals emptyData) = Run.returned GestureSymbol.ERROR s ∧
      readGesture specParams sampleConsts openEntry
          ([drainPoll downQuads] ++
            { gstatus := some 1, fifo_level := none, fifo := none } :: [])
          (freshGlobals emptyData) = Run.returned GestureSymbol.ERROR s ∧
      readGesture specParams sampleConsts openEntry
          ([drainPoll downQuads] ++
            { gstatus := some 1, fifo_level := some 3, fifo := none } :: [])
          (freshGlobals emptyData) = Run.returned GestureSymbol.ERROR s := by
  have hpre : pollLoop specParams sampleConsts [drainPoll downQuads] (freshGlobals emptyData)
      = Run.pending (swipeGlobals drainedData 35 0 1 0 MotionState.NONE) := by decide
  refine ⟨swipeGlobals drainedData 35 0 1 0 MotionState.NONE, by decide, by decide, ?_, ?_, ?_⟩
  · exact readGesture_read_failure specParams sampleConsts openEntry [drainPoll downQuads]
      failedPoll [] (freshGlobals emptyData) _ (by decide) hpre (Or.inl rfl)
  · exact readGesture_read_failure specParams sampleConsts openEntry [drainPoll downQuads]
      { gstatus := some 1, fifo_level := none, fifo := none } [] (freshGlobals emptyData) _
      (by decide) hpre (Or.inr (Or.inl ⟨1, rfl, by decide, rfl⟩))
  · exact readGesture_read_failure specParams sampleConsts openEntry [drainPoll downQuads]
      { gstatus := some 1, fifo_level := some 3, fifo := none } [] (freshGlobals emptyData) _
      (by decide) hpre (Or.inr (Or.inr ⟨1, 3, rfl, by decide, rfl, by decide, rfl⟩))

/-! ### Claims on the buffer in `readGesture` -/

/-- From globals with an empty buffer, the loop of `readGesture` returns, and starts
every pass, with an empty buffer. -/
theorem pollLoop_empty (P : Params) (R : SensorConsts) :
    ∀ (polls : List Poll) (s : Globals),
      s.gesture_data_.index = 0 → s.gesture_data_.total_gestures = 0 →
      (∀ m s', pollLoop P R polls s = Run.returned m s' →
        s'.gesture_data_.index = 0 ∧ s'.gesture_data_.total_gestures = 0) ∧
      (∀ s', pollLoop P R polls s = Run.pending s' →
        s'.gesture_data_.index = 0 ∧ s'.gesture_data_.total_gestures = 0) := by
  intro polls
  induction polls with
  | nil =>
    intro s hi ht
    constructor
    · intro m s' h; simp [pollLoop] at h
    · intro s' h
      simp only [pollLoop, Run.pending.injEq] at h
      subst h
      exact ⟨hi, ht⟩
  | cons p polls ih =>
    intro s hi ht
    unfold pollLoop
    rcases pollStep_cases P R p s with h | h | h | h | ⟨quads, g, _, _, _, h⟩
    · rw [h]
      constructor
      · intro m s' h1
        simp only [Run.returned.injEq] at h1
        rw [← h1.2]; exact ⟨hi, ht⟩
      · intro s' h1; simp at h1
    · rw [h]
      constructor
      · intro m s' h1
        simp only [Run.returned.injEq] at h1
        rw [← h1.2]; exact ⟨rfl, rfl⟩
      · intro s' h1; simp at h1
    · rw [h]; exact ih s hi ht
    · rw [h]
      constructor
      · intro m s' h1; simp at h1
      · intro s' h1; simp at h1
    · rw [h]
      cases hc : classifyDrain P { s with gesture_data_ := g } with
      | next s1 =>
        obtain ⟨a, b⟩ := classifyDrain_next P _ s1 hc
        exact ih s1 a b
      | done m s1 => exact absurd hc (classifyDrain_not_done P _ m s1)
      | undefined =>
        constructor
        · intro m s' h1; simp at h1
        · intro s' h1; simp at h1

/-- For a threshold `>= 0`, a pass from an empty buffer whose block holds at most 32
quads has a defined result. -/
theorem pollStep_defined (P : Params) (R : SensorConsts) (p : Poll) (s : Globals)
    (hT : 0 ≤ P.GESTURE_THRESHOLD_OUT)
    (hi : s.gesture_data_.index = 0) (ht : s.gesture_data_.total_gestures = 0)
    (hp : ∀ n fifo, p.fifo_level = some n → p.fifo = some fifo → (fifo.take n).length ≤ 32) :
    pollStep P R p s ≠ StepResult.undefined := by
  cases hg : p.gstatus with
  | none => rw [pollStep_status_fail P R p s hg]; simp
  | some v =>
    by_cases hv : v &&& R.APDS9960_GVALID = R.APDS9960_GVALID
    · cases hl : p.fifo_level with
      | none => rw [pollStep_level_fail P R p s v hg hv hl]; simp
      | some n =>
        by_cases hn : 0 < n
        · cases hf : p.fifo with
          | none => rw [pollStep_block_fail P R p s v n hg hv hl hn hf]; simp
          | some fifo =>
            have h32 := hp n fifo hl hf
            by_cases hne : fifo.take n = []
            · have : pollStep P R p s = StepResult.next s := by
                simp [pollStep, hg, hv, hl, hn, hf, ReadDataBlock, hne]
              rw [this]; simp
            · obtain ⟨g, hs⟩ := (sortQuads_defined (fifo.take n) s.gesture_data_).1 (by omega)
              obtain ⟨_, c2, _⟩ := sortQuads_spec _ _ _ hs
              rw [pollStep_block P R p s v n fifo g hg hv hl hn hf hne h32 hs]
              obtain ⟨e, s', hexit⟩ := processGestureDataExit_returns P
                { s with gesture_data_ := g } hT (by show g.total_gestures ≤ 32; omega)
              have hcall := (processGestureData_eq_some P { s with gesture_data_ := g }
                e.toBool s').2 ⟨e, hexit, rfl⟩
              unfold classifyDrain
              rw [hcall]
              cases e.toBool <;> simp
        · have hn0 : n = 0 := by omega
          subst hn0
          rw [pollStep_level_zero P R p s v hg hv hl]; simp
    · rw [pollStep_invalid P R p s v hg hv]; simp

/-- For a threshold `>= 0`, the loop from an empty buffer on a script whose blocks
hold at most 32 quads has a defined result. -/
theorem pollLoop_defined (P : Params) (R : SensorConsts) (hT : 0 ≤ P.GESTURE_THRESHOLD_OUT) :
    ∀ (polls : List Poll) (s : Globals),
      s.gesture_data_.index = 0 → s.gesture_data_.total_gestures = 0 →
      (∀ p, p ∈ polls → ∀ n fifo, p.fifo_level = some n → p.fifo = some fifo →
        (fifo.take n).length ≤ 32) →
      pollLoop P R polls s ≠ Run.undefined := by
  intro polls
  induction polls with
  | nil => intro s _ _ _; simp [pollLoop]
  | cons p polls ih =>
    intro s hi ht hp
    have hd := pollStep_defined P R p s hT hi ht (hp p (List.mem_cons_self _ _))
    unfold pollLoop
    cases hs : pollStep P R p s with
    | next s1 =>
      simp only []
      have hemp := (pollLoop_empty P R [p] s hi ht).2 s1 (by simp [pollLoop, hs])
      exact ih s1 hemp.1 hemp.2 (fun q hq => hp q (List.mem_cons_of_mem _ hq))
    | done m s1 => simp
    | undefined => exact absurd hs hd

/-- C30: buffer invariant of the polling loop.  If the buffer index and count are 0
when `readGesture` is entered, then they are 0 at every return from `readGesture`
(`DIR_NONE`, `ERROR` and quiescence exits alike) and at the start of every pass
through the loop (the globals a script leaves pending); the sorting loop keeps
`index = total_gestures`, so that the call of `processGestureData` of a pass sees a
buffer whose count is the number of quads of the drain and whose entries are these
quads in order; a pass that finds valid data and a FIFO level of 0 changes nothing;
and for a threshold `>= 0` and blocks of at most 32 quads every pass has a defined
result. -/
theorem readGesture_buffer_invariant (P : Params) (R : SensorConsts) (s : Globals)
    (hi : s.gesture_data_.index = 0) (ht : s.gesture_data_.total_gestures = 0) :
    (∀ entry polls,
      (∀ m s', readGesture P R entry polls s = Run.returned m s' →
        s'.gesture_data_.index = 0 ∧ s'.gesture_data_.total_gestures = 0) ∧
      (∀ s', readGesture P R entry polls s = Run.pending s' →
        s'.gesture_data_.index = 0 ∧ s'.gesture_data_.total_gestures = 0)) ∧
    (∀ p v n fifo, p.gstatus = some v → v &&& R.APDS9960_GVALID = R.APDS9960_GVALID →
      p.fifo_level = some n → 0 < n → p.fifo = some fifo →
      fifo.take n ≠ [] → (fifo.take n).length ≤ 32 →
      ∃ g, sortQuads (fifo.take n) s.gesture_data_ = some g ∧
        pollStep P R p s = classifyDrain P { s with gesture_data_ := g } ∧
        g.index = g.total_gestures ∧ g.total_gestures = (fifo.take n).length ∧
        (wellFormed s.gesture_data_ →
          ∀ j q, (fifo.take n)[j]? = some q → quadAt g j = q)) ∧
    (∀ p v, p.gstatus = some v → v &&& R.APDS9960_GVALID = R.APDS9960_GVALID →
      p.fifo_level = some 0 → pollStep P R p s = StepResult.next s) ∧
    (0 ≤ P.GESTURE_THRESHOLD_OUT → ∀ entry polls,
      (∀ p, p ∈ polls → ∀ n fifo, p.fifo_level = some n → p.fifo = some fifo →
        (fifo.take n).length ≤ 32) →
      readGesture P R entry polls s ≠ Run.undefined) := by
  refine ⟨?_, ?_, ?_, ?_⟩
  rotate_left 3
  · intro hT entry polls hp
    by_cases he : entryRefused R entry = true
    · rw [readGesture_refused P R entry polls s he]; simp
    · rw [readGesture_open P R entry polls s (by simpa using he)]
      exact pollLoop_defined P R hT polls s hi ht hp
  · intro entry polls
    by_cases he : entryRefused R entry = true
    · rw [readGesture_refused P R entry polls s he]
      constructor
      · intro m s' h1
        simp only [Run.returned.injEq] at h1
        rw [← h1.2]; exact ⟨hi, ht⟩
      · intro s' h1; simp at h1
    · rw [readGesture_open P R entry polls s (by simpa using he)]
      exact pollLoop_empty P R polls s hi ht
  · intro p v n fifo hg hv hl hn hf hne h32
    obtain ⟨g, hs⟩ := (sortQuads_defined (fifo.take n) s.gesture_data_).1 (by omega)
    obtain ⟨c1, c2, _, _, _, _, c7⟩ := sortQuads_spec _ _ _ hs
    refine ⟨g, hs, pollStep_block P R p s v n fifo g hg hv hl hn hf hne h32 hs,
      by omega, by omega, ?_⟩
    intro hw j q hq
    have := c7 hw j q hq
    rwa [hi, Nat.zero_add] at this
  · intro p v hg hv hl
    exact pollStep_level_zero P R p s v hg hv hl

/-- C30 at a concrete input: from the empty buffer, the script with one drain of eight
quads leaves index and count 0 pending, and returns with index and count 0 when a
failed or an invalid pass follows. -/
theorem readGesture_buffer_invariant_witness :
    (∀ s', readGesture specParams sampleConsts openEntry [drainPoll downQuads]
        (freshGlobals emptyData) = Run.pending s' →
      s'.gesture_data_.index = 0 ∧ s'.gesture_data_.total_gestures = 0) ∧
    (∀ m s', readGesture specParams sampleConsts openEntry [drainPoll downQuads, failedPoll]
        (freshGlobals emptyData) = Run.returned m s' →
      s'.gesture_data_.index = 0 ∧ s'.gesture_data_.total_gestures = 0) ∧
    readGesture specParams sampleConsts openEntry [drainPoll downQuads]
        (freshGlobals emptyData) =
      Run.pending (swipeGlobals drainedData 35 0 1 0 MotionState.NONE) ∧
    readGesture specParams sampleConsts openEntry [drainPoll downQuads, failedPoll]
        (freshGlobals emptyData) =
      Run.returned GestureSymbol.ERROR (swipeGlobals drainedData 35 0 1 0 MotionState.NONE) :=
  ⟨((readGesture_buffer_invariant specParams sampleConsts (freshGlobals emptyData)
      (by decide) (by decide)).1 openEntry [drainPoll downQuads]).2,
    ((readGesture_buffer_invariant specParams sampleConsts (freshGlobals emptyData)
      (by decide) (by decide)).1 openEntry [drainPoll downQuads, failedPoll]).1,
    by decide, by decide⟩

/-- C26 fails on the code: the sorting loop has no capacity test.  The 32 first quads
of a drain of 33 fill the arrays (`index = 32`), the 33rd is written at cell 32 of
arrays of 32 cells, and neither the sorting loop nor `readGesture` has a defined
result: no quad is dropped and no count `<= 32` is left. -/
theorem sortQuads_overflows_at_33 :
    (∃ g, sortQuads (List.replicate 32 (quad 20 20 20 20)) emptyData = some g ∧
      g.index = 32 ∧ g.total_gestures = 32 ∧
      storeQuad (quad 20 20 20 20) g = none) ∧
    sortQuads (List.replicate 33 (quad 20 20 20 20)) emptyData = none ∧
    readGesture specParams sampleConsts openEntry
        [drainPoll (List.replicate 33 (quad 20 20 20 20)), invalidPoll]
        (freshGlobals emptyData) = Run.undefined := by
  refine ⟨⟨sampleData (List.replicate 32 20) (List.replicate 32 20) (List.replicate 32 20)
    (List.replicate 32 20) 32, by decide, by decide, by decide, by decide⟩, by decide,
    by decide⟩

/-- C26 as amended: for every drain of at most 32 quads into the emptied buffer
(`index = total_gestures = 0`, as at the start of every pass), the sorting loop has a
defined result; the count after it is the number of quads of the drain, hence
`<= 32`; every quad of the drain is stored, in order; and the entries from the count
on are not altered. -/
theorem sortQuads_within_capacity (quads : List Quad) (g : gesture_data_type)
    (hi : g.index = 0) (ht : g.total_gestures = 0) (hw : wellFormed g)
    (hlen : quads.length ≤ 32) :
    ∃ g', sortQuads quads g = some g' ∧
      g'.total_gestures = quads.length ∧ g'.total_gestures ≤ 32 ∧
      g'.index = quads.length ∧ wellFormed g' ∧
      (∀ j q, quads[j]? = some q → quadAt g' j = q) ∧
      (∀ k, quads.length ≤ k → quadAt g' k = quadAt g k) := by
  obtain ⟨g', hs⟩ := (sortQuads_defined quads g).1 (by omega)
  obtain ⟨c1, c2, _, c4, _, c6, c7⟩ := sortQuads_spec _ _ _ hs
  refine ⟨g', hs, by omega, by omega, by omega, c4 hw, ?_, ?_⟩
  · intro j q hq
    have := c7 hw j q hq
    rwa [hi, Nat.zero_add] at this
  · intro k hk
    exact c6 k (by omega)

/-- C26 as amended, at a concrete input: the drain of eight quads into the empty
buffer leaves a count of 8 and the eight quads in the arrays. -/
theorem sortQuads_within_capacity_witness :
    ∃ g', sortQuads downQuads emptyData = some g' ∧ g'.total_gestures = 8 ∧
      quadAt g' 0 = quad 20 20 20 20 ∧ quadAt g' 7 = quad 27 13 20 20 ∧
      quadAt g' 8 = quadAt emptyData 8 := by
  obtain ⟨g', h1, h2, _, _, _, h6, h7⟩ := sortQuads_within_capacity downQuads emptyData
    (by decide) (by decide) (by decide) (by decide)
  exact ⟨g', h1, h2, h6 0 _ (by decide), h6 7 _ (by decide), h7 8 (by decide)⟩

/-- The entries of `quadBuffer` are the quads. -/
theorem quadAt_quadBuffer (quads : List Quad) (j : Nat) (q : Quad)
    (h : quads[j]? = some q) : quadAt (quadBuffer quads) j = q := by
  simp [quadAt, quadBuffer, readCell, List.getD_eq_getElem?_getD, List.getElem?_map, h]

/-- `bufferStep` depends on the buffer through its count and its first
`total_gestures` quads only. -/
theorem bufferStep_congr (P : Params) (g1 g2 : gesture_data_type)
    (hn : g1.total_gestures = g2.total_gestures)
    (hagree : ∀ i, i < g1.total_gestures → quadAt g1 i = quadAt g2 i) :
    bufferStep P g1 = bufferStep P g2 := by
  obtain ⟨hf, hl⟩ := firstQuad_lastQuad_congr P g1 g2 hn hagree
  simp only [bufferStep, hn, hf, hl]

/-- C22: end to end.  Start from the reset state with the entry test passing.  If the
first pass finds valid data and drains 8 quads whose first and last qualifying quads
give a U/D step `>= GESTURE_SENSITIVITY_1` and an L/R step of magnitude
`< GESTURE_SENSITIVITY_1`, and the second pass finds the valid bit clear, then
`readGesture` returns `DIR_DOWN`, and on return the classifier state is zero with
motion state `NONE`, the buffer index and count are 0 and the stored symbol is
`DIR_NONE`. -/
theorem readGesture_end_to_end (P : Params) (R : SensorConsts) (entry : Entry)
    (s0 : Globals) (v1 n : Nat) (quads : List Quad) (p2 : Poll) (rest : List Poll)
    (ud lr : Int) (v2 : Nat)
    (hopen : entryRefused R entry = false)
    (hwf : wellFormed s0.gesture_data_)
    (hv1 : v1 &&& R.APDS9960_GVALID = R.APDS9960_GVALID)
    (hlen : quads.length = 8) (hn : 8 ≤ n)
    (hstep : bufferStep P (quadBuffer quads) = some (ud, lr))
    (hud : ud ≥ P.GESTURE_SENSITIVITY_1) (hlr : |lr| < P.GESTURE_SENSITIVITY_1)
    (hp2 : p2.gstatus = some v2)
    (hv2 : v2 &&& R.APDS9960_GVALID ≠ R.APDS9960_GVALID) :
    ∃ s', readGesture P R entry
        ({ gstatus := some v1, fifo_level := some n, fifo := some quads } :: p2 :: rest)
        (resetGestureParameters s0) = Run.returned GestureSymbol.DIR_DOWN s' ∧
      classifierState s' = (0, 0, 0, 0, 0, 0, MotionState.NONE) ∧
      s'.gesture_data_.index = 0 ∧ s'.gesture_data_.total_gestures = 0 ∧
      s'.gesture_motion_ = GestureSymbol.DIR_NONE := by
  have htake : quads.take n = quads := List.take_of_length_le (by omega)
  have hne : quads.take n ≠ [] := by
    rw [htake]; intro h0; rw [h0] at hlen; simp at hlen
  -- the drain
  obtain ⟨g, hs, g1, _, _, _, g5, _⟩ := sortQuads_within_capacity quads
    (resetGestureParameters s0).gesture_data_ rfl rfl hwf (by omega)
  have hbs : bufferStep P g = some (ud, lr) := by
    rw [← hstep]
    refine bufferStep_congr P g (quadBuffer quads) g1 ?_
    intro i hi
    rw [g1] at hi
    obtain ⟨q, hq⟩ : ∃ q, quads[i]? = some q := ⟨quads[i], List.getElem?_eq_getElem hi⟩
    rw [g5 i q hq, quadAt_quadBuffer quads i q hq]
  obtain ⟨h4, h32, hz, hst⟩ := bufferStep_some P g ud lr hbs
  -- the call of processGestureData
  obtain ⟨hl1, hl2⟩ := abs_lt.1 hlr
  have hcu : swipeCount P (0 + ud) = 1 := by simp [swipeCount, hud]
  have hcl : swipeCount P (0 + lr) = 0 := by
    have a : ¬ lr ≥ P.GESTURE_SENSITIVITY_1 := by omega
    have b : ¬ lr ≤ -P.GESTURE_SENSITIVITY_1 := by omega
    simp [swipeCount, a, b]
  have hnc : (nearFar P ud lr (accumulate P ud lr
      { resetGestureParameters s0 with gesture_data_ := g })).1 ≠ ProcExit.Confirmed := by
    intro h
    have := ((nearFar_confirmed_iff P ud lr _).1 h).1
    rw [show ({ resetGestureParameters s0 with gesture_data_ := g } : Globals).gesture_ud_delta_
      = 0 from rfl, hcu] at this
    exact absurd this (by decide)
  have hnv : (nearFar P ud lr (accumulate P ud lr
      { resetGestureParameters s0 with gesture_data_ := g })).1 = ProcExit.NoVerdict := by
    rcases nearFar_exit P ud lr (accumulate P ud lr
      { resetGestureParameters s0 with gesture_data_ := g }) with h | h
    · exact absurd h hnc
    · exact h
  have hnf : ¬ stabilizationFires P ud lr
      { resetGestureParameters s0 with gesture_data_ := g } := by
    rintro ⟨_, _, _, h10⟩
    have h0 : ({ resetGestureParameters s0 with gesture_data_ := g } : Globals).gesture_near_count_
      = 0 := rfl
    rw [h0] at h10
    split_ifs at h10 <;> omega
  obtain ⟨_, _, d3, d4⟩ := (nearFar_deltas P ud lr _).2 hnf
  have hstate := nearFar_state P ud lr { resetGestureParameters s0 with gesture_data_ := g }
  rw [if_neg hnc] at hstate
  have hcall := processGestureData_of_step P
    { resetGestureParameters s0 with gesture_data_ := g } ud lr h4 h32 hz hst
  rw [hnv] at hcall
  have hstep1 : pollStep P R { gstatus := some v1, fifo_level := some n, fifo := some quads }
      (resetGestureParameters s0) =
      StepResult.next (resetData (nearFar P ud lr (accumulate P ud lr
        { resetGestureParameters s0 with gesture_data_ := g })).2) := by
    rw [pollStep_block P R _ (resetGestureParameters s0) v1 n quads g rfl hv1 rfl (by omega)
      rfl hne (by rw [htake]; omega) (by rw [htake]; exact hs)]
    simp only [classifyDrain, hcall, ProcExit.toBool]
  -- the decode of the second pass
  have hdec : decodeGesture (resetData (nearFar P ud lr (accumulate P ud lr
      { resetGestureParameters s0 with gesture_data_ := g })).2) =
      (true, { resetData (nearFar P ud lr (accumulate P ud lr
        { resetGestureParameters s0 with gesture_data_ := g })).2 with
          gesture_motion_ := GestureSymbol.DIR_DOWN }) := by
    have e1 : (resetData (nearFar P ud lr (accumulate P ud lr
        { resetGestureParameters s0 with gesture_data_ := g })).2).gesture_state_
        = MotionState.NONE := hstate
    have e2 : (resetData (nearFar P ud lr (accumulate P ud lr
        { resetGestureParameters s0 with gesture_data_ := g })).2).gesture_ud_count_
        = 1 := by
      show (nearFar P ud lr (accumulate P ud lr
        { resetGestureParameters s0 with gesture_data_ := g })).2.gesture_ud_count_ = 1
      rw [d3]; exact hcu
    have e3 : (resetData (nearFar P ud lr (accumulate P ud lr
        { resetGestureParameters s0 with gesture_data_ := g })).2).gesture_lr_count_
        = 0 := by
      show (nearFar P ud lr (accumulate P ud lr
        { resetGestureParameters s0 with gesture_data_ := g })).2.gesture_lr_count_ = 0
      rw [d4]; exact hcl
    simp [decodeGesture, setMotion, e1, e2, e3]
  refine ⟨resetGestureParameters (resetData (nearFar P ud lr (accumulate P ud lr
      { resetGestureParameters s0 with gesture_data_ := g })).2), ?_, rfl, rfl, rfl, rfl⟩
  rw [readGesture_open P R entry _ _ hopen]
  simp only [pollLoop, hstep1, pollStep_invalid P R p2 _ v2 hp2 hv2, hdec,
    resetGestureParameters_decodeGesture]
  rfl

/-- C22 at a concrete input: eight quads from `(20, 20, 20, 20)` to `(27, 13, 20, 20)`,
the step `(35, 0)` with sensitivity 30, then an invalid pass. -/
theorem readGesture_end_to_end_witness :
    ∃ s', readGesture specParams sampleConsts openEntry
        ({ gstatus := some 1, fifo_level := some 8, fifo := some downQuads } ::
          invalidPoll :: [])
        (resetGestureParameters (sessionGlobals flatData 59 1 9 1)) =
        Run.returned GestureSymbol.DIR_DOWN s' ∧
      classifierState s' = (0, 0, 0, 0, 0, 0, MotionState.NONE) ∧
      s'.gesture_data_.index = 0 ∧ s'.gesture_data_.total_gestures = 0 ∧
      s'.gesture_motion_ = GestureSymbol.DIR_NONE :=
  readGesture_end_to_end specParams sampleConsts openEntry (sessionGlobals flatData 59 1 9 1)
    1 8 downQuads invalidPoll [] 35 0 0 (by decide) (by decide) (by decide) (by decide)
    (by decide) (by decide) (by decide) (by decide) (by decide) (by decide)

/-! ### Claims on the motion state and the stored symbol -/

/-- The value of a swipe count after its recomputation is `-1`, `0` or `1`. -/
theorem swipeCount_range (P : Params) (delta : Int) :
    swipeCount P delta = -1 ∨ swipeCount P delta = 0 ∨ swipeCount P delta = 1 := by
  unfold swipeCount
  split_ifs <;> simp

/-- What a returning call of `processGestureData` does to the fields the classifier
shares with `decodeGesture` and `readGesture`: the stored symbol and the buffer are not
written; the motion state is left alone or, on the `return true` path only, set to
`NEAR_STATE` or `FAR_STATE`; on the `return true` path both swipe counts are 0; and
swipe counts in `{-1, 0, 1}` stay there. -/
theorem processGestureDataExit_effect (P : Params) (s : Globals) (e : ProcExit)
    (s' : Globals) (h : processGestureDataExit P s = some (e, s')) :
    s'.gesture_motion_ = s.gesture_motion_ ∧ s'.gesture_data_ = s.gesture_data_ ∧
    (s'.gesture_state_ = s.gesture_state_ ∨
      (e = ProcExit.Confirmed ∧
        (s'.gesture_state_ = MotionState.NEAR_STATE ∨
          s'.gesture_state_ = MotionState.FAR_STATE))) ∧
    (e = ProcExit.Confirmed → s'.gesture_ud_count_ = 0 ∧ s'.gesture_lr_count_ = 0) ∧
    ((s.gesture_ud_count_ = -1 ∨ s.gesture_ud_count_ = 0 ∨ s.gesture_ud_count_ = 1) →
      (s'.gesture_ud_count_ = -1 ∨ s'.gesture_ud_count_ = 0 ∨ s'.gesture_ud_count_ = 1)) ∧
    ((s.gesture_lr_count_ = -1 ∨ s.gesture_lr_count_ = 0 ∨ s.gesture_lr_count_ = 1) →
      (s'.gesture_lr_count_ = -1 ∨ s'.gesture_lr_count_ = 0 ∨ s'.gesture_lr_count_ = 1)) := by
  rcases processGestureDataExit_cases P s e s' h with
    ⟨_, he, hs⟩ | ⟨_, _, _, he, hs⟩ | ⟨_, _, _, ud, lr, _, hn⟩
  · subst hs; subst he
    exact ⟨rfl, rfl, Or.inl rfl, (fun hc => by cases hc), id, id⟩
  · subst hs; subst he
    exact ⟨rfl, rfl, Or.inl rfl, (fun hc => by cases hc), id, id⟩
  · have he : e = (nearFar P ud lr (accumulate P ud lr s)).1 := congrArg Prod.fst hn
    have hs : s' = (nearFar P ud lr (accumulate P ud lr s)).2 := congrArg Prod.snd hn
    have hfr := nearFar_frame P ud lr s
    have hst := nearFar_state P ud lr s
    have hd := nearFar_deltas P ud lr s
    have hci := nearFar_confirmed_iff P ud lr s
    rw [← he] at hst hci
    rw [← hs] at hfr hst hd
    have hcounts : (s'.gesture_ud_count_ = 0 ∧ s'.gesture_lr_count_ = 0) ∨
        (s'.gesture_ud_count_ = swipeCount P (s.gesture_ud_delta_ + ud) ∧
          s'.gesture_lr_count_ = swipeCount P (s.gesture_lr_delta_ + lr)) := by
      by_cases hf : stabilizationFires P ud lr s
      · exact Or.inl ⟨(hd.1 hf).2.2.1, (hd.1 hf).2.2.2⟩
      · exact Or.inr ⟨(hd.2 hf).2.2.1, (hd.2 hf).2.2.2⟩
    refine ⟨hfr.2, hfr.1, ?_, ?_, ?_, ?_⟩
    · by_cases hc : e = ProcExit.Confirmed
      · rw [if_pos hc] at hst
        by_cases hz : ud = 0 ∧ lr = 0
        · rw [if_pos hz] at hst; exact Or.inr ⟨hc, Or.inl hst⟩
        · rw [if_neg hz] at hst
          by_cases hb : ud ≠ 0 ∧ lr ≠ 0
          · rw [if_pos hb] at hst; exact Or.inr ⟨hc, Or.inr hst⟩
          · rw [if_neg hb] at hst; exact Or.inl hst
      · rw [if_neg hc] at hst; exact Or.inl hst
    · intro hc
      have h0 := hci.1 hc
      rcases hcounts with h1 | h1
      · exact h1
      · exact ⟨h1.1.trans h0.1, h1.2.trans h0.2.1⟩
    · intro _
      rcases hcounts with h1 | h1
      · exact Or.inr (Or.inl h1.1)
      · rw [h1.1]; exact swipeCount_range P _
    · intro _
      rcases hcounts with h1 | h1
      · exact Or.inr (Or.inl h1.2)
      · rw [h1.2]; exact swipeCount_range P _

/-- C31: a confirmed motion state is cleared by the reset only.  From globals whose
motion state is `NEAR_STATE` or `FAR_STATE`, every returning call of
`processGestureData` leaves the motion state at `NEAR_STATE` or `FAR_STATE` (and the
call returns for every buffer of at most 32 entries when the threshold is `>= 0`);
`decodeGesture` leaves the motion state as it is; `resetGestureParameters` sets it to
`NONE`. -/
theorem confirmed_state_kept (P : Params) (s : Globals)
    (hc : s.gesture_state_ = MotionState.NEAR_STATE ∨
      s.gesture_state_ = MotionState.FAR_STATE) :
    (∀ b s', processGestureData P s = some (b, s') →
      s'.gesture_state_ = MotionState.NEAR_STATE ∨
        s'.gesture_state_ = MotionState.FAR_STATE) ∧
    (0 ≤ P.GESTURE_THRESHOLD_OUT → s.gesture_data_.total_gestures ≤ 32 →
      ∃ b s', processGestureData P s = some (b, s') ∧
        (s'.gesture_state_ = MotionState.NEAR_STATE ∨
          s'.gesture_state_ = MotionState.FAR_STATE)) ∧
    ((decodeGesture s).2.gesture_state_ = s.gesture_state_ ∧
      (decodeGesture s).2.gesture_state_ ≠ MotionState.NONE) ∧
    (resetGestureParameters s).gesture_state_ = MotionState.NONE := by
  have keep : ∀ b s', processGestureData P s = some (b, s') →
      s'.gesture_state_ = MotionState.NEAR_STATE ∨
        s'.gesture_state_ = MotionState.FAR_STATE := by
    intro b s' h
    obtain ⟨e, he, _⟩ := (processGestureData_eq_some P s b s').1 h
    rcases (processGestureDataExit_effect P s e s' he).2.2.1 with h1 | h1
    · rw [h1]; exact hc
    · exact h1.2
  have hdec : (decodeGesture s).2.gesture_state_ = s.gesture_state_ := by
    rcases decodeGesture_outcomes s with h | ⟨m, h⟩ <;> rw [h]
  refine ⟨keep, ?_, ⟨hdec, ?_⟩, rfl⟩
  · intro hT h32
    obtain ⟨e, s', he⟩ := processGestureDataExit_returns P s hT h32
    have h : processGestureData P s = some (e.toBool, s') :=
      (processGestureData_eq_some P s e.toBool s').2 ⟨e, he, rfl⟩
    exact ⟨e.toBool, s', h, keep _ _ h⟩
  · rw [hdec]
    rcases hc with h | h <;> rw [h] <;> decide
/-- C31 at a concrete input: from the motion state `NEAR_STATE` with run counters 10
and 1, the call on the five-quad buffer with step `(9, 9)` returns true and leaves the
motion state `FAR_STATE`, a confirmed state again; the reset sets it to `NONE`. -/
theorem confirmed_state_kept_witness :
    (∃ b s', processGestureData sampleParams
        { sessionGlobals driftData 0 0 10 1 with gesture_state_ := MotionState.NEAR_STATE }
          = some (b, s') ∧
        (s'.gesture_state_ = MotionState.NEAR_STATE ∨
          s'.gesture_state_ = MotionState.FAR_STATE)) ∧
    (processGestureData sampleParams
        { sessionGlobals driftData 0 0 10 1 with gesture_state_ := MotionState.NEAR_STATE }
      ).map (fun r => (r.1, r.2.gesture_state_)) = some (true, MotionState.FAR_STATE) ∧
    (resetGestureParameters
        { sessionGlobals driftData 0 0 10 1 with gesture_state_ := MotionState.NEAR_STATE }
      ).gesture_state_ = MotionState.NONE :=
  ⟨(confirmed_state_kept sampleParams
      { sessionGlobals driftData 0 0 10 1 with gesture_state_ := MotionState.NEAR_STATE }
      (Or.inl rfl)).2.1 (by decide) (by decide),
    by decide,
    (confirmed_state_kept sampleParams
      { sessionGlobals driftData 0 0 10 1 with gesture_state_ := MotionState.NEAR_STATE }
      (Or.inl rfl)).2.2.2⟩


/-- The symbol `decodeGesture` stores when it returns true is a gesture: neither
`DIR_NONE` nor `ERROR`. -/
theorem decodeGesture_symbol (s : Globals) :
    decodeGesture s = (false, s) ∨
    ∃ m, m ≠ GestureSymbol.DIR_NONE ∧ m ≠ GestureSymbol.ERROR ∧
      decodeGesture s = (true, { s with gesture_motion_ := m }) := by
  unfold decodeGesture
  by_cases h0 : s.gesture_state_ = MotionState.NEAR_STATE
  · rw [if_pos h0]; exact Or.inr ⟨GestureSymbol.DIR_NEAR, by decide, by decide, rfl⟩
  rw [if_neg h0]
  by_cases h1 : s.gesture_state_ = MotionState.FAR_STATE
  · rw [if_pos h1]; exact Or.inr ⟨GestureSymbol.DIR_FAR, by decide, by decide, rfl⟩
  rw [if_neg h1]
  by_cases h2 : s.gesture_ud_count_ = -1 ∧ s.gesture_lr_count_ = 0
  · rw [if_pos h2]; exact Or.inr ⟨GestureSymbol.DIR_UP, by decide, by decide, rfl⟩
  rw [if_neg h2]
  by_cases h3 : s.gesture_ud_count_ = 1 ∧ s.gesture_lr_count_ = 0
  · rw [if_pos h3]; exact Or.inr ⟨GestureSymbol.DIR_DOWN, by decide, by decide, rfl⟩
  rw [if_neg h3]
  by_cases h4 : s.gesture_ud_count_ = 0 ∧ s.gesture_lr_count_ = 1
  · rw [if_pos h4]; exact Or.inr ⟨GestureSymbol.DIR_RIGHT, by decide, by decide, rfl⟩
  rw [if_neg h4]
  by_cases h5 : s.gesture_ud_count_ = 0 ∧ s.gesture_lr_count_ = -1
  · rw [if_pos h5]; exact Or.inr ⟨GestureSymbol.DIR_LEFT, by decide, by decide, rfl⟩
  rw [if_neg h5]
  by_cases h6 : s.gesture_ud_count_ = -1 ∧ s.gesture_lr_count_ = 1
  · rw [if_pos h6]
    by_cases hg : |s.gesture_ud_delta_| > |s.gesture_lr_delta_|
    · rw [if_pos hg]; exact Or.inr ⟨GestureSymbol.DIR_UP, by decide, by decide, rfl⟩
    · rw [if_neg hg]; exact Or.inr ⟨GestureSymbol.DIR_RIGHT, by decide, by decide, rfl⟩
  rw [if_neg h6]
  by_cases h7 : s.gesture_ud_count_ = 1 ∧ s.gesture_lr_count_ = -1
  · rw [if_pos h7]
    by_cases hg : |s.gesture_ud_delta_| > |s.gesture_lr_delta_|
    · rw [if_pos hg]; exact Or.inr ⟨GestureSymbol.DIR_DOWN, by decide, by decide, rfl⟩
    · rw [if_neg hg]; exact Or.inr ⟨GestureSymbol.DIR_LEFT, by decide, by decide, rfl⟩
  rw [if_neg h7]
  by_cases h8 : s.gesture_ud_count_ = -1 ∧ s.gesture_lr_count_ = -1
  · rw [if_pos h8]
    by_cases hg : |s.gesture_ud_delta_| > |s.gesture_lr_delta_|
    · rw [if_pos hg]; exact Or.inr ⟨GestureSymbol.DIR_UP, by decide, by decide, rfl⟩
    · rw [if_neg hg]; exact Or.inr ⟨GestureSymbol.DIR_LEFT, by decide, by decide, rfl⟩
  rw [if_neg h8]
  by_cases h9 : s.gesture_ud_count_ = 1 ∧ s.gesture_lr_count_ = 1
  · rw [if_pos h9]
    by_cases hg : |s.gesture_ud_delta_| > |s.gesture_lr_delta_|
    · rw [if_pos hg]; exact Or.inr ⟨GestureSymbol.DIR_DOWN, by decide, by decide, rfl⟩
    · rw [if_neg hg]; exact Or.inr ⟨GestureSymbol.DIR_RIGHT, by decide, by decide, rfl⟩
  rw [if_neg h9]
  exact Or.inl rfl

/-- The reset state satisfies the session predicate. -/
theorem symbolInv_reset (s : Globals) : symbolInv (resetGestureParameters s) := by
  refine ⟨Or.inr (Or.inl rfl), Or.inr (Or.inl rfl), ?_⟩
  intro h
  exact absurd rfl h

/-- The session predicate does not look at the buffer. -/
theorem symbolInv_withData (s : Globals) (g : gesture_data_type) :
    symbolInv { s with gesture_data_ := g } ↔ symbolInv s := Iff.rfl

/-- A returning call of `processGestureData` keeps the session predicate. -/
theorem symbolInv_processGestureData (P : Params) (s : Globals) (b : Bool) (s' : Globals)
    (hI : symbolInv s) (h : processGestureData P s = some (b, s')) :
    symbolInv s' ∧ (b = true → s'.gesture_ud_count_ = 0 ∧ s'.gesture_lr_count_ = 0) := by
  obtain ⟨e, he, hb⟩ := (processGestureData_eq_some P s b s').1 h
  obtain ⟨hm, _, hst, hc, hud, hlr⟩ := processGestureDataExit_effect P s e s' he
  refine ⟨⟨hud hI.1, hlr hI.2.1, ?_⟩, ?_⟩
  · intro hne
    rcases hst with h1 | h1
    · rw [hm] at hne
      have := hI.2.2 hne
      unfold confirmed at this ⊢
      rw [h1]; exact this
    · exact h1.2
  · intro hb1
    apply hc
    cases e <;> simp [ProcExit.toBool] at hb <;> first | rfl | (rw [hb1] at hb; cases hb)

/-- After a call of `processGestureData` that returned true, `decodeGesture` keeps the
session predicate: with both swipe counts 0 it stores a symbol only from a confirmed
motion state. -/
theorem symbolInv_decodeGesture (s : Globals) (hI : symbolInv s)
    (hud : s.gesture_ud_count_ = 0) (hlr : s.gesture_lr_count_ = 0) :
    symbolInv (decodeGesture s).2 := by
  obtain ⟨hf, hfail, hok⟩ := decodeGesture_fails_iff s hI.1 hI.2.1
  cases hb : (decodeGesture s).1 with
  | false => rw [hfail hb]; exact hI
  | true =>
    obtain ⟨m, hm⟩ := hok hb
    rw [hm]
    refine ⟨hI.1, hI.2.1, fun _ => ?_⟩
    by_contra hn
    have hn2 : s.gesture_state_ ≠ MotionState.NEAR_STATE ∧
        s.gesture_state_ ≠ MotionState.FAR_STATE := by
      unfold confirmed at hn
      exact ⟨fun h => hn (Or.inl h), fun h => hn (Or.inr h)⟩
    have := hf.2 ⟨hn2, hud, hlr⟩
    rw [hb] at this
    cases this

/-- The classification of a drain keeps the session predicate. -/
theorem symbolInv_classifyDrain (P : Params) (s s' : Globals) (hI : symbolInv s)
    (h : classifyDrain P s = StepResult.next s') : symbolInv s' := by
  unfold classifyDrain at h
  cases hp : processGestureData P s with
  | none => simp [hp] at h
  | some r =>
    obtain ⟨b, s1⟩ := r
    obtain ⟨hI1, hc⟩ := symbolInv_processGestureData P s b s1 hI hp
    cases b
    · simp only [hp, StepResult.next.injEq] at h
      subst h
      exact hI1
    · simp only [hp, StepResult.next.injEq] at h
      subst h
      exact symbolInv_decodeGesture s1 hI1 (hc rfl).1 (hc rfl).2

/-- Every pass of the loop of `readGesture` that goes on keeps the session predicate. -/
theorem symbolInv_pollStep (P : Params) (R : SensorConsts) (p : Poll) (s s' : Globals)
    (hI : symbolInv s) (h : pollStep P R p s = StepResult.next s') : symbolInv s' := by
  rcases pollStep_cases P R p s with h1 | h1 | h1 | h1 | ⟨quads, g, _, _, _, h1⟩
  · rw [h1] at h; cases h
  · rw [h1] at h; cases h
  · rw [h1] at h
    simp only [StepResult.next.injEq] at h
    subst h; exact hI
  · rw [h1] at h; cases h
  · rw [h1] at h
    exact symbolInv_classifyDrain P _ s' ((symbolInv_withData s g).2 hI) h

/-- The session predicate holds at the start of every pass of the loop. -/
theorem symbolInv_pollLoop (P : Params) (R : SensorConsts) :
    ∀ (polls : List Poll) (s s' : Globals), symbolInv s →
      pollLoop P R polls s = Run.pending s' → symbolInv s' := by
  intro polls
  induction polls with
  | nil =>
    intro s s' hI h
    simp only [pollLoop, Run.pending.injEq] at h
    subst h; exact hI
  | cons p polls ih =>
    intro s s' hI h
    unfold pollLoop at h
    cases hp : pollStep P R p s with
    | next s1 =>
      simp only [hp] at h
      exact ih s1 s' (symbolInv_pollStep P R p s s1 hI hp) h
    | done m s1 => simp [hp] at h
    | undefined => simp [hp] at h

/-- C32: in a `readGesture` session started from the reset state, the globals `s` at
the start of every pass of the loop satisfy: a stored gesture symbol other than
`DIR_NONE` implies a confirmed motion state.  Consequently, when the pass finds the
valid bit clear, `readGesture` returns the symbol stored after the final
`decodeGesture`, and this symbol is `DIR_NONE` if and only if that `decodeGesture`
returns false, which is the case if and only if the motion state is `NONE` and both
swipe counts are 0. -/
theorem readGesture_none_iff_decode_fails (P : Params) (R : SensorConsts) (entry : Entry)
    (pre : List Poll) (p : Poll) (rest : List Poll) (t s : Globals) (v : Nat)
    (hopen : entryRefused R entry = false)
    (hpre : pollLoop P R pre (resetGestureParameters t) = Run.pending s)
    (hst : p.gstatus = some v)
    (hinv : v &&& R.APDS9960_GVALID ≠ R.APDS9960_GVALID) :
    (s.gesture_motion_ ≠ GestureSymbol.DIR_NONE →
      s.gesture_state_ = MotionState.NEAR_STATE ∨ s.gesture_state_ = MotionState.FAR_STATE) ∧
    readGesture P R entry (pre ++ p :: rest) (resetGestureParameters t) =
      Run.returned (decodeGesture s).2.gesture_motion_ (resetGestureParameters s) ∧
    ((decodeGesture s).2.gesture_motion_ = GestureSymbol.DIR_NONE ↔
      (decodeGesture s).1 = false) ∧
    ((decodeGesture s).1 = false ↔
      s.gesture_state_ = MotionState.NONE ∧
        s.gesture_ud_count_ = 0 ∧ s.gesture_lr_count_ = 0) := by
  have hI : symbolInv s := symbolInv_pollLoop P R pre _ s (symbolInv_reset t) hpre
  obtain ⟨hf, hfail, _⟩ := decodeGesture_fails_iff s hI.1 hI.2.1
  have hnone : s.gesture_state_ = MotionState.NONE ↔
      (s.gesture_state_ ≠ MotionState.NEAR_STATE ∧
        s.gesture_state_ ≠ MotionState.FAR_STATE) := by
    cases s.gesture_state_ <;> simp
  refine ⟨hI.2.2, ?_, ?_, ?_⟩
  · rw [readGesture_open P R entry _ _ hopen,
      pollLoop_append P R pre (p :: rest) _ s hpre]
    simp only [pollLoop, pollStep_invalid P R p s v hst hinv,
      resetGestureParameters_decodeGesture]
  · constructor
    · intro hm
      rcases decodeGesture_symbol s with h | ⟨m, hm1, _, h⟩
      · rw [h]
      · rw [h] at hm
        exact absurd hm hm1
    · intro hb
      rw [hfail hb]
      by_contra hne
      have hc := hI.2.2 hne
      have hn := (hf.1 hb).1
      unfold confirmed at hc
      rcases hc with h | h
      · exact hn.1 h
      · exact hn.2 h
  · rw [hf, hnone]
/-- C32 at two concrete sessions from the reset state.  After the drain of the eight
quads with step `(35, 0)` the invalid pass returns the symbol its `decodeGesture`
stores, `DIR_DOWN`, and that call returns true; with no drain at all the invalid pass
returns `DIR_NONE` and its `decodeGesture` returns false. -/
theorem readGesture_none_iff_decode_fails_witness :
    (readGesture specParams sampleConsts openEntry ([drainPoll downQuads] ++ invalidPoll :: [])
        (resetGestureParameters (freshGlobals emptyData)) =
      Run.returned
        (decodeGesture (swipeGlobals drainedData 35 0 1 0 MotionState.NONE)).2.gesture_motion_
        (resetGestureParameters (swipeGlobals drainedData 35 0 1 0 MotionState.NONE)) ∧
      (decodeGesture (swipeGlobals drainedData 35 0 1 0 MotionState.NONE)).2.gesture_motion_
        = GestureSymbol.DIR_DOWN ∧
      (decodeGesture (swipeGlobals drainedData 35 0 1 0 MotionState.NONE)).1 = true) ∧
    (readGesture specParams sampleConsts openEntry ([] ++ invalidPoll :: [])
        (resetGestureParameters (freshGlobals emptyData)) =
      Run.returned
        (decodeGesture (resetGestureParameters (freshGlobals emptyData))).2.gesture_motion_
        (resetGestureParameters (resetGestureParameters (freshGlobals emptyData))) ∧
      ((decodeGesture (resetGestureParameters (freshGlobals emptyData))).2.gesture_motion_
          = GestureSymbol.DIR_NONE ↔
        (decodeGesture (resetGestureParameters (freshGlobals emptyData))).1 = false) ∧
      (decodeGesture (resetGestureParameters (freshGlobals emptyData))).1 = false) :=
  ⟨⟨(readGesture_none_iff_decode_fails specParams sampleConsts openEntry
        [drainPoll downQuads] invalidPoll [] (freshGlobals emptyData)
        (swipeGlobals drainedData 35 0 1 0 MotionState.NONE) 0
        (by decide) (by decide) (by decide) (by decide)).2.1,
      by decide, by decide⟩,
    ⟨(readGesture_none_iff_decode_fails specParams sampleConsts openEntry
        [] invalidPoll [] (freshGlobals emptyData)
        (resetGestureParameters (freshGlobals emptyData)) 0
        (by decide) (by decide) (by decide) (by decide)).2.1,
      (readGesture_none_iff_decode_fails specParams sampleConsts openEntry
        [] invalidPoll [] (freshGlobals emptyData)
        (resetGestureParameters (freshGlobals emptyData)) 0
        (by decide) (by decide) (by decide) (by decide)).2.2.1,
      by decide⟩⟩


/-! ### Claims on the mirror symmetry -/

/-- Exchanging up and down does not change which quads qualify. -/
theorem aboveThreshold_swapUpDown (P : Params) (g : gesture_data_type) :
    aboveThreshold P (swapUpDown g) = aboveThreshold P g := by
  funext i
  simp only [aboveThreshold, swapUpDown]
  cases decide ((readCell g.u_data i : Int) > P.GESTURE_THRESHOLD_OUT) <;>
    cases decide ((readCell g.d_data i : Int) > P.GESTURE_THRESHOLD_OUT) <;> rfl

/-- The quads of the exchanged buffer are the exchanged quads. -/
theorem quadAt_swapUpDown (g : gesture_data_type) (i : Nat) :
    quadAt (swapUpDown g) i = swapQuad (quadAt g i) := rfl

/-- The `first` and `last` quads of the exchanged buffer are the exchanged `first` and
`last` quads. -/
theorem firstQuad_lastQuad_swapUpDown (P : Params) (g : gesture_data_type) :
    firstQuad P (swapUpDown g) = swapQuad (firstQuad P g) ∧
    lastQuad P (swapUpDown g) = swapQuad (lastQuad P g) := by
  unfold firstQuad lastQuad
  rw [aboveThreshold_swapUpDown]
  have ht : (swapUpDown g).total_gestures = g.total_gestures := rfl
  rw [ht]
  constructor
  · cases scanForward (aboveThreshold P g) g.total_gestures 0 <;> rfl
  · cases scanBackward (aboveThreshold P g) g.total_gestures <;> rfl

/-- Under truncating division the ratio of exchanged channels is the negated ratio. -/
theorem ratio_swap (a b : Nat) : ratio b a = (ratio a b).map (fun x => -x) := by
  unfold ratio
  by_cases h : (a : Int) + (b : Int) = 0
  · have h2 : (b : Int) + (a : Int) = 0 := by omega
    rw [if_pos h, if_pos h2]; rfl
  · have h2 : ¬ (b : Int) + (a : Int) = 0 := by omega
    rw [if_neg h, if_neg h2]
    simp only [Option.map_some', Option.some.injEq]
    rw [← Int.neg_tdiv, Int.add_comm (b : Int) (a : Int)]
    congr 1
    ring

/-- The step of exchanged quads: the U/D component is negated. -/
theorem stepDeltas_swapQuad (first last : Quad) :
    stepDeltas (swapQuad first) (swapQuad last) =
      (stepDeltas first last).map (fun r => (-r.1, r.2)) := by
  unfold stepDeltas
  simp only [swapQuad]
  rw [ratio_swap first.u first.d, ratio_swap last.u last.d]
  cases ratio first.u first.d <;> cases ratio first.l first.r <;>
    cases ratio last.u last.d <;> cases ratio last.l last.r <;>
    simp
  omega

/-- For a swipe sensitivity `> 0` the swipe count of a negated delta is the negated
swipe count. -/
theorem swipeCount_neg (P : Params) (hS1 : 0 < P.GESTURE_SENSITIVITY_1) (delta : Int) :
    swipeCount P (-delta) = -swipeCount P delta := by
  unfold swipeCount
  split_ifs <;> first | rfl | omega

/-- The accumulation commutes with the mirror. -/
theorem accumulate_mirror (P : Params) (hS1 : 0 < P.GESTURE_SENSITIVITY_1) (ud lr : Int)
    (s : Globals) :
    accumulate P (-ud) lr (mirror s) = mirror (accumulate P ud lr s) := by
  simp only [accumulate, mirror]
  rw [show -s.gesture_ud_delta_ + -ud = -(s.gesture_ud_delta_ + ud) by ring,
    swipeCount_neg P hS1]

/-- The near/far block commutes with the mirror. -/
theorem nearFar_mirror (P : Params) (ud lr : Int) (t : Globals) :
    nearFar P (-ud) lr (mirror t) = ((nearFar P ud lr t).1, mirror (nearFar P ud lr t).2) := by
  have hc : ((mirror t).gesture_ud_count_ = 0 ∧ (mirror t).gesture_lr_count_ = 0) ↔
      (t.gesture_ud_count_ = 0 ∧ t.gesture_lr_count_ = 0) := by
    simp [mirror]
  have hz : (-ud = 0 ∧ lr = 0) ↔ (ud = 0 ∧ lr = 0) := by simp
  by_cases hs : |ud| < P.GESTURE_SENSITIVITY_2 ∧ |lr| < P.GESTURE_SENSITIVITY_2
  · have hs' : |(-ud)| < P.GESTURE_SENSITIVITY_2 ∧ |lr| < P.GESTURE_SENSITIVITY_2 := by
      rw [abs_neg]; exact hs
    by_cases h0 : t.gesture_ud_count_ = 0 ∧ t.gesture_lr_count_ = 0
    · by_cases h1 : ud = 0 ∧ lr = 0
      · rw [nearFar_center_zero P (-ud) lr (mirror t) (hc.2 h0) hs' (hz.2 h1),
          nearFar_center_zero P ud lr t h0 hs h1]
        have hn : (mirror t).gesture_near_count_ = t.gesture_near_count_ := rfl
        have hf : (mirror t).gesture_far_count_ = t.gesture_far_count_ := rfl
        rw [hn, hf]
        split_ifs <;> rfl
      · rw [nearFar_center_move P (-ud) lr (mirror t) (hc.2 h0) hs' (fun h => h1 (hz.1 h)),
          nearFar_center_move P ud lr t h0 hs h1]
        have hn : (mirror t).gesture_near_count_ = t.gesture_near_count_ := rfl
        have hf : (mirror t).gesture_far_count_ = t.gesture_far_count_ := rfl
        rw [hn, hf]
        have hb : (-ud ≠ 0 ∧ lr ≠ 0) ↔ (ud ≠ 0 ∧ lr ≠ 0) := by simp
        by_cases h2 : ud ≠ 0 ∧ lr ≠ 0
        · rw [if_pos (hb.2 h2), if_pos h2]
          split_ifs <;> rfl
        · rw [if_neg (fun h => h2 (hb.1 h)), if_neg h2]
          split_ifs <;> rfl
    · rw [nearFar_swipe P (-ud) lr (mirror t) (fun h => h0 (hc.1 h)) hs',
        nearFar_swipe P ud lr t h0 hs]
      have hn : (mirror t).gesture_near_count_ = t.gesture_near_count_ := rfl
      rw [hn]
      by_cases h1 : ud = 0 ∧ lr = 0
      · rw [if_pos (hz.2 h1), if_pos h1]
        split_ifs <;> simp [mirror]
      · rw [if_neg (fun h => h1 (hz.1 h)), if_neg h1]
        split_ifs <;> simp [mirror]
  · have hs' : ¬ (|(-ud)| < P.GESTURE_SENSITIVITY_2 ∧ |lr| < P.GESTURE_SENSITIVITY_2) := by
      rw [abs_neg]; exact hs
    rw [nearFar_quiet P (-ud) lr (mirror t) hs', nearFar_quiet P ud lr t hs]

/-- A quad has a zero channel exactly when the exchanged quad has one. -/
theorem hasZeroChannel_swapQuad (q : Quad) : hasZeroChannel (swapQuad q) ↔ hasZeroChannel q := by
  unfold hasZeroChannel swapQuad
  simp only
  constructor <;> (intro h; rcases h with h | h | h | h) <;> simp [h]

/-- The part of `processGestureData` from the ratios on commutes with the mirror. -/
theorem classifyFrom_mirror (P : Params) (hS1 : 0 < P.GESTURE_SENSITIVITY_1)
    (first last : Quad) (s : Globals) :
    classifyFrom P (swapQuad first) (swapQuad last) (mirror s) =
      (classifyFrom P first last s).map (fun r => (r.1, mirror r.2)) := by
  unfold classifyFrom
  rw [stepDeltas_swapQuad]
  cases stepDeltas first last with
  | none => rfl
  | some r =>
    obtain ⟨ud, lr⟩ := r
    simp only [Option.map_some']
    rw [accumulate_mirror P hS1, nearFar_mirror]

/-- The body of `processGestureData` commutes with the mirror: same `return`
statement, mirrored globals. -/
theorem processGestureDataExit_mirror (P : Params) (hS1 : 0 < P.GESTURE_SENSITIVITY_1)
    (s : Globals) :
    processGestureDataExit P (mirror s) =
      (processGestureDataExit P s).map (fun r => (r.1, mirror r.2)) := by
  unfold processGestureDataExit
  have ht : (mirror s).gesture_data_.total_gestures = s.gesture_data_.total_gestures := rfl
  have hd : (mirror s).gesture_data_ = swapUpDown s.gesture_data_ := rfl
  have hzq : swapQuad zeroQuad = zeroQuad := rfl
  rw [ht, hd, (firstQuad_lastQuad_swapUpDown P s.gesture_data_).1,
    (firstQuad_lastQuad_swapUpDown P s.gesture_data_).2]
  by_cases h4 : s.gesture_data_.total_gestures ≤ 4
  · rw [if_pos h4, if_pos h4]; rfl
  · rw [if_neg h4, if_neg h4]
    by_cases h32 : s.gesture_data_.total_gestures ≤ 32 ∧ s.gesture_data_.total_gestures > 0
    · rw [if_pos h32, if_pos h32]
      by_cases hz : hasZeroChannel (firstQuad P s.gesture_data_)
      · simp only [if_pos hz, if_pos ((hasZeroChannel_swapQuad _).2 hz)]; rfl
      · simp only [if_neg hz, if_neg (fun h => hz ((hasZeroChannel_swapQuad _).1 h))]
        exact classifyFrom_mirror P hS1 _ _ s
    · rw [if_neg h32, if_neg h32]
      have := classifyFrom_mirror P hS1 zeroQuad zeroQuad s
      rwa [hzq] at this

/-- The function `decodeGesture` commutes with the mirror: it returns the same boolean,
and when it returns true the symbol it stores on the mirrored globals is the symbol it
stores on the original ones with `DIR_UP` and `DIR_DOWN` exchanged; when it returns
false the stored symbol is not written. -/
theorem decodeGesture_mirror (s : Globals) :
    (decodeGesture (mirror s)).1 = (decodeGesture s).1 ∧
    (decodeGesture (mirror s)).2.gesture_motion_ =
      (if (decodeGesture s).1 = true then exchangeUpDown (decodeGesture s).2.gesture_motion_
       else s.gesture_motion_) := by
  have hst : (mirror s).gesture_state_ = s.gesture_state_ := rfl
  have hud : (mirror s).gesture_ud_count_ = -s.gesture_ud_count_ := rfl
  have hlr : (mirror s).gesture_lr_count_ = s.gesture_lr_count_ := rfl
  have hudd : |(mirror s).gesture_ud_delta_| = |s.gesture_ud_delta_| := abs_neg _
  have hlrd : (mirror s).gesture_lr_delta_ = s.gesture_lr_delta_ := rfl
  have hmo : (mirror s).gesture_motion_ = s.gesture_motion_ := rfl
  have e1 : (-s.gesture_ud_count_ = -1) ↔ (s.gesture_ud_count_ = 1) := by
    constructor <;> intro h <;> omega
  have e2 : (-s.gesture_ud_count_ = 1) ↔ (s.gesture_ud_count_ = -1) := by
    constructor <;> intro h <;> omega
  have e3 : (-s.gesture_ud_count_ = 0) ↔ (s.gesture_ud_count_ = 0) := by
    constructor <;> intro h <;> omega
  unfold decodeGesture
  rw [hst, hud, hlr, hudd, hlrd]
  simp only [e1, e2, e3]
  by_cases h0 : s.gesture_state_ = MotionState.NEAR_STATE
  · simp only [if_pos h0]; exact ⟨rfl, rfl⟩
  simp only [if_neg h0]
  by_cases h1 : s.gesture_state_ = MotionState.FAR_STATE
  · simp only [if_pos h1]; exact ⟨rfl, rfl⟩
  simp only [if_neg h1]
  have hr : s.gesture_ud_count_ = -1 ∨ s.gesture_ud_count_ = 0 ∨ s.gesture_ud_count_ = 1 ∨
      (s.gesture_ud_count_ ≠ -1 ∧ s.gesture_ud_count_ ≠ 0 ∧ s.gesture_ud_count_ ≠ 1) := by
    omega
  have hl : s.gesture_lr_count_ = -1 ∨ s.gesture_lr_count_ = 0 ∨ s.gesture_lr_count_ = 1 ∨
      (s.gesture_lr_count_ ≠ -1 ∧ s.gesture_lr_count_ ≠ 0 ∧ s.gesture_lr_count_ ≠ 1) := by
    omega
  rcases hr with a | a | a | ⟨a1, a2, a3⟩ <;> rcases hl with b | b | b | ⟨b1, b2, b3⟩
  all_goals
    first
    | (simp only [a, b]; norm_num; (try split_ifs) <;> simp_all [setMotion, exchangeUpDown])
    | (simp only [a, b1, b2, b3]; norm_num; simp_all [setMotion, exchangeUpDown])
    | (simp only [a1, a2, a3, b]; norm_num; simp_all [setMotion, exchangeUpDown])
    | (simp only [a1, a2, a3, b1, b2, b3]; norm_num; simp_all [setMotion, exchangeUpDown])

/-- C33: mirror symmetry of the classifier.  For a swipe sensitivity `> 0` (and the
truncating division of the ratios), exchanging the up and down channels of every quad
of the buffer and negating `ud_delta` and `ud_count` in the globals makes
`processGestureData` return the same boolean and leave the mirrored globals: the same
ones with `ud_delta` and `ud_count` negated (and no defined result exactly when the
original call has none).  A following `decodeGesture` returns the same boolean on both
sides and, when it returns true, stores the same symbol with `DIR_UP` and `DIR_DOWN`
exchanged, at unequal and at equal magnitudes alike. -/
theorem processGestureData_mirror (P : Params) (s : Globals)
    (hS1 : 0 < P.GESTURE_SENSITIVITY_1) :
    processGestureData P (mirror s) =
      (processGestureData P s).map (fun r => (r.1, mirror r.2)) ∧
    (∀ b s', processGestureData P s = some (b, s') →
      processGestureData P (mirror s) = some (b, mirror s') ∧
      (mirror s').gesture_ud_delta_ = -s'.gesture_ud_delta_ ∧
      (mirror s').gesture_ud_count_ = -s'.gesture_ud_count_ ∧
      classifierState (mirror s') =
        (-s'.gesture_ud_delta_, s'.gesture_lr_delta_, -s'.gesture_ud_count_,
          s'.gesture_lr_count_, s'.gesture_near_count_, s'.gesture_far_count_,
          s'.gesture_state_) ∧
      (decodeGesture (mirror s')).1 = (decodeGesture s').1 ∧
      ((decodeGesture s').1 = true →
        (decodeGesture (mirror s')).2.gesture_motion_ =
          exchangeUpDown (decodeGesture s').2.gesture_motion_)) := by
  have hm : processGestureData P (mirror s) =
      (processGestureData P s).map (fun r => (r.1, mirror r.2)) := by
    unfold processGestureData
    rw [processGestureDataExit_mirror P hS1 s]
    cases processGestureDataExit P s <;> rfl
  refine ⟨hm, ?_⟩
  intro b s' h
  refine ⟨?_, rfl, rfl, rfl, (decodeGesture_mirror s').1, ?_⟩
  · rw [hm, h]; rfl
  · intro hb
    rw [(decodeGesture_mirror s').2, if_pos hb]

/-- C33 at a concrete input, swipe sensitivity 30: the call on the buffer with step
`(35, 0)` leaves `ud_delta = 35`, `ud_count = 1`, decoded as `DIR_DOWN`; the call on
the mirrored globals leaves the mirrored result, `ud_delta = -35`, `ud_count = -1`,
decoded as `DIR_UP`. -/
theorem processGestureData_mirror_witness :
    processGestureData specParams (freshGlobals downData) =
      some (false, swipeGlobals downData 35 0 1 0 MotionState.NONE) ∧
    processGestureData specParams (mirror (freshGlobals downData)) =
      some (false, mirror (swipeGlobals downData 35 0 1 0 MotionState.NONE)) ∧
    (mirror (swipeGlobals downData 35 0 1 0 MotionState.NONE)).gesture_ud_delta_ = -35 ∧
    (decodeGesture (swipeGlobals downData 35 0 1 0 MotionState.NONE)).2.gesture_motion_ =
      GestureSymbol.DIR_DOWN ∧
    (decodeGesture (mirror (swipeGlobals downData 35 0 1 0 MotionState.NONE))).2.gesture_motion_ =
      exchangeUpDown
        (decodeGesture (swipeGlobals downData 35 0 1 0 MotionState.NONE)).2.gesture_motion_ ∧
    (decodeGesture (mirror (swipeGlobals downData 35 0 1 0 MotionState.NONE))).2.gesture_motion_ =
      GestureSymbol.DIR_UP :=
  ⟨by decide,
    ((processGestureData_mirror specParams (freshGlobals downData) (by decide)).2
      false (swipeGlobals downData 35 0 1 0 MotionState.NONE) (by decide)).1,
    by decide, by decide,
    ((processGestureData_mirror specParams (freshGlobals downData) (by decide)).2
      false (swipeGlobals downData 35 0 1 0 MotionState.NONE) (by decide)).2.2.2.2.2
      (by decide),
    by decide⟩

/-! ### Claims on steady buffers -/

/-- Below a negative threshold every quad qualifies. -/
theorem aboveThreshold_of_neg (P : Params) (g : gesture_data_type) (i : Nat)
    (hT : P.GESTURE_THRESHOLD_OUT < 0) : aboveThreshold P g i = true := by
  have h1 := Int.natCast_nonneg (readCell g.u_data i)
  have h2 := Int.natCast_nonneg (readCell g.d_data i)
  have h3 := Int.natCast_nonneg (readCell g.l_data i)
  have h4 := Int.natCast_nonneg (readCell g.r_data i)
  simp only [aboveThreshold, Bool.and_eq_true, decide_eq_true_eq]
  refine ⟨⟨⟨?_, ?_⟩, ?_⟩, ?_⟩ <;> omega

/-- The step between a quad and itself is `(0, 0)`. -/
theorem stepDeltas_self (q : Quad) (ud lr : Int) (h : stepDeltas q q = some (ud, lr)) :
    ud = 0 ∧ lr = 0 := by
  unfold stepDeltas at h
  cases h1 : ratio q.u q.d with
  | none => simp [h1] at h
  | some a =>
    cases h2 : ratio q.l q.r with
    | none => simp [h1, h2] at h
    | some b =>
      simp only [h1, h2, Option.some.injEq, Prod.mk.injEq] at h
      constructor <;> omega

/-- A buffer of more than 4 entries in which exactly one quad qualifies: the threshold
is `>= 0`, and the `first` and the `last` quad are that one quad. -/
theorem single_qualifying (P : Params) (g : gesture_data_type) (i : Nat)
    (h4 : 4 < g.total_gestures) (hi : i < g.total_gestures)
    (ha : aboveThreshold P g i = true)
    (hu : ∀ k, k < g.total_gestures → aboveThreshold P g k = true → k = i) :
    0 ≤ P.GESTURE_THRESHOLD_OUT ∧ firstQuad P g = quadAt g i ∧ lastQuad P g = quadAt g i := by
  refine ⟨?_, ?_, ?_⟩
  · by_contra hT
    have hT' : P.GESTURE_THRESHOLD_OUT < 0 := by omega
    have h0 := hu 0 (by omega) (aboveThreshold_of_neg P g 0 hT')
    have h1 := hu 1 (by omega) (aboveThreshold_of_neg P g 1 hT')
    omega
  · obtain ⟨j, hj, haj, _, hf⟩ := firstQuad_of_exists P g ⟨i, hi, ha⟩
    rw [hf, hu j hj haj]
  · obtain ⟨j, hj, haj, _, hl⟩ := lastQuad_of_exists P g ⟨i, hi, ha⟩
    rw [hl, hu j hj haj]


/-- C34: a buffer with `4 < total_gestures <= 32` in which exactly one quad qualifies
(all four channels above `GESTURE_THRESHOLD_OUT`), or, for a threshold `>= 0`, whose
first and last qualifying quads are equal, gives the step `(0, 0)`.  The call of
`processGestureData` returns; the accumulators after the accumulation are the previous
ones, and so are the stored ones unless the stabilization reset zeroes them; and for
`GESTURE_SENSITIVITY_2 > 0` the call adds exactly 1 to `gesture_near_count_` and leaves
`gesture_far_count_` as it was. -/
theorem processGestureData_steady (P : Params) (s : Globals)
    (h4 : 4 < s.gesture_data_.total_gestures) (h32 : s.gesture_data_.total_gestures ≤ 32)
    (hq : (∃ i, i < s.gesture_data_.total_gestures ∧
            aboveThreshold P s.gesture_data_ i = true ∧
            ∀ k, k < s.gesture_data_.total_gestures →
              aboveThreshold P s.gesture_data_ k = true → k = i) ∨
          (0 ≤ P.GESTURE_THRESHOLD_OUT ∧
            (∃ i, i < s.gesture_data_.total_gestures ∧
              aboveThreshold P s.gesture_data_ i = true) ∧
            firstQuad P s.gesture_data_ = lastQuad P s.gesture_data_)) :
    stepDeltas (firstQuad P s.gesture_data_) (lastQuad P s.gesture_data_) = some (0, 0) ∧
    ∃ b s', processGestureData P s = some (b, s') ∧
      b = (nearFar P 0 0 (accumulate P 0 0 s)).1.toBool ∧
      s' = (nearFar P 0 0 (accumulate P 0 0 s)).2 ∧
      (accumulate P 0 0 s).gesture_ud_delta_ = s.gesture_ud_delta_ ∧
      (accumulate P 0 0 s).gesture_lr_delta_ = s.gesture_lr_delta_ ∧
      (stabilizationFires P 0 0 s →
        s'.gesture_ud_delta_ = 0 ∧ s'.gesture_lr_delta_ = 0) ∧
      (¬ stabilizationFires P 0 0 s →
        s'.gesture_ud_delta_ = s.gesture_ud_delta_ ∧
        s'.gesture_lr_delta_ = s.gesture_lr_delta_) ∧
      (0 < P.GESTURE_SENSITIVITY_2 →
        s'.gesture_near_count_ = s.gesture_near_count_ + 1 ∧
        s'.gesture_far_count_ = s.gesture_far_count_) := by
  have hbase : 0 ≤ P.GESTURE_THRESHOLD_OUT ∧
      (∃ i, i < s.gesture_data_.total_gestures ∧
        aboveThreshold P s.gesture_data_ i = true) ∧
      firstQuad P s.gesture_data_ = lastQuad P s.gesture_data_ := by
    rcases hq with ⟨i, hi, ha, hu⟩ | h
    · obtain ⟨hT, hf, hl⟩ := single_qualifying P s.gesture_data_ i h4 hi ha hu
      exact ⟨hT, ⟨i, hi, ha⟩, hf.trans hl.symm⟩
    · exact h
  obtain ⟨hT, hex, heq⟩ := hbase
  obtain ⟨hz, ud, lr, hstep⟩ := stepDeltas_defined P s.gesture_data_ hT hex
  have h00 : ud = 0 ∧ lr = 0 := by
    rw [← heq] at hstep
    exact stepDeltas_self _ ud lr hstep
  obtain ⟨rfl, rfl⟩ := h00
  refine ⟨hstep, _, _, processGestureData_of_step P s 0 0 h4 h32 hz hstep, rfl, rfl, ?_, ?_,
    ?_, ?_, ?_⟩
  · simp [accumulate]
  · simp [accumulate]
  · intro hf
    exact ⟨((nearFar_deltas P 0 0 s).1 hf).1, ((nearFar_deltas P 0 0 s).1 hf).2.1⟩
  · intro hf
    have h := (nearFar_deltas P 0 0 s).2 hf
    exact ⟨by rw [h.1, add_zero], by rw [h.2.1, add_zero]⟩
  · intro hS2
    have h := nearFar_counters P 0 0 s
    constructor
    · rw [h.1]; simp [hS2]
    · rw [h.2]; simp
/-- C34 at two concrete inputs, threshold 10 and near/far sensitivity 20.  In the first
buffer only the quad at index 2 qualifies; in the second all five quads are equal.
From `ud_delta = 40` and run counters 3 and 1 each call gives the step `(0, 0)`, keeps
`ud_delta = 40` and leaves the run counters 4 and 1. -/
theorem processGestureData_steady_witness :
    (stepDeltas (firstQuad sampleParams loneData) (lastQuad sampleParams loneData)
        = some (0, 0) ∧
      ∃ b s', processGestureData sampleParams (sessionGlobals loneData 40 0 3 1) = some (b, s') ∧
        s'.gesture_ud_delta_ = 40 ∧ s'.gesture_lr_delta_ = 0 ∧
        s'.gesture_near_count_ = 4 ∧ s'.gesture_far_count_ = 1) ∧
    (stepDeltas (firstQuad sampleParams flatData) (lastQuad sampleParams flatData)
        = some (0, 0) ∧
      ∃ b s', processGestureData sampleParams (sessionGlobals flatData 40 0 3 1) = some (b, s') ∧
        s'.gesture_ud_delta_ = 40 ∧ s'.gesture_lr_delta_ = 0 ∧
        s'.gesture_near_count_ = 4 ∧ s'.gesture_far_count_ = 1) := by
  have h1 := processGestureData_steady sampleParams (sessionGlobals loneData 40 0 3 1)
    (by decide) (by decide)
    (Or.inl ⟨2, by decide, by decide, by
      intro k hk
      have hk5 : k < 5 := hk
      interval_cases k <;> decide⟩)
  have h2 := processGestureData_steady sampleParams (sessionGlobals flatData 40 0 3 1)
    (by decide) (by decide)
    (Or.inr ⟨by decide, ⟨0, by decide, by decide⟩, by decide⟩)
  obtain ⟨a1, b1, s1, c1, _, _, _, _, _, d1, e1⟩ := h1
  obtain ⟨a2, b2, s2, c2, _, _, _, _, _, d2, e2⟩ := h2
  exact ⟨⟨a1, b1, s1, c1, (d1 (by decide)).1, (d1 (by decide)).2,
      (e1 (by decide)).1, (e1 (by decide)).2⟩,
    ⟨a2, b2, s2, c2, (d2 (by decide)).1, (d2 (by decide)).2,
      (e2 (by decide)).1, (e2 (by decide)).2⟩⟩

end GestureSensor
